import Mathlib

/-!
# Procedural building generator: shape grammar

A shallow embedding of the shape grammar of `main.cpp`: the transforms and
primitives (`scale`, `translate`, `rotate`, `gen_poly`, `cube`, `square`,
`polygon`), the facade grammar (`gen_windows`, `window_grammar`, `gen_level`,
`gen_facade`, `facade_grammar`), the mass composer (`gen_rectangle`,
`gen_polygon`, `gen_L`) and the top-level `grammar`, with the proofs of the
properties of its cell selection, row stacking, facade enumeration, rotation
order and mass geometry.

Conventions of the embedding:
* a C++ `double` is the rational number it holds (`ℚ`), a C++ `int` is an `Int`;
  the implicit conversion `double → int` is `toInt` (truncation toward zero);
* the facade grammar (`gen_windows` to `facade_grammar`) and the vertex arrays
  of `polygon` and of the overhang bands of `gen_L` are embedded with the exact
  arithmetic of `ℚ`: what is proved of them is which cells are built and which
  expressions the code evaluates;
* the scale and translation arguments of the primitive factory, of the mass
  composer and of `grammar` (`scale`, `gen_poly`, `cube`, `square`,
  `gen_rectangle`, `gen_polygon`, `gen_L`), and the tile sizes of `gen_level` in
  the namespace `Machine`, are embedded with the arithmetic of the machine:
  every operation on doubles gives the exact result rounded to the nearest
  binary64 value, ties to even (`fl`, `dadd`, `dsub`, `dmul`, `ddiv`), and the
  exact kernel of the geometry library then transforms the points with these
  values without further rounding;
* with a zero divisor a quotient of doubles is 0 here, where the machine gives
  an infinity or a NaN: the properties of quotients are stated for nonzero
  divisors; the division of two `int`s by zero and an array of negative size
  leave a call without a result (`none`);
* a `double[]` parameter array is a map from index to value (`DArray`);
* a `std::vector<std::vector<int>>` of three-element rows is a list of integer
  triples (`IntTriple`);
* a `Nef_polyhedron` is the tree of solid-modelling operations that builds it
  (`Solid`): a default-constructed polyhedron is `Solid.empty`, `a += b` is
  `Solid.union a b`, `a - b` is `Solid.diff a b`, and the in-place transforms
  wrap the tree in a node.  The five window recipes, the door recipe and the
  railing recipe are leaves that record the arguments they were called with; a
  polyhedron read from vertices or built by `hull` is a leaf that carries its
  point list (`Solid.poly`);
* the library functions `cos`, `sin` and `tan` (on radians) are parameters;
* an `Aff_transformation_3` given by nine entries and the homogenising weight
  `hw` is `Aff3`, and it maps a point to `1/hw` times the matrix product.
-/

namespace BuildingGen

/-! ## Data model -/

/-- A C++ `double[]` parameter array, read by index. -/
abbrev DArray := Int → ℚ

/-- One row of `remove_windows` or `railing_parameters`:
`(row[0], row[1], row[2])`. -/
abbrev IntTriple := Int × Int × Int

/-- A three-element `double coord[3]` or `double angle[3]`. -/
abbrev Vec3 := ℚ × ℚ × ℚ

/-- The C++ conversion of a `double` to an `int`: truncation toward zero. -/
def toInt (q : ℚ) : Int := if 0 ≤ q then Int.floor q else Int.ceil q

/-- The constant `PI` of the source. -/
def PI : ℚ := 3141592 / 1000000

/-- The tree of solid-modelling operations behind a `Nef_polyhedron`. -/
inductive Solid where
  | empty : Solid
  | window (style : Int) (window_width window_height : ℚ) : Solid
  | door (door_width door_height tile_width tile_height bottom_height : ℚ) : Solid
  | railing (tile_width tile_height railing_scale width : ℚ) : Solid
  | translate (x y z : ℚ) (s : Solid) : Solid
  | rotate (x y z : ℚ) (s : Solid) : Solid
  | union (a b : Solid) : Solid
  | poly (points : List Vec3) : Solid
  | scale (x y z : ℚ) (s : Solid) : Solid
  | diff (a b : Solid) : Solid
  deriving DecidableEq, Repr

namespace Solid

/-- A solid with no geometry: no leaf recipe or polyhedron occurs in its tree (in
the minuend, for a difference). -/
def isEmpty : Solid → Bool
  | empty => true
  | window _ _ _ => false
  | door _ _ _ _ _ => false
  | railing _ _ _ _ => false
  | translate _ _ _ s => s.isEmpty
  | rotate _ _ _ s => s.isEmpty
  | union a b => a.isEmpty && b.isEmpty
  | poly _ => false
  | scale _ _ _ s => s.isEmpty
  | diff a _ => a.isEmpty

/-- Number of window (opening) leaves of a solid. -/
def countWindows : Solid → Nat
  | empty => 0
  | window _ _ _ => 1
  | door _ _ _ _ _ => 0
  | railing _ _ _ _ => 0
  | translate _ _ _ s => s.countWindows
  | rotate _ _ _ s => s.countWindows
  | union a b => a.countWindows + b.countWindows
  | poly _ => 0
  | scale _ _ _ s => s.countWindows
  | diff a _ => a.countWindows

/-- Number of railing leaves of a solid. -/
def countRailings : Solid → Nat
  | empty => 0
  | window _ _ _ => 0
  | door _ _ _ _ _ => 0
  | railing _ _ _ _ => 1
  | translate _ _ _ s => s.countRailings
  | rotate _ _ _ s => s.countRailings
  | union a b => a.countRailings + b.countRailings
  | poly _ => 0
  | scale _ _ _ s => s.countRailings
  | diff a _ => a.countRailings

/-- Number of door leaves of a solid. -/
def countDoors : Solid → Nat
  | empty => 0
  | window _ _ _ => 0
  | door _ _ _ _ _ => 1
  | railing _ _ _ _ => 0
  | translate _ _ _ s => s.countDoors
  | rotate _ _ _ s => s.countDoors
  | union a b => a.countDoors + b.countDoors
  | poly _ => 0
  | scale _ _ _ s => s.countDoors
  | diff a _ => a.countDoors

/-- The style ids of the window leaves of a solid, left to right. -/
def windowStyles : Solid → List Int
  | empty => []
  | window k _ _ => [k]
  | door _ _ _ _ _ => []
  | railing _ _ _ _ => []
  | translate _ _ _ s => s.windowStyles
  | rotate _ _ _ s => s.windowStyles
  | union a b => a.windowStyles ++ b.windowStyles
  | poly _ => []
  | scale _ _ _ s => s.windowStyles
  | diff a _ => a.windowStyles

/-- Number of rotation nodes of a solid. -/
def countRotates : Solid → Nat
  | empty => 0
  | window _ _ _ => 0
  | door _ _ _ _ _ => 0
  | railing _ _ _ _ => 0
  | translate _ _ _ s => s.countRotates
  | rotate _ _ _ s => s.countRotates + 1
  | union a b => a.countRotates + b.countRotates
  | poly _ => 0
  | scale _ _ _ s => s.countRotates
  | diff a b => a.countRotates + b.countRotates

end Solid

/-- The parameter arrays and lists that `facade_grammar` hands down unchanged to
`gen_facade` and `gen_level`. -/
structure ParameterSet where
  remove_windows : List IntTriple
  railing_parameters : List IntTriple
  grid_bottom_parameters : DArray
  grid_center_parameters : DArray
  grid_top_parameters : DArray
  window_scale_parameters : DArray
  window_design_parameters : DArray
  door_parameters : DArray
  vertical_offset : ℚ

/-- The values taken by `i` in the loop `for (int i = lo; i <= hi; i++)`. -/
def intRange (lo hi : Int) : List Int :=
  (List.range (hi + 1 - lo).toNat).map fun (k : Nat) => lo + (k : Int)

/-- The scalar arguments of one call of `gen_level`. -/
structure LevelCall where
  grid_width : Int
  grid_height : Int
  width : ℚ
  height : ℚ
  shape_type : Int
  door : Int
  y : Int
  width_scale : ℚ
  height_scale : ℚ
  bottom_height : ℚ
  side : Int
  deriving DecidableEq, Repr

/-- The arguments of one call of `gen_facade` that vary between the calls made by
`facade_grammar`. -/
structure FacadeCall where
  coord : Vec3
  angle : Vec3
  width : ℚ
  height : ℚ
  shape_type : Int
  door : Int
  side : Int
  deriving DecidableEq, Repr

/-! ## Arithmetic of the machine -/

/-- The integer nearest to `q`, a tie going to the even integer. -/
def roundEven (q : ℚ) : Int :=
  if q - (Int.floor q : ℚ) < 1 / 2 then Int.floor q
  else if 1 / 2 < q - (Int.floor q : ℚ) then Int.floor q + 1
  else if Int.floor q % 2 = 0 then Int.floor q
  else Int.floor q + 1

/-- The unit in the last place of a `double` of the magnitude of `x > 0`: the
power `2 ^ (e - 52)` with `2 ^ e <= x < 2 ^ (e + 1)` (a significand of 53 bits). -/
def ulp (x : ℚ) : ℚ := (2 : ℚ) ^ (Int.log 2 x - 52)

/-- Rounding of `x >= 0` to the nearest multiple of its `ulp`, ties to even. -/
def flPos (x : ℚ) : ℚ := (roundEven (x / ulp x) : ℚ) * ulp x

/-- The `double` nearest to the rational `x` (IEEE 754 binary64, round to nearest,
ties to even): the value a `double` operation stores when its exact result is
`x`.  The exponent is not bounded here: a result of magnitude `2 ^ 1024` or more
(an infinity on the machine) and the gradual underflow below `2 ^ (-1022)` are
not embedded. -/
def fl (x : ℚ) : ℚ := if 0 ≤ x then flPos x else -flPos (-x)

/-- The sum `a + b` of two doubles, as the machine computes it. -/
def dadd (a b : ℚ) : ℚ := fl (a + b)

/-- The difference `a - b` of two doubles, as the machine computes it. -/
def dsub (a b : ℚ) : ℚ := fl (a - b)

/-- The product `a * b` of two doubles, as the machine computes it. -/
def dmul (a b : ℚ) : ℚ := fl (a * b)

/-- The quotient `a / b` of two doubles, as the machine computes it, for `b`
nonzero. -/
def ddiv (a b : ℚ) : ℚ := fl (a / b)

/-! ## Transform utilities and primitive factory -/

/-- An `Aff_transformation_3` given by the nine entries of its matrix and the
homogenising weight `hw`: the linear map with matrix `1/hw * (m_ij)`. -/
structure Aff3 where
  m00 : ℚ
  m01 : ℚ
  m02 : ℚ
  m10 : ℚ
  m11 : ℚ
  m12 : ℚ
  m20 : ℚ
  m21 : ℚ
  m22 : ℚ
  hw : ℚ

/-- The image of a point under an `Aff3`. -/
def Aff3.transform (t : Aff3) (p : Vec3) : Vec3 :=
  ((t.m00 * p.1 + t.m01 * p.2.1 + t.m02 * p.2.2) / t.hw,
   (t.m10 * p.1 + t.m11 * p.2.1 + t.m12 * p.2.2) / t.hw,
   (t.m20 * p.1 + t.m21 * p.2.1 + t.m22 * p.2.2) / t.hw)

/-- The transformation `scale_size` of the source's `scale`: the doubled factors
are products of doubles, the weight is 2. -/
def scale_size (scale_x scale_y scale_z : ℚ) : Aff3 :=
  ⟨dmul scale_x 2, 0, 0,
   0, dmul scale_y 2, 0,
   0, 0, dmul scale_z 2,
   2⟩

/-- The source's `scale`, on one point of the polyhedron. -/
def scale_point (scale_x scale_y scale_z : ℚ) (p : Vec3) : Vec3 :=
  (scale_size scale_x scale_y scale_z).transform p

/-- The source's `translate`, on one point of the polyhedron. -/
def translate_point (transl_x transl_y transl_z : ℚ) (p : Vec3) : Vec3 :=
  (p.1 + transl_x, p.2.1 + transl_y, p.2.2 + transl_z)

/-- The transformation `rot_x` of the source's `rotate`. -/
def rot_x (cos sin : ℚ → ℚ) (rotate_x : ℚ) : Aff3 :=
  let cos_x := cos (rotate_x * PI / 180)
  let sin_x := sin (rotate_x * PI / 180)
  ⟨1, 0, 0,
   0, cos_x, -sin_x,
   0, sin_x, cos_x,
   1⟩

/-- The transformation `rot_y` of the source's `rotate`. -/
def rot_y (cos sin : ℚ → ℚ) (rotate_y : ℚ) : Aff3 :=
  let cos_x := cos (rotate_y * PI / 180)
  let sin_x := sin (rotate_y * PI / 180)
  ⟨cos_x, 0, sin_x,
   0, 1, 0,
   -sin_x, 0, cos_x,
   1⟩

/-- The transformation `rot_z` of the source's `rotate`. -/
def rot_z (cos sin : ℚ → ℚ) (rotate_z : ℚ) : Aff3 :=
  let cos_x := cos (rotate_z * PI / 180)
  let sin_x := sin (rotate_z * PI / 180)
  ⟨cos_x, -sin_x, 0,
   sin_x, cos_x, 0,
   0, 0, 1,
   1⟩

/-- The source's `rotate`, on one point of the polyhedron: `poly.transform(rot_x)`,
then `poly.transform(rot_y)`, then `poly.transform(rot_z)`. -/
def rotate_point (cos sin : ℚ → ℚ) (rotate_x rotate_y rotate_z : ℚ) (p : Vec3) : Vec3 :=
  let p := (rot_x cos sin rotate_x).transform p
  let p := (rot_y cos sin rotate_y).transform p
  (rot_z cos sin rotate_z).transform p

/-- The polyhedra that occur as leaves of a solid, left to right, each with the
transforms above it applied to its points. -/
def Solid.polys (cos sin : ℚ → ℚ) : Solid → List (List Vec3)
  | Solid.empty => []
  | Solid.window _ _ _ => []
  | Solid.door _ _ _ _ _ => []
  | Solid.railing _ _ _ _ => []
  | Solid.translate x y z s => (s.polys cos sin).map (List.map (translate_point x y z))
  | Solid.rotate x y z s => (s.polys cos sin).map (List.map (rotate_point cos sin x y z))
  | Solid.union a b => a.polys cos sin ++ b.polys cos sin
  | Solid.poly points => [points]
  | Solid.scale x y z s => (s.polys cos sin).map (List.map (scale_point x y z))
  | Solid.diff a b => a.polys cos sin ++ b.polys cos sin

/-- The global variables `poly_org_width` and `nef_org` of the source. -/
structure Globals where
  poly_org_width : ℚ
  nef_org : Solid

/-- The globals at program start: `poly_org_width = 10`, `nef_org` default-constructed. -/
def initial_globals : Globals := ⟨10, Solid.empty⟩

/-- The source's `gen_poly`: halve `poly_org_width` and store in `nef_org` the cube
read from the eight vertices `(±X, ±X, ±X)`, `X` the halved width (the text
`std::to_string` writes for it, `5.000000` for the width 5 of `main`). -/
def gen_poly (g : Globals) : Globals :=
  let poly_org_width := ddiv g.poly_org_width 2
  let X := poly_org_width
  { poly_org_width := poly_org_width
    nef_org := Solid.poly
      [(-X, -X, -X), (-X, X, -X), (X, X, -X), (X, -X, -X),
       (-X, -X, X), (-X, X, X), (X, X, X), (X, -X, X)] }

/-- The globals after the single call of `gen_poly` in `main`. -/
def main_globals : Globals := gen_poly initial_globals

/-- The source's `cube`: the factor `width/poly_org_width/2` is two divisions of
doubles. -/
def cube (g : Globals) (width : ℚ) : Solid :=
  Solid.scale (ddiv (ddiv width g.poly_org_width) 2) (ddiv (ddiv width g.poly_org_width) 2)
    (ddiv (ddiv width g.poly_org_width) 2) g.nef_org

/-- The source's `square`. -/
def square (g : Globals) (width length : ℚ) : Solid :=
  Solid.scale (ddiv (ddiv width g.poly_org_width) 2) (ddiv (ddiv length g.poly_org_width) 2)
    (ddiv (ddiv 1 g.poly_org_width) 2) g.nef_org

/-- The local `circumradius` of the source's `polygon` (`180/sides` is a division
of two `int`s). -/
def polygon_circumradius (sin : ℚ → ℚ) (circumradius_addition width : ℚ) (sides : Int) : ℚ :=
  let sin_x := sin (((Int.tdiv 180 sides : Int) : ℚ) * PI / 180)
  width / (2 * sin_x) + circumradius_addition

/-- The coordinate array `coord` that the source's `polygon` hands to `hull`: for
each `i` in `0 .. sides-1` the vertex at the top and the vertex at the bottom. -/
def polygon_coord (cos sin : ℚ → ℚ) (circumradius_addition width height : ℚ) (sides : Int) :
    List Vec3 :=
  let circumradius := polygon_circumradius sin circumradius_addition width sides
  let sum_angle : ℚ := (((sides - 2) * 180 : Int) : ℚ)
  let side_angle := sum_angle / (sides : ℚ)
  (intRange 0 (sides - 1)).flatMap fun (i : Int) =>
    let x := circumradius * cos (((180 - side_angle) * (i : ℚ)) * PI / 180)
    let y := circumradius * sin (((180 - side_angle) * (i : ℚ)) * PI / 180)
    [(x, y, height / 2), (x, y, -height / 2)]

/-- The source's `polygon`: the convex hull of `polygon_coord`.  With `sides = 0`
the machine traps on the division `180/sides` of two `int`s, and with
`sides < 0` the array `coord[sides*2][3]` has a negative size: the call has no
result. -/
def polygon (cos sin : ℚ → ℚ) (circumradius_addition width height : ℚ) (sides : Int) :
    Option Solid :=
  if sides ≤ 0 then none
  else some (Solid.poly (polygon_coord cos sin circumradius_addition width height sides))

/-! ## Window grammar -/

/-- The source's `gen_door`, kept as a leaf. -/
def gen_door (door_width door_height tile_width tile_height bottom_height : ℚ) : Solid :=
  Solid.door door_width door_height tile_width tile_height bottom_height

/-- The source's `gen_railing`, kept as a leaf. -/
def gen_railing (tile_width tile_height railing_scale width : ℚ) : Solid :=
  Solid.railing tile_width tile_height railing_scale width

/-- The source's `gen_windows`: one of the five recipes, and a default-constructed
(empty) polyhedron for any other `window_op`. -/
def gen_windows (window_width : ℚ) (window_op : Int) (_tile_width window_height _tile_height : ℚ) :
    Solid :=
  if window_op = 1 then Solid.window 1 window_width window_height
  else if window_op = 2 then Solid.window 2 window_width window_height
  else if window_op = 3 then Solid.window 3 window_width window_height
  else if window_op = 4 then Solid.window 4 window_width window_height
  else if window_op = 5 then Solid.window 5 window_width window_height
  else Solid.empty

/-- The four-times repeated tail of `window_grammar`: rotate the window for the
polygon (`shape_type == 2`) and add it to the empty result. -/
def window_grammar_place (shape_type : Int) (nef_window : Solid) : Solid :=
  Solid.union Solid.empty
    (if shape_type = 2 then Solid.rotate 0 0 180 nef_window else nef_window)

/-- The source's `window_grammar`. -/
def window_grammar (shape_type : Int) (window_scale_parameters window_design_parameters : DArray)
    (window_width window_height tile_width tile_height : ℚ) (grid_y grid_height : Int) : Solid :=
  if (window_scale_parameters 0 = 1 ∧ grid_y = 0)
      ∨ (window_scale_parameters 2 = 1 ∧ grid_y > 0 ∧ grid_y < grid_height - 1)
      ∨ (window_scale_parameters 0 = 1 ∧ grid_y = grid_height - 1) then
    window_grammar_place shape_type
      (gen_windows window_width 1 tile_width window_height tile_height)
  else if grid_y = 0 then
    window_grammar_place shape_type
      (gen_windows window_width (toInt (window_design_parameters 0)) tile_width window_height
        tile_height)
  else if grid_y = grid_height - 1 then
    window_grammar_place shape_type
      (gen_windows window_width (toInt (window_design_parameters 1)) tile_width window_height
        tile_height)
  else
    window_grammar_place shape_type
      (gen_windows window_width (toInt (window_design_parameters 2)) tile_width window_height
        tile_height)

/-! ## Level composer (`gen_level`) -/

/-- The test of the railing loop of `gen_level` on one row of `railing_parameters`. -/
def railing_matches (side y : Int) (r : IntTriple) : Prop :=
  (side = r.2.2 ∨ r.2.2 < 0) ∧ (y = r.2.1 ∨ r.2.1 < 0)

instance (side y : Int) (r : IntTriple) : Decidable (railing_matches side y r) := by
  unfold railing_matches; infer_instance

/-- The test of the removal loop of `gen_level` on one row of `remove_windows`. -/
def removal_matches (side x y : Int) (r : IntTriple) : Prop :=
  (side = r.2.2 ∨ r.2.2 < 0) ∧ (x = r.1 ∨ r.1 < 0) ∧ (y = r.2.1 ∨ r.2.1 < 0)

instance (side x y : Int) (r : IntTriple) : Decidable (removal_matches side x y r) := by
  unfold removal_matches; infer_instance

/-- The railing loop of `gen_level`: scan the list, add the railing of the first
matching row to `nef` and `break`. -/
def gen_level_railing (tile_width tile_height width bottom_height vertical_offset : ℚ)
    (side y : Int) (nef : Solid) : List IntTriple → Solid
  | [] => nef
  | r :: rest =>
    if railing_matches side y r then
      Solid.union nef
        (Solid.translate 0 (width / 2)
          (tile_height / 2 + bottom_height * 2 + (y : ℚ) * tile_height + vertical_offset)
          (gen_railing tile_width tile_height (r.1 : ℚ) width))
    else gen_level_railing tile_width tile_height width bottom_height vertical_offset side y nef rest

/-- The removal loop of `gen_level`: the final value of `remove_window`. -/
def gen_level_remove_window (side x y : Int) : List IntTriple → Bool
  | [] => false
  | r :: rest => if removal_matches side x y r then true else gen_level_remove_window side x y rest

/-- The local `tile_height` of `gen_level`. -/
def gen_level_tile_height (a : LevelCall) : ℚ :=
  (a.height - a.bottom_height * 2) / (a.grid_height : ℚ)

/-- The local `tile_width` of `gen_level`. -/
def gen_level_tile_width (a : LevelCall) : ℚ := a.width / (a.grid_width : ℚ)

/-- The row's default opening `nef_windows` of `gen_level`: built once per row, for
row 0 only when `bottom_height > 0`, and left default-constructed otherwise. -/
def gen_level_nef_windows (P : ParameterSet) (a : LevelCall) : Solid :=
  let tile_height := gen_level_tile_height a
  let tile_width := gen_level_tile_width a
  let window_height := tile_height / a.height_scale
  let window_width := tile_width / a.width_scale
  let bottom_window_height := a.bottom_height * 2 / a.height_scale
  if a.y = 0 ∧ a.bottom_height > 0 then
    Solid.translate 0 0 (-a.bottom_height * 2 + bottom_window_height / 2)
      (window_grammar a.shape_type P.window_scale_parameters P.window_design_parameters
        window_width bottom_window_height tile_width tile_height a.y a.grid_height)
  else if a.y > 0 then
    Solid.translate 0 0 P.vertical_offset
      (window_grammar a.shape_type P.window_scale_parameters P.window_design_parameters
        window_width window_height tile_width tile_height a.y a.grid_height)
  else Solid.empty

/-- The door solid `gen_level` builds for the door cell. -/
def gen_level_door (P : ParameterSet) (a : LevelCall) : Solid :=
  let tile_height := gen_level_tile_height a
  let tile_width := gen_level_tile_width a
  let door_height := tile_height / P.door_parameters 2
  let door_width := tile_width / P.door_parameters 1
  gen_door door_width door_height tile_width tile_height (a.bottom_height * 2)

/-- The solid `nef_x` that the column loop of `gen_level` chooses for column `x`,
before it is translated to the cell centre. -/
def gen_level_nef_x (P : ParameterSet) (a : LevelCall) (x : Int) : Solid :=
  if a.door = 0 ∧ a.y = 0 ∧ (x : ℚ) = P.door_parameters 0 then gen_level_door P a
  else if gen_level_remove_window a.side x a.y P.remove_windows then Solid.empty
  else gen_level_nef_windows P a

/-- The railing part of `gen_level`: the value of `nef` after the railing loop. -/
def gen_level_nef_railing (P : ParameterSet) (a : LevelCall) : Solid :=
  gen_level_railing (gen_level_tile_width a) (gen_level_tile_height a) a.width a.bottom_height
    P.vertical_offset a.side a.y Solid.empty P.railing_parameters

/-- The solid emitted for column `x` by the column loop of `gen_level`: `nef_x`
translated to the cell. -/
def gen_level_cell (P : ParameterSet) (a : LevelCall) (x : Int) : Solid :=
  let tile_height := gen_level_tile_height a
  let tile_width := gen_level_tile_width a
  Solid.translate 0 (tile_width / 2 + (x : ℚ) * tile_width)
    (tile_height / 2 + a.bottom_height * 2 + (a.y : ℚ) * tile_height)
    (gen_level_nef_x P a x)

/-- The source's `gen_level`, on the parameter arrays `P` and its scalar
arguments `a` (`vertical_offset` is read from `P`): the railing loop, then
`for (int x = 0; x <= grid_width - 1; x++) nef += nef_x`. -/
def gen_level (P : ParameterSet) (a : LevelCall) : Solid :=
  (intRange 0 (a.grid_width - 1)).foldl
    (fun (nef : Solid) (x : Int) => Solid.union nef (gen_level_cell P a x))
    (gen_level_nef_railing P a)

/-! ## Facade composer (`gen_facade`) -/

/-- The calls of `gen_level` made by `gen_facade`, in execution order: the bottom
row, the loop `for (int y = 1; y <= grid_height - 2; y++)`, the top row. -/
def gen_facade_calls (P : ParameterSet) (c : FacadeCall) : List LevelCall :=
  let grid_height := toInt (P.grid_top_parameters 6)
  [{ grid_width := toInt (P.grid_bottom_parameters c.side), grid_height := grid_height
     width := c.width, height := c.height, shape_type := c.shape_type, door := c.door, y := 0
     width_scale := P.window_scale_parameters 0, height_scale := P.window_scale_parameters 1
     bottom_height := P.grid_bottom_parameters 6, side := c.side + 1 }]
  ++ ((intRange 1 (grid_height - 2)).map fun y =>
    { grid_width := toInt (P.grid_center_parameters c.side), grid_height := grid_height
      width := c.width, height := c.height, shape_type := c.shape_type, door := c.door, y := y
      width_scale := P.window_scale_parameters 2, height_scale := P.window_scale_parameters 3
      bottom_height := P.grid_bottom_parameters 6, side := c.side + 1 })
  ++ [{ grid_width := toInt (P.grid_top_parameters c.side), grid_height := grid_height
        width := c.width, height := c.height, shape_type := c.shape_type, door := c.door
        y := grid_height - 1
        width_scale := P.window_scale_parameters 4, height_scale := P.window_scale_parameters 5
        bottom_height := P.grid_bottom_parameters 6, side := c.side + 1 }]

/-- The stacked rows of `gen_facade` before placement: `nef += gen_level(...)` for
each call in order. -/
def gen_facade_rows (P : ParameterSet) (c : FacadeCall) : Solid :=
  (gen_facade_calls P c).foldl (fun nef a => Solid.union nef (gen_level P a)) Solid.empty

/-- The source's `gen_facade`: the stacked rows, translated by `coord` and then
rotated by `angle`. -/
def gen_facade (P : ParameterSet) (c : FacadeCall) : Solid :=
  Solid.rotate c.angle.1 c.angle.2.1 c.angle.2.2
    (Solid.translate c.coord.1 c.coord.2.1 c.coord.2.2 (gen_facade_rows P c))

/-- The placement at the end of `gen_facade`, on one point of the stacked rows:
`translate(coord)` and then `rotate(angle)`. -/
def gen_facade_place (cos sin : ℚ → ℚ) (c : FacadeCall) (p : Vec3) : Vec3 :=
  rotate_point cos sin c.angle.1 c.angle.2.1 c.angle.2.2
    (translate_point c.coord.1 c.coord.2.1 c.coord.2.2 p)

/-! ## Shape composer (`facade_grammar`) -/

/-- The calls of `gen_facade` made by `facade_grammar`, in execution order: the two
loops of the rectangle, the loop `for (int i = 1; i <= sides*2; i += 2)` of the
polygon (`i = 2k+1` for `k = 0 .. sides-1`), the six calls of the L shape.  The
library function `tan` (on radians) is a parameter. -/
def facade_grammar_calls (tan : ℚ → ℚ) (sides shape_type : Int) (building_parameters : DArray) :
    List FacadeCall :=
  let building_width := building_parameters 0
  let building_length := building_parameters 1
  let building_height := building_parameters 4
  (if shape_type = 1 then
    ((List.range 2).map fun (i : Nat) =>
      { coord := (-building_width / 2, -building_length / 2, -building_height / 2)
        angle := (0, 0, ((180 * (i : Int) : Int) : ℚ))
        width := building_length, height := building_height
        shape_type := shape_type, door := (i : Int), side := 0 : FacadeCall })
    ++ ((List.range 2).map fun (i : Nat) =>
      { coord := (-building_length / 2, -building_width / 2, -building_height / 2)
        angle := (0, 0, 90 + ((180 * (i : Int) : Int) : ℚ))
        width := building_width, height := building_height
        shape_type := shape_type, door := 1, side := 1 : FacadeCall })
  else [])
  ++
  (if shape_type = 2 then
    let tan_x := tan (((Int.tdiv 180 sides : Int) : ℚ) * PI / 180)
    let sum_angle : ℚ := (((sides - 2) * 180 : Int) : ℚ)
    let side_angle := sum_angle / (sides : ℚ)
    let inradius := building_width / (2 * tan_x)
    let facade_angle := 180 - (side_angle / 2 + 90)
    (List.range sides.toNat).map fun (k : Nat) =>
      let i : Int := 2 * (k : Int) + 1
      { coord := (inradius, -building_width / 2, -building_height / 2)
        angle := (0, 0, facade_angle * (i : ℚ))
        width := building_width, height := building_height
        shape_type := shape_type, door := i - 1, side := Int.tdiv i 2 : FacadeCall }
  else if shape_type = 3 then
    let building_width_2 := building_parameters 2
    let building_length_2 := building_parameters 3
    [ { coord := (-building_length_2 / 2, -building_width / 2, -building_height / 2)
        angle := (0, 0, 0), width := building_width + building_width_2
        height := building_height, shape_type := shape_type, door := 0, side := 0 },
      { coord := (-(building_width / 2 + building_width_2), -building_length_2 / 2,
          -building_height / 2)
        angle := (0, 0, 270), width := building_length_2
        height := building_height, shape_type := shape_type, door := 1, side := 1 },
      { coord := (-building_width / 2, -(building_length_2 / 2 + building_length),
          -building_height / 2)
        angle := (0, 0, 90), width := building_length + building_length_2
        height := building_height, shape_type := shape_type, door := 1, side := 2 },
      { coord := (-(building_length_2 / 2 + building_length), -building_width / 2,
          -building_height / 2)
        angle := (0, 0, 180), width := building_width
        height := building_height, shape_type := shape_type, door := 1, side := 3 },
      { coord := (-building_length_2 / 2, -(building_width / 2 + building_width_2),
          -building_height / 2)
        angle := (0, 0, 180), width := building_width_2
        height := building_height, shape_type := shape_type, door := 1, side := 4 },
      { coord := (-building_width / 2, building_length_2 / 2, -building_height / 2)
        angle := (0, 0, 270), width := building_length
        height := building_height, shape_type := shape_type, door := 1, side := 5 } ]
  else [])

/-- The source's `facade_grammar`: the union, in order, of the facades of its
calls of `gen_facade`. -/
def facade_grammar (tan : ℚ → ℚ) (P : ParameterSet) (sides shape_type : Int)
    (building_parameters : DArray) : Solid :=
  (facade_grammar_calls tan sides shape_type building_parameters).foldl
    (fun nef c => Solid.union nef (gen_facade P c)) Solid.empty

/-! ## Mass composer and top-level grammar -/

/-- The body `nef_building` of `gen_rectangle`. -/
def gen_rectangle_nef_building (g : Globals) (building_parameters : DArray) : Solid :=
  let building_width := building_parameters 0
  let building_length := building_parameters 1
  let building_height := building_parameters 4
  Solid.scale 1 (ddiv building_length building_width) (ddiv building_height building_width)
    (cube g building_width)

/-- The source's `gen_rectangle` (the literal `1.99` is the double nearest to
199/100). -/
def gen_rectangle (g : Globals) (building_parameters overhang_parameters : DArray) : Solid :=
  let building_width := building_parameters 0
  let building_length := building_parameters 1
  let building_height := building_parameters 4
  let overhang_width := overhang_parameters 0
  let overhang_thickness := overhang_parameters 1
  let overhang_height := overhang_parameters 2
  let nef_building := gen_rectangle_nef_building g building_parameters
  let nef_overhang := Solid.translate 0 0 (ddiv building_height 2)
    (Solid.scale 1 1 overhang_height
      (square g (dadd building_width (dmul overhang_width 2))
        (dadd building_length (dmul overhang_width 2))))
  let nef_subtract := Solid.translate 0 0 (ddiv building_height 2)
    (Solid.scale 1 1 overhang_height
      (square g (dsub (dadd building_width (dmul overhang_width 2)) (dmul overhang_thickness 2))
        (dsub (dadd building_length (dmul overhang_width 2)) (dmul overhang_thickness 2))))
  let nef_roof := Solid.translate 0 0 (ddiv building_height 2)
    (square g (dadd building_width (dmul overhang_width (fl (199 / 100))))
      (dadd building_length (dmul overhang_width (fl (199 / 100)))))
  Solid.union (Solid.union nef_building nef_roof) (Solid.diff nef_overhang nef_subtract)

/-- The source's `gen_polygon` (the literals `0.9`, `0.1`, `1.01` are the doubles
nearest to 9/10, 1/10, 101/100): it has a result when its calls of `polygon`
have one. -/
def gen_polygon (cos sin : ℚ → ℚ) (building_parameters overhang_parameters : DArray)
    (sides : Int) : Option Solid :=
  let building_width := building_parameters 0
  let building_height := building_parameters 4
  let overhang_width := overhang_parameters 0
  let overhang_thickness := overhang_parameters 1
  let overhang_height := overhang_parameters 2
  (polygon cos sin 0 building_width building_height sides).bind fun nef_building =>
  (polygon cos sin (dmul overhang_width (fl (9 / 10))) building_width
    (dmul overhang_height (fl (1 / 10))) sides).bind fun nef_roof =>
  (polygon cos sin overhang_width building_width (ddiv overhang_height 2) sides).bind
    fun nef_overhang =>
  (polygon cos sin (dsub overhang_width overhang_thickness) building_width
    (ddiv overhang_height 2) sides).bind fun nef_overhang_subtract =>
  let nef_roof := Solid.translate 0 0 (ddiv building_height 2) nef_roof
  let nef_overhang := Solid.translate 0 0
    (dadd (ddiv building_height 2) (ddiv overhang_height 2)) nef_overhang
  let nef_overhang_subtract := Solid.translate 0 0
    (dadd (ddiv building_height 2) (dmul (ddiv overhang_height 2) (fl (101 / 100))))
    nef_overhang_subtract
  some (Solid.union (Solid.union nef_building nef_roof)
    (Solid.diff nef_overhang nef_overhang_subtract))

/-- The array `coord_overhang_1` of `gen_L`. -/
def gen_L_coord_overhang_1 (building_parameters overhang_parameters : DArray) : List Vec3 :=
  let building_width_1 := building_parameters 0
  let building_length_1 := building_parameters 1
  let building_length_2 := building_parameters 3
  let building_height := building_parameters 4
  let overhang_width := overhang_parameters 0
  let overhang_thickness := overhang_parameters 1
  let overhang_height := overhang_parameters 2
  [(building_length_2 / 2 + building_length_1 + overhang_width,
      building_width_1 / 2 + overhang_width, building_height / 2 + overhang_height / 2),
   (building_length_2 / 2 + building_length_1 + overhang_width,
      -building_width_1 / 2 - overhang_width, building_height / 2 + overhang_height / 2),
   (building_length_2 / 2 + overhang_width - overhang_thickness,
      building_width_1 / 2 + overhang_width, building_height / 2 + overhang_height / 2),
   (building_length_2 / 2 + overhang_width - overhang_thickness,
      -building_width_1 / 2 - overhang_width, building_height / 2 + overhang_height / 2),
   (building_length_2 / 2 + building_length_1 + overhang_width,
      building_width_1 / 2 + overhang_width, building_height / 2 - overhang_height / 2),
   (building_length_2 / 2 + building_length_1 + overhang_width,
      -building_width_1 / 2 - overhang_width, building_height / 2 - overhang_height / 2),
   (building_length_2 / 2 + overhang_width - overhang_thickness,
      building_width_1 / 2 + overhang_width, building_height / 2 - overhang_height / 2),
   (building_length_2 / 2 + overhang_width - overhang_thickness,
      -building_width_1 / 2 - overhang_width, building_height / 2 - overhang_height / 2)]

/-- The array `coord_overhang_subtract_1` of `gen_L`. -/
def gen_L_coord_overhang_subtract_1 (building_parameters overhang_parameters : DArray) :
    List Vec3 :=
  let building_width_1 := building_parameters 0
  let building_length_1 := building_parameters 1
  let building_length_2 := building_parameters 3
  let building_height := building_parameters 4
  let overhang_width := overhang_parameters 0
  let overhang_thickness := overhang_parameters 1
  let overhang_height := overhang_parameters 2
  [(building_length_2 / 2 + building_length_1 + overhang_width - overhang_thickness,
      building_width_1 / 2 + overhang_width - overhang_thickness,
      building_height / 2 + overhang_height),
   (building_length_2 / 2 + building_length_1 + overhang_width - overhang_thickness,
      -building_width_1 / 2 - overhang_width + overhang_thickness,
      building_height / 2 + overhang_height),
   (building_length_2 / 2 + overhang_width - overhang_thickness,
      building_width_1 / 2 + overhang_width - overhang_thickness,
      building_height / 2 + overhang_height),
   (building_length_2 / 2 + overhang_width - overhang_thickness,
      -building_width_1 / 2 - overhang_width + overhang_thickness,
      building_height / 2 + overhang_height),
   (building_length_2 / 2 + building_length_1 + overhang_width - overhang_thickness,
      building_width_1 / 2 + overhang_width - overhang_thickness,
      building_height / 2 - overhang_height),
   (building_length_2 / 2 + building_length_1 + overhang_width - overhang_thickness,
      -building_width_1 / 2 - overhang_width + overhang_thickness,
      building_height / 2 - overhang_height),
   (building_length_2 / 2 + overhang_width - overhang_thickness,
      building_width_1 / 2 + overhang_width - overhang_thickness,
      building_height / 2 - overhang_height),
   (building_length_2 / 2 + overhang_width - overhang_thickness,
      -building_width_1 / 2 - overhang_width + overhang_thickness,
      building_height / 2 - overhang_height)]

/-- The array `coord_overhang_2` of `gen_L`. -/
def gen_L_coord_overhang_2 (building_parameters overhang_parameters : DArray) : List Vec3 :=
  let building_width_1 := building_parameters 0
  let building_length_2 := building_parameters 3
  let building_height := building_parameters 4
  let overhang_width := overhang_parameters 0
  let overhang_thickness := overhang_parameters 1
  let overhang_height := overhang_parameters 2
  [(-building_length_2 / 2 - overhang_width,
      -building_width_1 / 2 - overhang_width, building_height / 2 + overhang_height / 2),
   (-building_length_2 / 2 - overhang_width,
      building_width_1 / 2 + overhang_width, building_height / 2 + overhang_height / 2),
   (building_length_2 / 2 + overhang_width - overhang_thickness,
      building_width_1 / 2 + overhang_width, building_height / 2 + overhang_height / 2),
   (building_length_2 / 2 + overhang_width - overhang_thickness,
      -building_width_1 / 2 - overhang_width, building_height / 2 + overhang_height / 2),
   (-building_length_2 / 2 - overhang_width,
      -building_width_1 / 2 - overhang_width, building_height / 2 - overhang_height / 2),
   (-building_length_2 / 2 - overhang_width,
      building_width_1 / 2 + overhang_width, building_height / 2 - overhang_height / 2),
   (building_length_2 / 2 + overhang_width - overhang_thickness,
      building_width_1 / 2 + overhang_width, building_height / 2 - overhang_height / 2),
   (building_length_2 / 2 + overhang_width - overhang_thickness,
      -building_width_1 / 2 - overhang_width, building_height / 2 - overhang_height / 2)]

/-- The array `coord_overhang_subtract_2` of `gen_L`. -/
def gen_L_coord_overhang_subtract_2 (building_parameters overhang_parameters : DArray) :
    List Vec3 :=
  let building_width_1 := building_parameters 0
  let building_length_2 := building_parameters 3
  let building_height := building_parameters 4
  let overhang_width := overhang_parameters 0
  let overhang_thickness := overhang_parameters 1
  let overhang_height := overhang_parameters 2
  [(-building_length_2 / 2 - overhang_width + overhang_thickness,
      -building_width_1 / 2 - overhang_width + overhang_thickness,
      building_height / 2 + overhang_height),
   (-building_length_2 / 2 - overhang_width + overhang_thickness,
      building_width_1 / 2 + overhang_width, building_height / 2 + overhang_height),
   (building_length_2 + overhang_width - overhang_thickness,
      building_width_1 + overhang_width, building_height / 2 + overhang_height),
   (building_length_2 + overhang_width - overhang_thickness,
      -building_width_1 / 2 - overhang_width + overhang_thickness,
      building_height / 2 + overhang_height),
   (-building_length_2 / 2 - overhang_width + overhang_thickness,
      -building_width_1 / 2 - overhang_width + overhang_thickness,
      building_height / 2 - overhang_height),
   (-building_length_2 / 2 - overhang_width + overhang_thickness,
      building_width_1 / 2 + overhang_width, building_height / 2 - overhang_height),
   (building_length_2 + overhang_width - overhang_thickness,
      building_width_1 + overhang_width, building_height / 2 - overhang_height),
   (building_length_2 + overhang_width - overhang_thickness,
      -building_width_1 / 2 - overhang_width + overhang_thickness,
      building_height / 2 - overhang_height)]

/-- The array `coord_overhang_3` of `gen_L`. -/
def gen_L_coord_overhang_3 (building_parameters overhang_parameters : DArray) : List Vec3 :=
  let building_width_1 := building_parameters 0
  let building_width_2 := building_parameters 2
  let building_length_2 := building_parameters 3
  let building_height := building_parameters 4
  let overhang_width := overhang_parameters 0
  let overhang_height := overhang_parameters 2
  [(building_length_2 / 2 + overhang_width,
      building_width_1 / 2 + building_width_2 + overhang_width,
      building_height / 2 + overhang_height / 2),
   (-building_length_2 / 2 - overhang_width,
      building_width_1 / 2 + building_width_2 + overhang_width,
      building_height / 2 + overhang_height / 2),
   (building_length_2 / 2 + overhang_width,
      building_width_1 / 2 + overhang_width, building_height / 2 + overhang_height / 2),
   (-building_length_2 / 2 - overhang_width,
      building_width_1 / 2 + overhang_width, building_height / 2 + overhang_height / 2),
   (building_length_2 / 2 + overhang_width,
      building_width_1 / 2 + building_width_2 + overhang_width,
      building_height / 2 - overhang_height / 2),
   (-building_length_2 / 2 - overhang_width,
      building_width_1 / 2 + building_width_2 + overhang_width,
      building_height / 2 - overhang_height / 2),
   (building_length_2 / 2 + overhang_width,
      building_width_1 / 2 + overhang_width, building_height / 2 - overhang_height / 2),
   (-building_length_2 / 2 - overhang_width,
      building_width_1 / 2 + overhang_width, building_height / 2 - overhang_height / 2)]

/-- The array `coord_overhang_subtract_3` of `gen_L`. -/
def gen_L_coord_overhang_subtract_3 (building_parameters overhang_parameters : DArray) :
    List Vec3 :=
  let building_width_1 := building_parameters 0
  let building_width_2 := building_parameters 2
  let building_length_2 := building_parameters 3
  let building_height := building_parameters 4
  let overhang_width := overhang_parameters 0
  let overhang_thickness := overhang_parameters 1
  let overhang_height := overhang_parameters 2
  [(building_length_2 / 2 + overhang_width - overhang_thickness,
      building_width_1 / 2 + building_width_2 + overhang_width - overhang_thickness,
      building_height / 2 + overhang_height),
   (-building_length_2 / 2 - overhang_width + overhang_thickness,
      building_width_1 / 2 + building_width_2 + overhang_width - overhang_thickness,
      building_height / 2 + overhang_height),
   (building_length_2 / 2 + overhang_width - overhang_thickness,
      building_width_1 / 2 + overhang_width, building_height / 2 + overhang_height),
   (-building_length_2 / 2 - overhang_width + overhang_thickness,
      building_width_1 / 4 + overhang_width, building_height / 2 + overhang_height),
   (building_length_2 / 2 + overhang_width - overhang_thickness,
      building_width_1 / 2 + building_width_2 + overhang_width - overhang_thickness,
      building_height / 2 - overhang_height),
   (-building_length_2 / 2 - overhang_width + overhang_thickness,
      building_width_1 / 2 + building_width_2 + overhang_width - overhang_thickness,
      building_height / 2 - overhang_height),
   (building_length_2 / 2 + overhang_width - overhang_thickness,
      building_width_1 / 2 + overhang_width, building_height / 2 - overhang_height),
   (-building_length_2 / 2 - overhang_width + overhang_thickness,
      building_width_1 / 4 + overhang_width, building_height / 2 - overhang_height)]

/-- The first lobe `nef_cube1` of `gen_L`, scaled, before `building_L` is moved. -/
def gen_L_nef_cube1 (g : Globals) (building_parameters : DArray) : Solid :=
  let building_width_1 := building_parameters 0
  let building_length_1 := building_parameters 1
  let building_length_2 := building_parameters 3
  let building_height := building_parameters 4
  Solid.scale (ddiv (dadd building_length_1 building_length_2) building_width_1) 1
    (ddiv building_height building_width_1) (cube g building_width_1)

/-- The second lobe `nef_cube2` of `gen_L`, scaled, before the roof is added to it
and before it is moved. -/
def gen_L_nef_cube2 (g : Globals) (building_parameters : DArray) : Solid :=
  let building_width_2 := building_parameters 2
  let building_length_2 := building_parameters 3
  let building_height := building_parameters 4
  Solid.scale (ddiv building_length_2 building_width_2) 1
    (ddiv building_height building_width_2) (cube g building_width_2)

/-- The solid `building_L` of `gen_L` after its translation: the two lobes and
the two roof caps (the literal `1.8` is the double nearest to 18/10). -/
def gen_L_building_L (g : Globals) (building_parameters overhang_parameters : DArray) : Solid :=
  let building_width_1 := building_parameters 0
  let building_length_1 := building_parameters 1
  let building_width_2 := building_parameters 2
  let building_length_2 := building_parameters 3
  let building_height := building_parameters 4
  let overhang_width := overhang_parameters 0
  let nef_cube1 := gen_L_nef_cube1 g building_parameters
  let nef_roof1 := Solid.translate 0 0 (ddiv building_height 2)
    (square g (dadd building_length_2 (dmul overhang_width (fl (18 / 10))))
      (dadd building_width_2 (dmul overhang_width (fl (18 / 10)))))
  let nef_cube2 := gen_L_nef_cube2 g building_parameters
  let nef_cube2 := Solid.union nef_cube2 nef_roof1
  let nef_cube2 := Solid.translate (ddiv (-building_length_1) 2)
    (ddiv (dadd building_width_1 building_width_2) 2) 0 nef_cube2
  let nef_roof2 := Solid.translate 0 0 (ddiv building_height 2)
    (square g
      (dadd (dadd building_length_1 building_length_2) (dmul overhang_width (fl (18 / 10))))
      (dadd building_width_1 (dmul overhang_width (fl (18 / 10)))))
  let building_L := Solid.union (Solid.union nef_cube1 nef_cube2) nef_roof2
  Solid.translate (ddiv building_length_1 2) 0 0 building_L

/-- The source's `gen_L`: `building_L` and the three overhang bands, each the
hull of its eight corners minus the hull of its eight subtracted points. -/
def gen_L (g : Globals) (building_parameters overhang_parameters : DArray) : Solid :=
  let building_L := gen_L_building_L g building_parameters overhang_parameters
  let overhang_1 := Solid.diff
    (Solid.poly (gen_L_coord_overhang_1 building_parameters overhang_parameters))
    (Solid.poly (gen_L_coord_overhang_subtract_1 building_parameters overhang_parameters))
  let overhang_2 := Solid.diff
    (Solid.poly (gen_L_coord_overhang_2 building_parameters overhang_parameters))
    (Solid.poly (gen_L_coord_overhang_subtract_2 building_parameters overhang_parameters))
  let overhang_3 := Solid.diff
    (Solid.poly (gen_L_coord_overhang_3 building_parameters overhang_parameters))
    (Solid.poly (gen_L_coord_overhang_subtract_3 building_parameters overhang_parameters))
  Solid.union (Solid.union (Solid.union building_L overhang_1) overhang_2) overhang_3

/-- The source's `grammar`: mass plus facades for the shape types 1, 2, 3, nothing
for any other, then the translation by half the building height.  For the
polygon it has a result when `gen_polygon`, which it calls first, has one. -/
def grammar (cos sin tan : ℚ → ℚ) (g : Globals) (P : ParameterSet) (sides shape_type : Int)
    (building_parameters overhang_parameters : DArray) : Option Solid :=
  let nef : Option Solid :=
    if shape_type = 1 then
      some (Solid.union (gen_rectangle g building_parameters overhang_parameters)
        (facade_grammar tan P sides shape_type building_parameters))
    else if shape_type = 2 then
      (gen_polygon cos sin building_parameters overhang_parameters sides).map fun nef_building =>
        Solid.union nef_building (facade_grammar tan P sides shape_type building_parameters)
    else if shape_type = 3 then
      some (Solid.union (gen_L g building_parameters overhang_parameters)
        (facade_grammar tan P sides shape_type building_parameters))
    else some Solid.empty
  nef.map (Solid.translate 0 0 (ddiv (building_parameters 4) 2))

namespace Machine

/-- The local `tile_height` of `gen_level`, with the arithmetic of the machine. -/
def gen_level_tile_height (a : LevelCall) : ℚ :=
  ddiv (dsub a.height (dmul a.bottom_height 2)) (a.grid_height : ℚ)

/-- The local `tile_width` of `gen_level`, with the arithmetic of the machine. -/
def gen_level_tile_width (a : LevelCall) : ℚ := ddiv a.width (a.grid_width : ℚ)

/-- The local `window_width` of `gen_level`, with the arithmetic of the machine. -/
def gen_level_window_width (a : LevelCall) : ℚ := ddiv (gen_level_tile_width a) a.width_scale

/-- The vector by which the column loop of `gen_level` translates the solid of
column `x`, with the arithmetic of the machine: `(0, tile_width/2 + x*tile_width,
tile_height/2 + bottom_height*2 + y*tile_height)`. -/
def gen_level_cell_coord (a : LevelCall) (x : Int) : Vec3 :=
  let tile_height := gen_level_tile_height a
  let tile_width := gen_level_tile_width a
  (0, dadd (ddiv tile_width 2) (dmul (x : ℚ) tile_width),
    dadd (dadd (ddiv tile_height 2) (dmul a.bottom_height 2)) (dmul (a.y : ℚ) tile_height))

end Machine

/-! ## Parameter management -/

/-- The loop of `parameter_management` that, for the polygon (`shape_type == 2`),
sets the slots 1..5 of the three grid arrays to their slot 0. -/
def parameter_management_polygon_grids (shape_type : Int) (P : ParameterSet) : ParameterSet :=
  if shape_type = 2 then
    { P with
      grid_top_parameters := fun i =>
        if 1 ≤ i ∧ i < 6 then P.grid_top_parameters 0 else P.grid_top_parameters i
      grid_center_parameters := fun i =>
        if 1 ≤ i ∧ i < 6 then P.grid_center_parameters 0 else P.grid_center_parameters i
      grid_bottom_parameters := fun i =>
        if 1 ≤ i ∧ i < 6 then P.grid_bottom_parameters 0 else P.grid_bottom_parameters i }
  else P

/-! ## Parameter file -/

/-- The scalar parameter slots that `output_paramaters_txt` writes and the parser
of `parameter_management` fills: the two integers, the array elements and the
vertical offset. -/
inductive Slot where
  | shape_type : Slot
  | sides : Slot
  | building (i : Nat) : Slot
  | overhang (i : Nat) : Slot
  | window_scale (i : Nat) : Slot
  | grid_bottom (i : Nat) : Slot
  | grid_center (i : Nat) : Slot
  | grid_top (i : Nat) : Slot
  | vertical_offset : Slot
  | window_design (i : Nat) : Slot
  | door (i : Nat) : Slot
  deriving DecidableEq, Repr

/-- The `Name = value` lines of `output_paramaters_txt`, in the order written: the
name before ` = ` and the slot whose value follows it. -/
def output_paramaters_txt_lines : List (String × Slot) :=
  [("Shape Type", Slot.shape_type),
   ("Sides", Slot.sides),
   ("Building Width 1", Slot.building 0),
   ("Building Length 1", Slot.building 1),
   ("Building Width 2", Slot.building 2),
   ("Building Length 2", Slot.building 3),
   ("Building Height", Slot.building 4),
   ("Overhang Width", Slot.overhang 0),
   ("Overhang Thickness", Slot.overhang 1),
   ("Overhang Height", Slot.overhang 2),
   ("Window Bottom Width Scale", Slot.window_scale 0),
   ("Window Bottom Width Scale", Slot.window_scale 1),
   ("Window Centre Width Scale", Slot.window_scale 2),
   ("Window Centre Width Scale", Slot.window_scale 3),
   ("Window Top Width Scale", Slot.window_scale 4),
   ("Window Top Width Scale", Slot.window_scale 5),
   ("Grid Bottom Width", Slot.grid_bottom 0),
   ("Grid Bottom Length", Slot.grid_bottom 1),
   ("Grid Bottom Side 3", Slot.grid_bottom 2),
   ("Grid Bottom Side 4", Slot.grid_bottom 3),
   ("Grid Bottom Side 5", Slot.grid_bottom 4),
   ("Grid Bottom Side 6", Slot.grid_bottom 5),
   ("Grid Bottom Tile Height", Slot.grid_bottom 6),
   ("Grid Centre Width", Slot.grid_center 0),
   ("Grid Centre Length", Slot.grid_center 1),
   ("Grid Centre Side 3", Slot.grid_center 2),
   ("Grid Centre Side 4", Slot.grid_center 3),
   ("Grid Centre Side 5", Slot.grid_center 4),
   ("Grid Centre Side 6", Slot.grid_center 5),
   ("Grid Top Width", Slot.grid_top 0),
   ("Grid Top Length", Slot.grid_top 1),
   ("Grid Top Side 3", Slot.grid_top 2),
   ("Grid Top Side 4", Slot.grid_top 3),
   ("Grid Top Side 5", Slot.grid_top 4),
   ("Grid Top Side 6", Slot.grid_top 5),
   ("Grid Height", Slot.grid_top 6),
   ("Vertical Offset", Slot.vertical_offset),
   ("Window Bottom Design", Slot.window_design 0),
   ("Window Center Design", Slot.window_design 1),
   ("Window Top Design", Slot.window_design 2),
   ("Door Location", Slot.door 0),
   ("Door Width Scale", Slot.door 1),
   ("Door Height Scale", Slot.door 2)]

/-- The chain of `data.compare` tests of the parser in `parameter_management`:
the slot a line with the name `data` is stored into, if the name is one of the
scalar names the parser knows. -/
def parameter_management_slot (data : String) : Option Slot :=
  if data = "Shape Type" then some (Slot.shape_type)
  else if data = "Sides" then some (Slot.sides)
  else if data = "Building Width 1" then some (Slot.building 0)
  else if data = "Building Length 1" then some (Slot.building 1)
  else if data = "Building Width 2" then some (Slot.building 2)
  else if data = "Building Length 2" then some (Slot.building 3)
  else if data = "Building Height" then some (Slot.building 4)
  else if data = "Overhang Width" then some (Slot.overhang 0)
  else if data = "Overhang Thickness" then some (Slot.overhang 1)
  else if data = "Overhang Height" then some (Slot.overhang 2)
  else if data = "Window Bottom Width Scale" then some (Slot.window_scale 0)
  else if data = "Window Bottom Height Scale" then some (Slot.window_scale 1)
  else if data = "Window Centre Width Scale" then some (Slot.window_scale 2)
  else if data = "Window Centre Height Scale" then some (Slot.window_scale 3)
  else if data = "Window Top Width Scale" then some (Slot.window_scale 4)
  else if data = "Window Top Height Scale" then some (Slot.window_scale 5)
  else if data = "Grid Bottom Width" then some (Slot.grid_bottom 0)
  else if data = "Grid Bottom Length" then some (Slot.grid_bottom 1)
  else if data = "Grid Bottom Side 3" then some (Slot.grid_bottom 2)
  else if data = "Grid Bottom Side 4" then some (Slot.grid_bottom 3)
  else if data = "Grid Bottom Side 5" then some (Slot.grid_bottom 4)
  else if data = "Grid Bottom Side 6" then some (Slot.grid_bottom 5)
  else if data = "Bottom Tile Height" then some (Slot.grid_bottom 6)
  else if data = "Grid Centre Width" then some (Slot.grid_center 0)
  else if data = "Grid Centre Length" then some (Slot.grid_center 1)
  else if data = "Grid Centre Side 3" then some (Slot.grid_center 2)
  else if data = "Grid Centre Side 4" then some (Slot.grid_center 3)
  else if data = "Grid Centre Side 5" then some (Slot.grid_center 4)
  else if data = "Grid Centre Side 6" then some (Slot.grid_center 5)
  else if data = "Grid Top Width" then some (Slot.grid_top 0)
  else if data = "Grid Top Length" then some (Slot.grid_top 1)
  else if data = "Grid Top Side 3" then some (Slot.grid_top 2)
  else if data = "Grid Top Side 4" then some (Slot.grid_top 3)
  else if data = "Grid Top Side 5" then some (Slot.grid_top 4)
  else if data = "Grid Top Side 6" then some (Slot.grid_top 5)
  else if data = "Grid Height" then some (Slot.grid_top 6)
  else if data = "Vertical Offset" then some (Slot.vertical_offset)
  else if data = "Window Bottom Design" then some (Slot.window_design 0)
  else if data = "Window Centre Design" then some (Slot.window_design 1)
  else if data = "Window Top Design" then some (Slot.window_design 2)
  else if data = "Door Location" then some (Slot.door 0)
  else if data = "Door Width Scale" then some (Slot.door 1)
  else if data = "Door Height Scale" then some (Slot.door 2)
  else none

/-- The scalar part of the file `output_paramaters_txt` writes for the parameter
values `p`: each line as its name and the value written (the decimal rendering
of the value is taken as read back exactly). -/
def output_paramaters_txt (p : Slot → ℚ) : List (String × ℚ) :=
  output_paramaters_txt_lines.map fun l => (l.1, p l.2)

/-- The parser loop of `parameter_management` on the scalar lines of a file:
starting from the values `init` generated before the file is read, each
recognised line overwrites its slot and every other line is skipped. -/
def parameter_management_read (file : List (String × ℚ)) (init : Slot → ℚ) : Slot → ℚ :=
  file.foldl
    (fun store line =>
      match parameter_management_slot line.1 with
      | some slot => Function.update store slot line.2
      | none => store)
    init

/-! ## The row stacking the specification describes -/

/-- The level the specification's facade composer stacks at row index `y` of a
facade of `H` rows: the bottom band's column count and scales for row 0, the top
band's for row `H-1`, the centre band's for the rows between. -/
def facade_row_spec (P : ParameterSet) (c : FacadeCall) (H y : Int) : LevelCall where
  grid_width :=
    toInt (if y = 0 then P.grid_bottom_parameters c.side
      else if y = H - 1 then P.grid_top_parameters c.side
      else P.grid_center_parameters c.side)
  grid_height := H
  width := c.width
  height := c.height
  shape_type := c.shape_type
  door := c.door
  y := y
  width_scale :=
    if y = 0 then P.window_scale_parameters 0
    else if y = H - 1 then P.window_scale_parameters 4
    else P.window_scale_parameters 2
  height_scale :=
    if y = 0 then P.window_scale_parameters 1
    else if y = H - 1 then P.window_scale_parameters 5
    else P.window_scale_parameters 3
  bottom_height := P.grid_bottom_parameters 6
  side := c.side + 1

/-- The angular step the specification names for a regular polygon of `sides`
sides: `180 - (interior/2 + 90)` degrees with `interior = (sides-2)*180/sides`. -/
def spec_polygon_step (sides : Int) : ℚ :=
  180 - ((((sides - 2) * 180 : Int) : ℚ) / (sides : ℚ) / 2 + 90)

/-- The standard right-handed rotation about the x axis, with cosine `c` and sine
`s` of the angle: the matrix `[[1, 0, 0], [0, c, -s], [0, s, c]]`. -/
def spec_rotation_x (c s : ℚ) (p : Vec3) : Vec3 :=
  (p.1, c * p.2.1 - s * p.2.2, s * p.2.1 + c * p.2.2)

/-- The standard right-handed rotation about the y axis: the matrix
`[[c, 0, s], [0, 1, 0], [-s, 0, c]]`. -/
def spec_rotation_y (c s : ℚ) (p : Vec3) : Vec3 :=
  (c * p.1 + s * p.2.2, p.2.1, -s * p.1 + c * p.2.2)

/-- The standard right-handed rotation about the z axis: the matrix
`[[c, -s, 0], [s, c, 0], [0, 0, 1]]`. -/
def spec_rotation_z (c s : ℚ) (p : Vec3) : Vec3 :=
  (c * p.1 - s * p.2.1, s * p.1 + c * p.2.1, p.2.2)

/-- The eight corners of the axis-aligned box `[x0, x1] x [y0, y1] x [z0, z1]`, in
the vertex order of the template cube of `gen_poly`. -/
def box_corners (x0 x1 y0 y1 z0 z1 : ℚ) : List Vec3 :=
  [(x0, y0, z0), (x0, y1, z0), (x1, y1, z0), (x1, y0, z0),
   (x0, y0, z1), (x0, y1, z1), (x1, y1, z1), (x1, y0, z1)]

/-- An inner coordinate `b` that equals the outer coordinate `a` or lies exactly
`t` away from it. -/
def offset_zero_or (t a b : ℚ) : Prop := b = a ∨ b = a - t ∨ b = a + t

instance (t a b : ℚ) : Decidable (offset_zero_or t a b) := by
  unfold offset_zero_or; infer_instance

/-! ## Domain of the machine arithmetic -/

/-- A dimension the machine holds and divides without overflow or underflow: a
`double` (rounding leaves it unchanged) between `2^-500` and `2^500`. -/
def dimension (x : ℚ) : Prop := fl x = x ∧ 1 / 2 ^ 500 ≤ x ∧ x ≤ 2 ^ 500

/-- Every quotient formed by `facade_grammar` and the functions it calls has a
positive divisor and every tile has a positive size: `tan_x` for the polygon,
the two door scales, and for every level the row count, the column count, the
two window scales, the facade width and the height above the bottom allowance.
On these inputs the quotients of the facades (0 here on a zero divisor) are
those of the machine (infinite or NaN on a zero divisor), and no opening is
scaled by zero or by a negative factor. -/
def facade_grammar_tiles_positive (tan : ℚ → ℚ) (P : ParameterSet) (sides shape_type : Int)
    (building_parameters : DArray) : Prop :=
  (shape_type = 2 → 0 < tan (((Int.tdiv 180 sides : Int) : ℚ) * PI / 180))
  ∧ 0 < P.door_parameters 1 ∧ 0 < P.door_parameters 2
  ∧ ∀ c ∈ facade_grammar_calls tan sides shape_type building_parameters,
      ∀ a ∈ gen_facade_calls P c,
        1 ≤ a.grid_height ∧ 1 ≤ a.grid_width ∧ 0 < a.height_scale ∧ 0 < a.width_scale
          ∧ 0 < a.width ∧ 2 * a.bottom_height < a.height

/-! ## Sample inputs -/

/-- A parameter set with two columns and three rows on every side, windows half
the tile, designs 1, 2, 3 in the slots 0, 1, 2, a door in column 1, bottom
allowance 100, and no removals or railings. -/
def sampleParams : ParameterSet where
  remove_windows := []
  railing_parameters := []
  grid_bottom_parameters := fun i => if i = 6 then 100 else 2
  grid_center_parameters := fun _ => 2
  grid_top_parameters := fun i => if i = 6 then 3 else 2
  window_scale_parameters := fun _ => 2
  window_design_parameters := fun i => if i = 0 then 1 else if i = 1 then 2 else 3
  door_parameters := fun i => if i = 0 then 1 else 2
  vertical_offset := -50

/-- A call of `gen_level` for row `y` of a 2 x 3 grid on a facade 200 wide and 500
high, with the door flag `door`, bottom allowance `bottom_height` and side `side`. -/
def sampleLevel (door y : Int) (bottom_height : ℚ) (side : Int) : LevelCall where
  grid_width := 2
  grid_height := 3
  width := 200
  height := 500
  shape_type := 1
  door := door
  y := y
  width_scale := 2
  height_scale := 2
  bottom_height := bottom_height
  side := side

/-- Building parameters `{width1, length1, width2, length2, height}`: width 200,
every other dimension 500. -/
def sampleBuilding : DArray := fun i => if i = 0 then 200 else 500

/-- The first facade call of the rectangle on `sampleBuilding`: door flag enabled
(`door == 0`), side index 0, facade 500 wide and 500 high, placed at
`(-100, -250, -250)` with no rotation. -/
def sampleFacade : FacadeCall where
  coord := (-100, -250, -250)
  angle := (0, 0, 0)
  width := 500
  height := 500
  shape_type := 1
  door := 0
  side := 0

/-- The second facade call of the rectangle on `sampleBuilding`: as `sampleFacade`
but with the door flag off (`door == 1`) and rotated by 180 degrees. -/
def sampleFacadeBack : FacadeCall where
  coord := (-100, -250, -250)
  angle := (0, 0, 180)
  width := 500
  height := 500
  shape_type := 1
  door := 1
  side := 0

/-- The first facade call of the L shape on `sampleBuilding`: side index 0, door
flag enabled, facade `200 + 500` wide. -/
def sampleFacadeL : FacadeCall where
  coord := (-250, -100, -250)
  angle := (0, 0, 0)
  width := 700
  height := 500
  shape_type := 3
  door := 0
  side := 0

/-- The sample parameters with the removal list `[(1, 0, -1)]`: column 1 of row 0
on every side, which is also the door column. -/
def sampleParamsRemoved : ParameterSet := { sampleParams with remove_windows := [(1, 0, -1)] }

/-- The sample parameters with the removal list `[(0, 1, 1)]`: column 0 of row 1,
side field 1. -/
def sampleParamsSideOne : ParameterSet := { sampleParams with remove_windows := [(0, 1, 1)] }

/-- A 1 x 2 grid on every side (one column, two rows), door column 5 (outside the
grid), no removals. -/
def sampleParamsOneByTwo : ParameterSet where
  remove_windows := []
  railing_parameters := []
  grid_bottom_parameters := fun i => if i = 6 then 100 else 1
  grid_center_parameters := fun _ => 1
  grid_top_parameters := fun i => if i = 6 then 2 else 1
  window_scale_parameters := fun _ => 2
  window_design_parameters := fun _ => 1
  door_parameters := fun i => if i = 0 then 5 else 2
  vertical_offset := -50

/-- Overhang parameters `{width, thickness, height}` = `{20, 5, 10}`. -/
def sampleOverhang : DArray := fun i => if i = 0 then 20 else if i = 1 then 5 else 10

/-- A rational stand-in for `cos` with `cos 0 = 1`. -/
def sampleCos (t : ℚ) : ℚ := (1 - t ^ 2) / (1 + t ^ 2)

/-- A rational stand-in for `sin` with `sin 0 = 0`. -/
def sampleSin (t : ℚ) : ℚ := 2 * t / (1 + t ^ 2)

/-- The sample parameters with the design id 6 (outside `1..5`) in every slot. -/
def sampleParamsBadStyle : ParameterSet :=
  { sampleParams with window_design_parameters := fun _ => 6 }

/-- The sample parameters with the grid height 1 (a single row). -/
def sampleParamsOneRow : ParameterSet :=
  { sampleParams with grid_top_parameters := fun i => if i = 6 then 1 else 2 }

/-- A stand-in for `cos` that is exact at the quarter turns: 1, 0, -1, 0 at the
radians of 0, 90, 180, 270 degrees (converted with the source's `PI`). -/
def sampleQuarterCos (t : ℚ) : ℚ :=
  if t = 0 then 1 else if t = 180 * PI / 180 then -1 else 0

/-- A stand-in for `sin` that is exact at the quarter turns: 0, 1, 0, -1 at the
radians of 0, 90, 180, 270 degrees (converted with the source's `PI`). -/
def sampleQuarterSin (t : ℚ) : ℚ :=
  if t = 90 * PI / 180 then 1 else if t = 270 * PI / 180 then -1 else 0

/-- Parameter values to write: window scales 2, 3, 4, 5, 6, 7 in the slots 0..5,
bottom tile height 100, designs 1, 2, 3, and 1 everywhere else. -/
def sampleStore : Slot → ℚ
  | Slot.window_scale 0 => 2
  | Slot.window_scale 1 => 3
  | Slot.window_scale 2 => 4
  | Slot.window_scale 3 => 5
  | Slot.window_scale 4 => 6
  | Slot.window_scale 5 => 7
  | Slot.grid_bottom 6 => 100
  | Slot.window_design 1 => 2
  | Slot.window_design 2 => 3
  | _ => 1

/-- The values generated before the file is read, all taken as 0. -/
def sampleDefaults : Slot → ℚ := fun _ => 0

/-- Building parameters with width 300 and every other dimension 500. -/
def sampleBuildingWide : DArray := fun i => if i = 0 then 300 else 500

/-- Building parameters with first width 201 and every other dimension 500. -/
def sampleBuildingOdd : DArray := fun i => if i = 0 then 201 else 500

/-- A call of `gen_level` for row 0 of a grid of 7 columns and 3 rows on a facade
225 wide and 500 high, without bottom allowance. -/
def sampleLevelSeven : LevelCall where
  grid_width := 7
  grid_height := 3
  width := 225
  height := 500
  shape_type := 1
  door := 1
  y := 0
  width_scale := 2
  height_scale := 2
  bottom_height := 0
  side := 1

/-- Window scales with the bottom height scale (slot 1) equal to 1 and every
width scale equal to 2. -/
def sampleScalesHeightOne : DArray := fun i => if i = 1 then 1 else 2

/-- Window designs 1, 2, 3 in the slots documented as bottom, centre, top. -/
def sampleDesigns : DArray := fun i => if i = 0 then 1 else if i = 1 then 2 else 3

/-! ## Auxiliary lemmas -/

theorem countWindows_foldl_union {α : Type} (g : α → Solid) (L : List α) (init : Solid) :
    (L.foldl (fun nef x => Solid.union nef (g x)) init).countWindows
      = init.countWindows + (L.map fun x => (g x).countWindows).sum := by
  induction L generalizing init with
  | nil => simp
  | cons x rest ih => simp [ih, Solid.countWindows, Nat.add_assoc]

theorem countRailings_foldl_union {α : Type} (g : α → Solid) (L : List α) (init : Solid) :
    (L.foldl (fun nef x => Solid.union nef (g x)) init).countRailings
      = init.countRailings + (L.map fun x => (g x).countRailings).sum := by
  induction L generalizing init with
  | nil => simp
  | cons x rest ih => simp [ih, Solid.countRailings, Nat.add_assoc]

theorem countDoors_foldl_union {α : Type} (g : α → Solid) (L : List α) (init : Solid) :
    (L.foldl (fun nef x => Solid.union nef (g x)) init).countDoors
      = init.countDoors + (L.map fun x => (g x).countDoors).sum := by
  induction L generalizing init with
  | nil => simp
  | cons x rest ih => simp [ih, Solid.countDoors, Nat.add_assoc]

theorem gen_level_remove_window_iff (side x y : Int) (L : List IntTriple) :
    gen_level_remove_window side x y L = true ↔ ∃ r ∈ L, removal_matches side x y r := by
  induction L with
  | nil => simp [gen_level_remove_window]
  | cons r rest ih =>
    by_cases h : removal_matches side x y r
    · simp [gen_level_remove_window, h]
    · simp [gen_level_remove_window, h, ih]

theorem gen_windows_countRailings (w : ℚ) (op : Int) (tw h th : ℚ) :
    (gen_windows w op tw h th).countRailings = 0 := by
  unfold gen_windows; split_ifs <;> rfl

theorem gen_windows_countDoors (w : ℚ) (op : Int) (tw h th : ℚ) :
    (gen_windows w op tw h th).countDoors = 0 := by
  unfold gen_windows; split_ifs <;> rfl

theorem window_grammar_countRailings (st : Int) (ws wd : DArray) (w h tw th : ℚ) (y H : Int) :
    (window_grammar st ws wd w h tw th y H).countRailings = 0 := by
  unfold window_grammar window_grammar_place
  split_ifs <;> simp [Solid.countRailings, gen_windows_countRailings]

theorem window_grammar_countDoors (st : Int) (ws wd : DArray) (w h tw th : ℚ) (y H : Int) :
    (window_grammar st ws wd w h tw th y H).countDoors = 0 := by
  unfold window_grammar window_grammar_place
  split_ifs <;> simp [Solid.countDoors, gen_windows_countDoors]

theorem gen_level_nef_windows_countRailings (P : ParameterSet) (a : LevelCall) :
    (gen_level_nef_windows P a).countRailings = 0 := by
  unfold gen_level_nef_windows
  split_ifs <;> simp [Solid.countRailings, window_grammar_countRailings]

theorem gen_level_nef_windows_countDoors (P : ParameterSet) (a : LevelCall) :
    (gen_level_nef_windows P a).countDoors = 0 := by
  unfold gen_level_nef_windows
  split_ifs <;> simp [Solid.countDoors, window_grammar_countDoors]

theorem gen_level_cell_countRailings (P : ParameterSet) (a : LevelCall) (x : Int) :
    (gen_level_cell P a x).countRailings = 0 := by
  unfold gen_level_cell gen_level_nef_x gen_level_door gen_door
  split_ifs <;> simp [Solid.countRailings, gen_level_nef_windows_countRailings]

theorem gen_level_countRailings (P : ParameterSet) (a : LevelCall) :
    (gen_level P a).countRailings = (gen_level_nef_railing P a).countRailings := by
  unfold gen_level
  rw [countRailings_foldl_union]
  simp [gen_level_cell_countRailings]

theorem gen_level_railing_spec (tw th w bh vo : ℚ) (side y : Int) (L : List IntTriple) :
    gen_level_railing tw th w bh vo side y Solid.empty L
      = match L.find? (fun r => decide (railing_matches side y r)) with
        | some r =>
          Solid.union Solid.empty
            (Solid.translate 0 (w / 2) (th / 2 + bh * 2 + (y : ℚ) * th + vo)
              (gen_railing tw th (r.1 : ℚ) w))
        | none => Solid.empty := by
  induction L with
  | nil => simp [gen_level_railing]
  | cons r rest ih =>
    by_cases h : railing_matches side y r
    · simp [gen_level_railing, List.find?, h]
    · simp [gen_level_railing, List.find?, h, ih]

/-! ## Cell selection in `gen_level` -/

/-- C1, counterexample: on row 0 with bottom allowance 0 and an empty removal
list, the cell of column 0 (not the door cell) is emitted as empty geometry
although no list entry matches it. -/
theorem gen_level_empty_cell_without_match :
    (∀ r ∈ sampleParams.remove_windows, -1 ≤ r.1 ∧ -1 ≤ r.2.1 ∧ -1 ≤ r.2.2)
    ∧ ¬ ((sampleLevel 1 0 0 1).door = 0 ∧ (sampleLevel 1 0 0 1).y = 0
          ∧ ((0 : Int) : ℚ) = sampleParams.door_parameters 0)
    ∧ ¬ ((gen_level_cell sampleParams (sampleLevel 1 0 0 1) 0).isEmpty = true
          ↔ ∃ r ∈ sampleParams.remove_windows,
              (r.1 = 0 ∨ r.1 = -1) ∧ (r.2.1 = 0 ∨ r.2.1 = -1) ∧ (r.2.2 = 1 ∨ r.2.2 = -1)) := by
  refine ⟨by simp [sampleParams], by simp [sampleLevel], ?_⟩
  simp [sampleParams, sampleLevel, gen_level_cell, gen_level_nef_x, gen_level_remove_window,
    gen_level_nef_windows, Solid.isEmpty]

/-- C1, amended: for a removal list whose fields are all `>= -1` and a cell
`(x, y)` on side `s` that is not the door cell, `gen_level` emits empty geometry
when some list entry `(c, r, d)` has `(c = x or c = -1)`, `(r = y or r = -1)` and
`(d = s or d = -1)`, and otherwise the cell receives the row's default opening;
so whenever the row's default opening is itself non-empty the cell is empty if
and only if some entry matches.  The result depends only on which entries occur
in the list, not on their order or multiplicity. -/
theorem gen_level_removal_or_semantics (P : ParameterSet) (a : LevelCall) (x : Int)
    (hfields : ∀ r ∈ P.remove_windows, -1 ≤ r.1 ∧ -1 ≤ r.2.1 ∧ -1 ≤ r.2.2)
    (hdoor : ¬ (a.door = 0 ∧ a.y = 0 ∧ (x : ℚ) = P.door_parameters 0)) :
    ((∃ r ∈ P.remove_windows,
        (r.1 = x ∨ r.1 = -1) ∧ (r.2.1 = a.y ∨ r.2.1 = -1) ∧ (r.2.2 = a.side ∨ r.2.2 = -1))
      → gen_level_nef_x P a x = Solid.empty ∧ (gen_level_cell P a x).isEmpty = true)
    ∧ ((¬ ∃ r ∈ P.remove_windows,
        (r.1 = x ∨ r.1 = -1) ∧ (r.2.1 = a.y ∨ r.2.1 = -1) ∧ (r.2.2 = a.side ∨ r.2.2 = -1))
      → gen_level_nef_x P a x = gen_level_nef_windows P a)
    ∧ ((gen_level_nef_windows P a).isEmpty = false →
        ((gen_level_cell P a x).isEmpty = true ↔
          ∃ r ∈ P.remove_windows,
            (r.1 = x ∨ r.1 = -1) ∧ (r.2.1 = a.y ∨ r.2.1 = -1) ∧ (r.2.2 = a.side ∨ r.2.2 = -1)))
    ∧ (∀ L : List IntTriple, (∀ r, r ∈ L ↔ r ∈ P.remove_windows) →
        gen_level_cell { P with remove_windows := L } a x = gen_level_cell P a x) := by
  have key : (gen_level_remove_window a.side x a.y P.remove_windows = true) ↔
      ∃ r ∈ P.remove_windows,
        (r.1 = x ∨ r.1 = -1) ∧ (r.2.1 = a.y ∨ r.2.1 = -1) ∧ (r.2.2 = a.side ∨ r.2.2 = -1) := by
    rw [gen_level_remove_window_iff]
    constructor
    · rintro ⟨r, hr, h1, h2, h3⟩
      obtain ⟨f1, f2, f3⟩ := hfields r hr
      refine ⟨r, hr, ?_, ?_, ?_⟩
      · rcases h2 with h | h
        · exact Or.inl h.symm
        · exact Or.inr (by omega)
      · rcases h3 with h | h
        · exact Or.inl h.symm
        · exact Or.inr (by omega)
      · rcases h1 with h | h
        · exact Or.inl h.symm
        · exact Or.inr (by omega)
    · rintro ⟨r, hr, h1, h2, h3⟩
      refine ⟨r, hr, ?_, ?_, ?_⟩
      · rcases h3 with h | h
        · exact Or.inl h.symm
        · exact Or.inr (by omega)
      · rcases h1 with h | h
        · exact Or.inl h.symm
        · exact Or.inr (by omega)
      · rcases h2 with h | h
        · exact Or.inl h.symm
        · exact Or.inr (by omega)
  refine ⟨?_, ?_, ?_, ?_⟩
  · intro hm
    have h := key.mpr hm
    simp [gen_level_cell, gen_level_nef_x, hdoor, h, Solid.isEmpty]
  · intro hm
    have h : gen_level_remove_window a.side x a.y P.remove_windows = false := by
      cases hb : gen_level_remove_window a.side x a.y P.remove_windows
      · rfl
      · exact absurd (key.mp hb) hm
    simp [gen_level_nef_x, hdoor, h]
  · intro hne
    rw [← key]
    cases hb : gen_level_remove_window a.side x a.y P.remove_windows
    · simp [gen_level_cell, gen_level_nef_x, hdoor, hb, Solid.isEmpty, hne]
    · simp [gen_level_cell, gen_level_nef_x, hdoor, hb, Solid.isEmpty]
  · intro L hL
    have hrw : gen_level_remove_window a.side x a.y L
        = gen_level_remove_window a.side x a.y P.remove_windows := by
      rw [Bool.eq_iff_iff, gen_level_remove_window_iff, gen_level_remove_window_iff]
      constructor
      · rintro ⟨r, hr, h⟩
        exact ⟨r, (hL r).mp hr, h⟩
      · rintro ⟨r, hr, h⟩
        exact ⟨r, (hL r).mpr hr, h⟩
    simp only [gen_level_cell, gen_level_nef_x, gen_level_door, gen_level_nef_windows, hrw]

/-- Witness for C1: row 1 of the sample grid with the removal list
`[(0, 1, -1)]`, column 0, side 1, door flag off. -/
theorem gen_level_removal_or_semantics_witness :
    gen_level_nef_x { sampleParams with remove_windows := [(0, 1, -1)] } (sampleLevel 1 1 100 1) 0
      = Solid.empty :=
  ((gen_level_removal_or_semantics { sampleParams with remove_windows := [(0, 1, -1)] }
    (sampleLevel 1 1 100 1) 0 (by simp) (by simp [sampleLevel])).1
      ⟨(0, 1, -1), by simp, by simp [sampleLevel]⟩).1

/-- C2: `gen_level` adds at most one railing solid to the level.  When some row
of the railing list matches (row field equal to `y` or wildcard, side field
equal to the side `s` or wildcard; the code takes every negative field, `-1`
included, as the wildcard), the railing added is the one built from the scale
`row[0]` of the first matching row in list order, whatever follows it in the
list; when no row matches, no railing is added. -/
theorem gen_level_railing_first_match (P : ParameterSet) (a : LevelCall) :
    (gen_level P a).countRailings ≤ 1
    ∧ (match P.railing_parameters.find?
          (fun r => decide ((r.2.1 = a.y ∨ r.2.1 < 0) ∧ (r.2.2 = a.side ∨ r.2.2 < 0))) with
      | some r =>
        gen_level_nef_railing P a
          = Solid.union Solid.empty
              (Solid.translate 0 (a.width / 2)
                (gen_level_tile_height a / 2 + a.bottom_height * 2
                  + (a.y : ℚ) * gen_level_tile_height a + P.vertical_offset)
                (gen_railing (gen_level_tile_width a) (gen_level_tile_height a) (r.1 : ℚ)
                  a.width))
        ∧ (gen_level P a).countRailings = 1
      | none => gen_level_nef_railing P a = Solid.empty ∧ (gen_level P a).countRailings = 0) := by
  have hpred : (fun r : IntTriple =>
        decide ((r.2.1 = a.y ∨ r.2.1 < 0) ∧ (r.2.2 = a.side ∨ r.2.2 < 0)))
      = (fun r : IntTriple => decide (railing_matches a.side a.y r)) := by
    funext r
    simp only [railing_matches, decide_eq_decide]
    constructor
    · rintro ⟨h1, h2⟩
      exact ⟨h2.imp Eq.symm id, h1.imp Eq.symm id⟩
    · rintro ⟨h1, h2⟩
      exact ⟨h2.imp Eq.symm id, h1.imp Eq.symm id⟩
  rw [hpred, gen_level_countRailings]
  unfold gen_level_nef_railing
  rw [gen_level_railing_spec]
  cases P.railing_parameters.find? (fun r => decide (railing_matches a.side a.y r)) with
  | none => simp [Solid.countRailings]
  | some r => simp [Solid.countRailings, gen_railing]

/-- C3: the solid `gen_level` chooses for cell `(x, y)` is the door solid if and
only if the door flag is enabled (`door == 0`), `y = 0` and `x` equals the
configured door column `door_parameters[0]`; the cell then holds one door and
otherwise none, and a level of a row `y > 0` holds no door at all. -/
theorem gen_level_door_iff (P : ParameterSet) (a : LevelCall) (x : Int) :
    (gen_level_nef_x P a x = gen_level_door P a
      ↔ a.door = 0 ∧ a.y = 0 ∧ (x : ℚ) = P.door_parameters 0)
    ∧ ((gen_level_cell P a x).countDoors
        = if a.door = 0 ∧ a.y = 0 ∧ (x : ℚ) = P.door_parameters 0 then 1 else 0)
    ∧ (0 < a.y → (gen_level P a).countDoors = 0) := by
  refine ⟨?_, ?_, ?_⟩
  · by_cases h : a.door = 0 ∧ a.y = 0 ∧ (x : ℚ) = P.door_parameters 0
    · simp [gen_level_nef_x, h]
    · simp only [gen_level_nef_x, h, if_false, iff_false]
      intro hc
      have := congrArg Solid.countDoors hc
      split_ifs at this <;>
        simp [gen_level_door, gen_door, Solid.countDoors, gen_level_nef_windows_countDoors] at this
  · by_cases h : a.door = 0 ∧ a.y = 0 ∧ (x : ℚ) = P.door_parameters 0
    · simp [gen_level_cell, gen_level_nef_x, h, gen_level_door, gen_door, Solid.countDoors]
    · simp only [gen_level_cell, gen_level_nef_x, h, if_false, Solid.countDoors]
      split_ifs <;> simp [Solid.countDoors, gen_level_nef_windows_countDoors]
  · intro hy
    have hy0 : a.y ≠ 0 := by omega
    unfold gen_level
    rw [countDoors_foldl_union]
    have hr : (gen_level_nef_railing P a).countDoors = 0 := by
      unfold gen_level_nef_railing
      rw [gen_level_railing_spec]
      cases P.railing_parameters.find? (fun r => decide (railing_matches a.side a.y r)) <;>
        simp [Solid.countDoors, gen_railing]
    rw [hr]
    have hc : ∀ x : Int, (gen_level_cell P a x).countDoors = 0 := by
      intro x
      simp only [gen_level_cell, gen_level_nef_x, hy0, false_and, and_false, if_false,
        Solid.countDoors]
      split_ifs <;> simp [Solid.countDoors, gen_level_nef_windows_countDoors]
    simp [hc]

/-- Witness for C3: row 1 of the sample grid, door flag enabled, holds no door. -/
theorem gen_level_door_iff_witness : (gen_level sampleParams (sampleLevel 0 1 100 1)).countDoors = 0 :=
  (gen_level_door_iff sampleParams (sampleLevel 0 1 100 1) 0).2.2 (by simp [sampleLevel])

/-! ## Style selection in `window_grammar` -/

theorem toInt_of_nonneg (q : ℚ) (h : 0 ≤ q) : toInt q = Int.floor q := by
  simp [toInt, h]

/-- C4, counterexample: on row 0 of a two-row facade whose bottom band has height
scale 1 (and width scale 2) and design 3, the opening generated is style 3, not
style 1. -/
theorem window_grammar_height_scale_not_forced :
    sampleScalesHeightOne 1 = 1
    ∧ (window_grammar 1 sampleScalesHeightOne (fun _ => 3) 50 100 100 200 0 2).windowStyles
        = [3] := by
  refine ⟨by simp [sampleScalesHeightOne], ?_⟩
  simp [window_grammar, window_grammar_place, gen_windows, sampleScalesHeightOne, toInt,
    Solid.windowStyles]

/-- C4, amended: for a facade with `H >= 2` rows, if `y` is the bottom row and
the bottom band's width scale (slot 0) equals 1, or `y` is a centre row
(`0 < y < H-1`) and the centre band's width scale (slot 2) equals 1, the opening
generated for the row is style 1, whatever design ids are configured. -/
theorem window_grammar_forced_style (shape_type : Int)
    (window_scale_parameters window_design_parameters : DArray)
    (window_width window_height tile_width tile_height : ℚ) (y H : Int) (_hH : 2 ≤ H)
    (hband : (y = 0 ∧ window_scale_parameters 0 = 1)
      ∨ (0 < y ∧ y < H - 1 ∧ window_scale_parameters 2 = 1)) :
    window_grammar shape_type window_scale_parameters window_design_parameters window_width
        window_height tile_width tile_height y H
      = window_grammar_place shape_type (Solid.window 1 window_width window_height)
    ∧ (window_grammar shape_type window_scale_parameters window_design_parameters window_width
        window_height tile_width tile_height y H).windowStyles = [1] := by
  have hc : (window_scale_parameters 0 = 1 ∧ y = 0)
      ∨ (window_scale_parameters 2 = 1 ∧ y > 0 ∧ y < H - 1)
      ∨ (window_scale_parameters 0 = 1 ∧ y = H - 1) := by
    rcases hband with ⟨h1, h2⟩ | ⟨h1, h2, h3⟩
    · exact Or.inl ⟨h2, h1⟩
    · exact Or.inr (Or.inl ⟨h3, h1, h2⟩)
  have h1 : window_grammar shape_type window_scale_parameters window_design_parameters
      window_width window_height tile_width tile_height y H
      = window_grammar_place shape_type (Solid.window 1 window_width window_height) := by
    simp only [window_grammar, hc, if_true, gen_windows]
  refine ⟨h1, ?_⟩
  rw [h1]
  unfold window_grammar_place
  split_ifs <;> simp [Solid.windowStyles]

/-- Witness for C4: a centre row (row 1 of 3) whose band has width scale 1 and
design 4. -/
theorem window_grammar_forced_style_witness :
    (window_grammar 1 (fun _ => 1) (fun _ => 4) 100 100 100 100 1 3).windowStyles = [1] :=
  (window_grammar_forced_style 1 (fun _ => 1) (fun _ => 4) 100 100 100 100 1 3 (by decide)
    (Or.inr ⟨by decide, by decide, rfl⟩)).2

/-- C5, the code at the failing input: with designs (1, 2, 3) in the slots
documented as (bottom, centre, top), no scale equal to 1 and three rows, the
centre row 1 is generated with design 3 and the top row 2 with design 2; only
the bottom row 0 gets its own design 1. -/
theorem window_grammar_centre_top_swapped :
    (window_grammar 1 (fun _ => 2) sampleDesigns 50 100 100 200 0 3).windowStyles = [1]
    ∧ (window_grammar 1 (fun _ => 2) sampleDesigns 50 100 100 200 1 3).windowStyles = [3]
    ∧ (window_grammar 1 (fun _ => 2) sampleDesigns 50 100 100 200 2 3).windowStyles = [2] := by
  refine ⟨?_, ?_, ?_⟩ <;>
    simp [window_grammar, window_grammar_place, gen_windows, sampleDesigns, toInt,
      Solid.windowStyles]

/-! ## Row stacking in `gen_facade` -/

theorem intRange_zero_cast (W : ℕ) :
    intRange 0 ((W : Int) - 1) = (List.range W).map fun (k : ℕ) => (k : Int) := by
  unfold intRange
  have h : ((W : Int) - 1 + 1 - 0).toNat = W := by simp
  rw [h]
  apply List.map_congr_left
  intro k _
  simp

theorem intRange_one_cast (n : ℕ) :
    intRange 1 (((n + 2 : ℕ) : Int) - 2) = (List.range n).map fun (k : ℕ) => ((k + 1 : ℕ) : Int) := by
  unfold intRange
  have h : (((n + 2 : ℕ) : Int) - 2 + 1 - 1).toNat = n := by
    push_cast
    omega
  rw [h]
  apply List.map_congr_left
  intro k _
  push_cast
  ring

theorem gen_facade_calls_eq (P : ParameterSet) (c : FacadeCall) (H : ℕ)
    (hrows : toInt (P.grid_top_parameters 6) = (H : Int)) (hH : 2 ≤ H) :
    gen_facade_calls P c
      = (List.range H).map fun (y : ℕ) => facade_row_spec P c (H : Int) (y : Int) := by
  obtain ⟨n, rfl⟩ : ∃ n, H = n + 2 := ⟨H - 2, by omega⟩
  unfold gen_facade_calls
  simp only [hrows]
  rw [intRange_one_cast, List.range_succ, List.range_succ_eq_map, List.map_append, List.map_cons,
    List.map_map, List.map_map, List.map_singleton]
  have hb : facade_row_spec P c ((n + 2 : ℕ) : Int) ((0 : ℕ) : Int)
      = { grid_width := toInt (P.grid_bottom_parameters c.side)
          grid_height := ((n + 2 : ℕ) : Int)
          width := c.width, height := c.height, shape_type := c.shape_type, door := c.door
          y := 0
          width_scale := P.window_scale_parameters 0
          height_scale := P.window_scale_parameters 1
          bottom_height := P.grid_bottom_parameters 6, side := c.side + 1 } := by
    simp [facade_row_spec]
  have ht : facade_row_spec P c ((n + 2 : ℕ) : Int) ((n + 1 : ℕ) : Int)
      = { grid_width := toInt (P.grid_top_parameters c.side)
          grid_height := ((n + 2 : ℕ) : Int)
          width := c.width, height := c.height, shape_type := c.shape_type, door := c.door
          y := ((n + 2 : ℕ) : Int) - 1
          width_scale := P.window_scale_parameters 4
          height_scale := P.window_scale_parameters 5
          bottom_height := P.grid_bottom_parameters 6, side := c.side + 1 } := by
    have h0 : ((n + 1 : ℕ) : Int) ≠ 0 := by push_cast; omega
    have h1 : ((n + 1 : ℕ) : Int) = ((n + 2 : ℕ) : Int) - 1 := by push_cast; omega
    simp only [facade_row_spec, h0, if_false]
    simp only [h1, if_true]
  rw [hb, ht]
  simp only [List.cons_append, List.singleton_append, List.nil_append, List.append_assoc]
  congr 2
  apply List.map_congr_left
  intro k hk
  have hk' : k < n := List.mem_range.mp hk
  have h0 : ((k + 1 : ℕ) : Int) ≠ 0 := by push_cast; omega
  have h1 : ((k + 1 : ℕ) : Int) ≠ ((n + 2 : ℕ) : Int) - 1 := by push_cast; omega
  simp only [Function.comp, facade_row_spec, h0, h1, if_false, Nat.succ_eq_add_one]

/-- C6: for a row count `H >= 2`, `gen_facade` composes exactly one level for each
row index `0, 1, ..., H-1`, in this order and no other: row 0 with the bottom
band's column count and scales, each row `1..H-2` with the centre band's, row
`H-1` with the top band's; the union of the rows is translated once by the
facade origin and then rotated once by the facade angles. -/
theorem gen_facade_stacks_rows (P : ParameterSet) (c : FacadeCall) (H : ℕ)
    (hrows : toInt (P.grid_top_parameters 6) = (H : Int)) (hH : 2 ≤ H) :
    gen_facade_calls P c
      = (List.range H).map (fun (y : ℕ) => facade_row_spec P c (H : Int) (y : Int))
    ∧ (gen_facade_calls P c).map (fun a => a.y) = (List.range H).map (fun (y : ℕ) => (y : Int))
    ∧ gen_facade P c
      = Solid.rotate c.angle.1 c.angle.2.1 c.angle.2.2
          (Solid.translate c.coord.1 c.coord.2.1 c.coord.2.2
            (((List.range H).map
                (fun (y : ℕ) => gen_level P (facade_row_spec P c (H : Int) (y : Int)))).foldl
              Solid.union Solid.empty)) := by
  have h := gen_facade_calls_eq P c H hrows hH
  refine ⟨h, ?_, ?_⟩
  · rw [h, List.map_map]
    apply List.map_congr_left
    intro y _
    simp [facade_row_spec]
  · unfold gen_facade gen_facade_rows
    rw [h, List.foldl_map, List.foldl_map]

/-- Witness for C6: the sample facade of three rows. -/
theorem gen_facade_stacks_rows_witness :
    (gen_facade_calls sampleParams sampleFacade).map (fun a => a.y) = [0, 1, 2] := by
  simpa using
    (gen_facade_stacks_rows sampleParams sampleFacade 3 (by simp [sampleParams, toInt])
      (by decide)).2.1

/-! ## Counting the openings of a facade -/

theorem gen_windows_countWindows (w : ℚ) (op : Int) (tw h th : ℚ) (h1 : 1 ≤ op) (h5 : op ≤ 5) :
    (gen_windows w op tw h th).countWindows = 1 := by
  unfold gen_windows
  interval_cases op <;> simp [Solid.countWindows]

theorem toInt_mem_styles (q : ℚ) (h1 : 1 ≤ q) (h5 : q ≤ 5) : 1 ≤ toInt q ∧ toInt q ≤ 5 := by
  rw [toInt_of_nonneg q (by linarith)]
  constructor
  · exact Int.le_floor.mpr (by exact_mod_cast h1)
  · have h := Int.floor_le q
    have h' : ((Int.floor q : Int) : ℚ) ≤ ((5 : Int) : ℚ) := by
      push_cast
      linarith
    exact_mod_cast h'

theorem window_grammar_countWindows (st : Int) (ws wd : DArray) (w h tw th : ℚ) (y H : Int)
    (hd : ∀ k : Int, 0 ≤ k → k ≤ 2 → 1 ≤ wd k ∧ wd k ≤ 5) :
    (window_grammar st ws wd w h tw th y H).countWindows = 1 := by
  have e0 := toInt_mem_styles (wd 0) (hd 0 (by decide) (by decide)).1 (hd 0 (by decide) (by decide)).2
  have e1 := toInt_mem_styles (wd 1) (hd 1 (by decide) (by decide)).1 (hd 1 (by decide) (by decide)).2
  have e2 := toInt_mem_styles (wd 2) (hd 2 (by decide) (by decide)).1 (hd 2 (by decide) (by decide)).2
  unfold window_grammar window_grammar_place
  split_ifs <;>
    simp [Solid.countWindows, gen_windows_countWindows, e0.1, e0.2, e1.1, e1.2, e2.1, e2.2]

theorem gen_level_nef_windows_countWindows (P : ParameterSet) (a : LevelCall)
    (hy : 0 ≤ a.y) (hb : 0 < a.bottom_height)
    (hd : ∀ k : Int, 0 ≤ k → k ≤ 2 →
      1 ≤ P.window_design_parameters k ∧ P.window_design_parameters k ≤ 5) :
    (gen_level_nef_windows P a).countWindows = 1 := by
  unfold gen_level_nef_windows
  by_cases h0 : a.y = 0
  · simp [h0, hb, Solid.countWindows, window_grammar_countWindows _ _ _ _ _ _ _ _ _ hd]
  · have hpos : a.y > 0 := by omega
    simp [h0, hpos, Solid.countWindows, window_grammar_countWindows _ _ _ _ _ _ _ _ _ hd]

theorem gen_level_nef_railing_countWindows (P : ParameterSet) (a : LevelCall) :
    (gen_level_nef_railing P a).countWindows = 0 := by
  unfold gen_level_nef_railing
  rw [gen_level_railing_spec]
  cases P.railing_parameters.find? (fun r => decide (railing_matches a.side a.y r)) <;>
    simp [Solid.countWindows, gen_railing]

theorem gen_level_cell_countWindows (P : ParameterSet) (a : LevelCall) (x : Int)
    (hy : 0 ≤ a.y) (hb : 0 < a.bottom_height)
    (hd : ∀ k : Int, 0 ≤ k → k ≤ 2 →
      1 ≤ P.window_design_parameters k ∧ P.window_design_parameters k ≤ 5) :
    (gen_level_cell P a x).countWindows
      = if (a.door = 0 ∧ a.y = 0 ∧ (x : ℚ) = P.door_parameters 0)
          ∨ (∃ r ∈ P.remove_windows, removal_matches a.side x a.y r) then 0 else 1 := by
  unfold gen_level_cell gen_level_nef_x
  by_cases hdoor : a.door = 0 ∧ a.y = 0 ∧ (x : ℚ) = P.door_parameters 0
  · simp [hdoor, gen_level_door, gen_door, Solid.countWindows]
  · by_cases hr : ∃ r ∈ P.remove_windows, removal_matches a.side x a.y r
    · have h := (gen_level_remove_window_iff a.side x a.y P.remove_windows).mpr hr
      simp only [hdoor, if_false, h, if_true, Solid.countWindows, hr, or_true]
    · have h : gen_level_remove_window a.side x a.y P.remove_windows = false := by
        cases hb' : gen_level_remove_window a.side x a.y P.remove_windows
        · rfl
        · exact absurd ((gen_level_remove_window_iff _ _ _ _).mp hb') hr
      simp only [hdoor, if_false, h, Solid.countWindows, hr, or_false, Bool.false_eq_true]
      exact gen_level_nef_windows_countWindows P a hy hb hd

theorem sum_range_ite_eq_card (W : ℕ) (p : ℕ → Prop) [DecidablePred p] :
    ((List.range W).map fun x => if p x then 0 else 1).sum
      = ((Finset.range W).filter fun x => ¬ p x).card := by
  induction W with
  | zero => simp
  | succ n ih =>
    rw [List.range_succ, List.map_append, List.sum_append, ih, Finset.range_succ,
      Finset.filter_insert]
    by_cases h : p n
    · simp [h]
    · simp [h, Finset.card_insert_of_not_mem]

theorem gen_level_countWindows (P : ParameterSet) (a : LevelCall) (W : ℕ)
    (hW : a.grid_width = (W : Int)) (hy : 0 ≤ a.y) (hb : 0 < a.bottom_height)
    (hd : ∀ k : Int, 0 ≤ k → k ≤ 2 →
      1 ≤ P.window_design_parameters k ∧ P.window_design_parameters k ≤ 5) :
    (gen_level P a).countWindows
      = ((Finset.range W).filter fun (x : ℕ) =>
          ¬ ((a.door = 0 ∧ a.y = 0 ∧ (((x : Int)) : ℚ) = P.door_parameters 0)
            ∨ (∃ r ∈ P.remove_windows, removal_matches a.side (x : Int) a.y r))).card := by
  unfold gen_level
  rw [countWindows_foldl_union, gen_level_nef_railing_countWindows, hW, intRange_zero_cast,
    List.map_map, Nat.zero_add, ← sum_range_ite_eq_card]
  congr 1
  apply List.map_congr_left
  intro x _
  simp only [Function.comp, gen_level_cell_countWindows P a _ hy hb hd]

theorem list_sum_range_eq_finset_sum (H : ℕ) (f : ℕ → ℕ) :
    ((List.range H).map f).sum = ∑ y in Finset.range H, f y := by
  induction H with
  | zero => simp
  | succ n ih => rw [List.range_succ, List.map_append, List.sum_append, ih, Finset.sum_range_succ]; simp

theorem card_filter_product (W H : ℕ) (q : ℕ → ℕ → Prop) [∀ x y, Decidable (q x y)] :
    ((Finset.range W ×ˢ Finset.range H).filter fun p => q p.1 p.2).card
      = ∑ y in Finset.range H, ((Finset.range W).filter fun x => q x y).card := by
  rw [Finset.card_filter, Finset.sum_product_right]
  apply Finset.sum_congr rfl
  intro y _
  rw [Finset.card_filter]

theorem facade_row_spec_grid_width (P : ParameterSet) (c : FacadeCall) (H y : Int) (W : ℕ)
    (hgb : toInt (P.grid_bottom_parameters c.side) = (W : Int))
    (hgc : toInt (P.grid_center_parameters c.side) = (W : Int))
    (hgt : toInt (P.grid_top_parameters c.side) = (W : Int)) :
    (facade_row_spec P c H y).grid_width = (W : Int) := by
  unfold facade_row_spec
  simp only
  split_ifs <;> assumption

theorem gen_facade_countWindows_eq (P : ParameterSet) (c : FacadeCall) (W H : ℕ)
    (hH : 2 ≤ H)
    (hgb : toInt (P.grid_bottom_parameters c.side) = (W : Int))
    (hgc : toInt (P.grid_center_parameters c.side) = (W : Int))
    (hgt : toInt (P.grid_top_parameters c.side) = (W : Int))
    (hrows : toInt (P.grid_top_parameters 6) = (H : Int))
    (hbottom : 0 < P.grid_bottom_parameters 6)
    (hdesign : ∀ k : Int, 0 ≤ k → k ≤ 2 →
      1 ≤ P.window_design_parameters k ∧ P.window_design_parameters k ≤ 5) :
    (gen_facade P c).countWindows
      = W * H - ((Finset.range W ×ˢ Finset.range H).filter fun (p : ℕ × ℕ) =>
          (c.door = 0 ∧ (p.2 : Int) = 0 ∧ (((p.1 : Int)) : ℚ) = P.door_parameters 0)
            ∨ (∃ r ∈ P.remove_windows, removal_matches (c.side + 1) (p.1 : Int) (p.2 : Int) r)).card := by
  have hsplit := Finset.filter_card_add_filter_neg_card_eq_card
    (s := Finset.range W ×ˢ Finset.range H)
    (fun (p : ℕ × ℕ) =>
      (c.door = 0 ∧ (p.2 : Int) = 0 ∧ (((p.1 : Int)) : ℚ) = P.door_parameters 0)
        ∨ (∃ r ∈ P.remove_windows, removal_matches (c.side + 1) (p.1 : Int) (p.2 : Int) r))
  rw [Finset.card_product, Finset.card_range, Finset.card_range] at hsplit
  have hcount : (gen_facade P c).countWindows
      = ((Finset.range W ×ˢ Finset.range H).filter fun (p : ℕ × ℕ) =>
          ¬ ((c.door = 0 ∧ (p.2 : Int) = 0 ∧ (((p.1 : Int)) : ℚ) = P.door_parameters 0)
            ∨ (∃ r ∈ P.remove_windows,
                removal_matches (c.side + 1) (p.1 : Int) (p.2 : Int) r))).card := by
    rw [card_filter_product W H (fun x y =>
      ¬ ((c.door = 0 ∧ (y : Int) = 0 ∧ (((x : Int)) : ℚ) = P.door_parameters 0)
        ∨ (∃ r ∈ P.remove_windows, removal_matches (c.side + 1) (x : Int) (y : Int) r))),
      ← list_sum_range_eq_finset_sum]
    simp only [gen_facade, gen_facade_rows, Solid.countWindows]
    rw [countWindows_foldl_union, gen_facade_calls_eq P c H hrows hH, List.map_map]
    simp only [Solid.countWindows, Nat.zero_add]
    congr 1
    apply List.map_congr_left
    intro y _
    simp only [Function.comp]
    rw [gen_level_countWindows P (facade_row_spec P c (H : Int) (y : Int)) W
      (facade_row_spec_grid_width P c _ _ W hgb hgc hgt)
      (by simp [facade_row_spec]) (by simpa [facade_row_spec] using hbottom) hdesign]
    simp [facade_row_spec]
  omega

/-- C7: for a facade whose three bands all have column count `W >= 1`, with
`H >= 2` rows, footprint width `> 0`, positive bottom allowance and design ids
in `1..5`, the number of openings `gen_facade` places is `W*H` minus the number
of cells `(x, y)`, `0 <= x < W`, `0 <= y < H`, that are the door cell (door flag
enabled, `y = 0`, `x` the door column) or match some row of the removal list
(under the test of the removal loop, run with the side `gen_facade` passes). -/
theorem gen_facade_opening_count (P : ParameterSet) (c : FacadeCall) (W H : ℕ)
    (_hW : 1 ≤ W) (hH : 2 ≤ H) (_hwidth : 0 < c.width)
    (hgb : toInt (P.grid_bottom_parameters c.side) = (W : Int))
    (hgc : toInt (P.grid_center_parameters c.side) = (W : Int))
    (hgt : toInt (P.grid_top_parameters c.side) = (W : Int))
    (hrows : toInt (P.grid_top_parameters 6) = (H : Int))
    (hbottom : 0 < P.grid_bottom_parameters 6)
    (hdesign : ∀ k : Int, 0 ≤ k → k ≤ 2 →
      1 ≤ P.window_design_parameters k ∧ P.window_design_parameters k ≤ 5) :
    (gen_facade P c).countWindows
      = W * H - ((Finset.range W ×ˢ Finset.range H).filter fun (p : ℕ × ℕ) =>
          (c.door = 0 ∧ (p.2 : Int) = 0 ∧ (((p.1 : Int)) : ℚ) = P.door_parameters 0)
            ∨ (∃ r ∈ P.remove_windows, removal_matches (c.side + 1) (p.1 : Int) (p.2 : Int) r)).card :=
  gen_facade_countWindows_eq P c W H hH hgb hgc hgt hrows hbottom hdesign

/-- Witness for C7: the sample 2 x 3 facade with the door in column 1 and the
removal `(1, 0, -1)` has 5 openings (one cell is both door and removed). -/
theorem gen_facade_opening_count_witness :
    (gen_facade sampleParamsRemoved sampleFacade).countWindows = 5 := by
  have h := gen_facade_opening_count sampleParamsRemoved sampleFacade 2 3 (by decide) (by decide)
    (by simp [sampleFacade]) (by simp [sampleParamsRemoved, sampleParams, sampleFacade, toInt])
    (by simp [sampleParamsRemoved, sampleParams, sampleFacade, toInt])
    (by simp [sampleParamsRemoved, sampleParams, sampleFacade, toInt])
    (by simp [sampleParamsRemoved, sampleParams, toInt])
    (by simp [sampleParamsRemoved, sampleParams])
    (by
      intro k _ _
      simp only [sampleParamsRemoved, sampleParams]
      split_ifs <;> norm_num)
  have hcard : ((Finset.range 2 ×ˢ Finset.range 3).filter fun (p : ℕ × ℕ) =>
      (sampleFacade.door = 0 ∧ (p.2 : Int) = 0
          ∧ (((p.1 : Int)) : ℚ) = sampleParamsRemoved.door_parameters 0)
        ∨ (∃ r ∈ sampleParamsRemoved.remove_windows,
            removal_matches (sampleFacade.side + 1) (p.1 : Int) (p.2 : Int) r)).card = 1 := by
    decide
  rw [hcard] at h
  exact h

/-! ## Facades of the rectangle -/

theorem list_sum_map_const {α : Type} (L : List α) (f : α → ℕ) (n : ℕ)
    (h : ∀ c ∈ L, f c = n) : (L.map f).sum = L.length * n := by
  induction L with
  | nil => simp
  | cons c rest ih =>
    rw [List.map_cons, List.sum_cons, h c (List.mem_cons_self _ _),
      ih (fun d hd => h d (List.mem_cons_of_mem _ hd)), List.length_cons]
    ring

theorem facade_grammar_calls_rectangle_side (tan : ℚ → ℚ) (sides : Int)
    (building_parameters : DArray) (c : FacadeCall)
    (hc : c ∈ facade_grammar_calls tan sides 1 building_parameters) : c.side = 0 ∨ c.side = 1 := by
  simp [facade_grammar_calls, List.range_succ] at hc
  rcases hc with h | h | h | h <;> simp [h]

theorem facade_grammar_calls_rectangle_length (tan : ℚ → ℚ) (sides : Int)
    (building_parameters : DArray) :
    (facade_grammar_calls tan sides 1 building_parameters).length = 4 := by
  simp [facade_grammar_calls]

/-- C8: for a rectangle whose bands all have column count `W` on both axes and
row count `H >= 2`, with positive bottom allowance, design ids in `1..5`, an
empty removal list and a door column outside `0..W-1`, `facade_grammar` builds
exactly 4 facades, each with exactly `W*H` openings, `4*W*H` in total. -/
theorem facade_grammar_rectangle_opening_count (tan : ℚ → ℚ) (P : ParameterSet) (sides : Int)
    (building_parameters : DArray) (W H : ℕ) (hH : 2 ≤ H)
    (hgrid : ∀ s : Int, s = 0 ∨ s = 1 →
      toInt (P.grid_bottom_parameters s) = (W : Int)
        ∧ toInt (P.grid_center_parameters s) = (W : Int)
        ∧ toInt (P.grid_top_parameters s) = (W : Int))
    (hrows : toInt (P.grid_top_parameters 6) = (H : Int))
    (hbottom : 0 < P.grid_bottom_parameters 6)
    (hdesign : ∀ k : Int, 0 ≤ k → k ≤ 2 →
      1 ≤ P.window_design_parameters k ∧ P.window_design_parameters k ≤ 5)
    (hremove : P.remove_windows = [])
    (hdoor : ∀ x : ℕ, x < W → (((x : Int)) : ℚ) ≠ P.door_parameters 0) :
    (facade_grammar_calls tan sides 1 building_parameters).length = 4
    ∧ (∀ c ∈ facade_grammar_calls tan sides 1 building_parameters,
        (gen_facade P c).countWindows = W * H)
    ∧ (facade_grammar tan P sides 1 building_parameters).countWindows = 4 * W * H := by
  have hfac : ∀ c ∈ facade_grammar_calls tan sides 1 building_parameters,
      (gen_facade P c).countWindows = W * H := by
    intro c hc
    obtain ⟨hgb, hgc, hgt⟩ := hgrid c.side (facade_grammar_calls_rectangle_side tan sides _ c hc)
    rw [gen_facade_countWindows_eq P c W H hH hgb hgc hgt hrows hbottom hdesign]
    have hempty : ((Finset.range W ×ˢ Finset.range H).filter fun (p : ℕ × ℕ) =>
        (c.door = 0 ∧ (p.2 : Int) = 0 ∧ (((p.1 : Int)) : ℚ) = P.door_parameters 0)
          ∨ (∃ r ∈ P.remove_windows,
              removal_matches (c.side + 1) (p.1 : Int) (p.2 : Int) r)) = ∅ := by
      apply Finset.filter_eq_empty_iff.mpr
      intro p hp
      have hx : p.1 < W := by
        have := (Finset.mem_product.mp hp).1
        exact Finset.mem_range.mp this
      have hd := hdoor p.1 hx
      simp only [hremove, List.not_mem_nil, false_and, exists_false, or_false, not_and]
      intro _ _
      exact hd
    rw [hempty]
    simp
  refine ⟨facade_grammar_calls_rectangle_length tan sides building_parameters, hfac, ?_⟩
  unfold facade_grammar
  rw [countWindows_foldl_union, list_sum_map_const _ _ (W * H) hfac,
    facade_grammar_calls_rectangle_length]
  simp [Solid.countWindows, Nat.mul_assoc]

/-- Witness for C8: the 1 x 2 grid gives 2 openings on each of the 4 facades and
8 in total. -/
theorem facade_grammar_rectangle_opening_count_witness :
    (facade_grammar_calls (fun _ => 1) 4 1 sampleBuilding).length = 4
    ∧ (∀ c ∈ facade_grammar_calls (fun _ => 1) 4 1 sampleBuilding,
        (gen_facade sampleParamsOneByTwo c).countWindows = 2)
    ∧ (facade_grammar (fun _ => 1) sampleParamsOneByTwo 4 1 sampleBuilding).countWindows = 8 := by
  simpa using
    facade_grammar_rectangle_opening_count (fun _ => 1) sampleParamsOneByTwo 4 sampleBuilding 1 2
      (by decide)
      (by
        intro s hs
        rcases hs with rfl | rfl <;> simp [sampleParamsOneByTwo, toInt])
      (by simp [sampleParamsOneByTwo, toInt])
      (by simp [sampleParamsOneByTwo])
      (by
        intro k _ _
        simp only [sampleParamsOneByTwo]
        norm_num)
      rfl
      (by
        intro x hx
        have hx0 : x = 0 := by omega
        subst hx0
        simp [sampleParamsOneByTwo])

/-! ## Side index of removal and railing rows -/

theorem gen_facade_calls_door_side (P : ParameterSet) (c : FacadeCall) (a : LevelCall)
    (ha : a ∈ gen_facade_calls P c) : a.door = c.door ∧ a.side = c.side + 1 := by
  unfold gen_facade_calls at ha
  simp only [List.mem_append, List.mem_singleton, List.mem_map] at ha
  rcases ha with (h | ⟨y, _, h⟩) | h <;> subst h <;> exact ⟨rfl, rfl⟩

/-- C9, counterexample: with the removal row `(1, 0, -1)` and the door in column
1, the rectangle's first facade (door flag enabled, side index 0) is enumerated
by `facade_grammar`, has two columns, and its cell at column 1, row 0 is not
empty: it holds the door. -/
theorem removal_any_side_keeps_door_cell :
    (1, 0, -1) ∈ sampleParamsRemoved.remove_windows
    ∧ sampleFacade ∈ facade_grammar_calls (fun _ => 1) 4 1 sampleBuilding
    ∧ ((gen_facade_calls sampleParamsRemoved sampleFacade).map fun a =>
        (a.y, a.grid_width, (gen_level_cell sampleParamsRemoved a 1).isEmpty,
          (gen_level_cell sampleParamsRemoved a 1).countDoors))
      = [(0, 2, false, 1), (1, 2, false, 0), (2, 2, false, 0)] := by
  refine ⟨by decide, ?_, by decide⟩
  simp [facade_grammar_calls, sampleFacade, sampleBuilding, List.range_succ]
  norm_num

/-- C9, amended: for every topology and every removal row `(col, row, -1)`, on
every facade that `facade_grammar` enumerates the solid chosen for the cell at
column `col`, row `row` is empty geometry, except where that cell is the door
cell of a facade with the door flag enabled (`row = 0` and `col` the door
column), which receives the door solid. -/
theorem removal_any_side_empties_cell (tan : ℚ → ℚ) (P : ParameterSet) (sides shape_type : Int)
    (building_parameters : DArray) (c : FacadeCall)
    (_hc : c ∈ facade_grammar_calls tan sides shape_type building_parameters)
    (a : LevelCall) (ha : a ∈ gen_facade_calls P c) (col row : Int)
    (hentry : (col, row, -1) ∈ P.remove_windows) (hrow : a.y = row) :
    gen_level_nef_x P a col
      = (if c.door = 0 ∧ row = 0 ∧ (col : ℚ) = P.door_parameters 0 then gen_level_door P a
          else Solid.empty)
    ∧ (¬ (c.door = 0 ∧ row = 0 ∧ (col : ℚ) = P.door_parameters 0)
        → (gen_level_cell P a col).isEmpty = true) := by
  obtain ⟨hd, _⟩ := gen_facade_calls_door_side P c a ha
  have hrem : gen_level_remove_window a.side col a.y P.remove_windows = true := by
    rw [gen_level_remove_window_iff]
    exact ⟨(col, row, -1), hentry, Or.inr (by simp), Or.inl rfl, Or.inl hrow⟩
  rw [hrow] at hrem
  have h1 : gen_level_nef_x P a col
      = (if c.door = 0 ∧ row = 0 ∧ (col : ℚ) = P.door_parameters 0 then gen_level_door P a
          else Solid.empty) := by
    simp only [gen_level_nef_x, hd, hrow, hrem, if_true]
  refine ⟨h1, ?_⟩
  intro hnd
  simp only [gen_level_cell, Solid.isEmpty, h1, hnd, if_false]

/-- Witness for C9: second facade of the rectangle (door flag off), row 0,
column 1, removal row `(1, 0, -1)`. -/
theorem removal_any_side_empties_cell_witness :
    gen_level_nef_x sampleParamsRemoved (facade_row_spec sampleParamsRemoved sampleFacadeBack 3 0) 1
      = Solid.empty := by
  have h := (removal_any_side_empties_cell (fun _ => 1) sampleParamsRemoved 4 1 sampleBuilding
    sampleFacadeBack
    (by
      simp [facade_grammar_calls, sampleFacadeBack, sampleBuilding, List.range_succ]
      norm_num)
    (facade_row_spec sampleParamsRemoved sampleFacadeBack 3 0)
    (by decide) 1 0 (by decide) rfl).1
  simpa [sampleFacadeBack] using h

/-- C10, counterexample: with the single removal row `(0, 1, 1)` (side field 1) on
the L shape, the cell at column 0, row 1 is removed on the facade with side
index 0 and on no other; the facade with side index 1 keeps its opening. -/
theorem side_field_one_hits_side_index_zero :
    ((facade_grammar_calls (fun _ => 1) 4 3 sampleBuilding).map fun c =>
      (c.side, c.angle, (gen_facade_calls sampleParamsSideOne c).map fun a =>
        (a.y, (gen_level_cell sampleParamsSideOne a 0).isEmpty)))
      = [(0, (0, 0, 0), [(0, false), (1, true), (2, false)]),
         (1, (0, 0, 270), [(0, false), (1, false), (2, false)]),
         (2, (0, 0, 90), [(0, false), (1, false), (2, false)]),
         (3, (0, 0, 180), [(0, false), (1, false), (2, false)]),
         (4, (0, 0, 180), [(0, false), (1, false), (2, false)]),
         (5, (0, 0, 270), [(0, false), (1, false), (2, false)])] := by
  decide

/-- C10, amended: the side field of a removal or railing row is matched against
the facade's side index plus one.  On every facade `facade_grammar` enumerates,
a row with side field `k >= 0` passes the side test of the removal loop and of
the railing loop exactly when the facade's side index is `k - 1`.  The side
indices are `0..5` for the L shape with z rotations 0, 270, 90, 180, 180, 270
(so `k` ranges over `1..6`), `0..S-1` in placement order for the polygon
(`k` in `1..S`) and `0, 0, 1, 1` for the rectangle's two pairs (`k` in `1, 2`). -/
theorem side_field_is_side_index_succ (tan : ℚ → ℚ) (P : ParameterSet) (sides shape_type : Int)
    (building_parameters : DArray) (c : FacadeCall)
    (_hc : c ∈ facade_grammar_calls tan sides shape_type building_parameters)
    (a : LevelCall) (ha : a ∈ gen_facade_calls P c) (r : IntTriple) (hk : 0 ≤ r.2.2) (x : Int) :
    (removal_matches a.side x a.y r
      ↔ c.side = r.2.2 - 1 ∧ (x = r.1 ∨ r.1 < 0) ∧ (a.y = r.2.1 ∨ r.2.1 < 0))
    ∧ (railing_matches a.side a.y r ↔ c.side = r.2.2 - 1 ∧ (a.y = r.2.1 ∨ r.2.1 < 0))
    ∧ ((facade_grammar_calls tan sides 3 building_parameters).map (fun f => (f.side, f.angle))
        = [(0, (0, 0, 0)), (1, (0, 0, 270)), (2, (0, 0, 90)), (3, (0, 0, 180)),
           (4, (0, 0, 180)), (5, (0, 0, 270))])
    ∧ ((facade_grammar_calls tan sides 2 building_parameters).map (fun f => f.side)
        = (List.range sides.toNat).map (fun (k : ℕ) => (k : Int)))
    ∧ ((facade_grammar_calls tan sides 1 building_parameters).map (fun f => f.side)
        = [0, 0, 1, 1]) := by
  obtain ⟨_, hs⟩ := gen_facade_calls_door_side P c a ha
  refine ⟨?_, ?_, ?_, ?_, ?_⟩
  · unfold removal_matches
    rw [hs]
    constructor
    · rintro ⟨h1, h2, h3⟩
      exact ⟨by omega, h2, h3⟩
    · rintro ⟨h1, h2, h3⟩
      exact ⟨Or.inl (by omega), h2, h3⟩
  · unfold railing_matches
    rw [hs]
    constructor
    · rintro ⟨h1, h2⟩
      exact ⟨by omega, h2⟩
    · rintro ⟨h1, h2⟩
      exact ⟨Or.inl (by omega), h2⟩
  · simp [facade_grammar_calls]
  · simp only [facade_grammar_calls, if_true, List.map_map]
    norm_num
    intro k _
    rw [Int.tdiv_eq_ediv (by omega) (by decide)]
    omega
  · simp [facade_grammar_calls, List.range_succ]

/-- Witness for C10: on the L shape's facade with side index 0, bottom row, the
removal row `(0, 0, 1)` passes the test for column 0. -/
theorem side_field_is_side_index_succ_witness :
    removal_matches (facade_row_spec sampleParams sampleFacadeL 3 0).side 0 0 (0, 0, 1) :=
  ((side_field_is_side_index_succ (fun _ => 1) sampleParams 4 3 sampleBuilding sampleFacadeL
    (by
      simp [facade_grammar_calls, sampleFacadeL, sampleBuilding]
      norm_num)
    (facade_row_spec sampleParams sampleFacadeL 3 0)
    (by decide) (0, 0, 1) (by decide) 0).1).mpr (by decide)

/-! ## Facade enumeration of `facade_grammar` -/

theorem facade_grammar_calls_polygon (tan : ℚ → ℚ) (S : ℕ) (building_parameters : DArray) :
    facade_grammar_calls tan (S : Int) 2 building_parameters
      = (List.range S).map fun (k : ℕ) =>
          { coord := (building_parameters 0
                / (2 * tan (((Int.tdiv 180 (S : Int) : Int) : ℚ) * PI / 180)),
              -building_parameters 0 / 2, -building_parameters 4 / 2)
            angle := (0, 0, spec_polygon_step (S : Int) * ((2 * (k : Int) + 1 : Int) : ℚ))
            width := building_parameters 0
            height := building_parameters 4
            shape_type := 2
            door := 2 * (k : Int)
            side := (k : Int) : FacadeCall } := by
  simp only [facade_grammar_calls, if_true, Int.toNat_ofNat, spec_polygon_step]
  norm_num
  intro k _
  rw [Int.tdiv_eq_ediv (by omega) (by decide)]
  omega

/-- C12: for every `S >= 3`, `facade_grammar` with the polygon topology invokes
`gen_facade` exactly `S` times, with the side indices `0, 1, ..., S-1` in
placement order, every call with the facade length `building_parameters[0]` (the
polygon side width) and with the same placement origin. -/
theorem polygon_facade_calls (tan : ℚ → ℚ) (S : ℕ) (building_parameters : DArray)
    (_hS : 3 ≤ S) :
    (facade_grammar_calls tan (S : Int) 2 building_parameters).length = S
    ∧ (facade_grammar_calls tan (S : Int) 2 building_parameters).map (fun c => c.side)
        = (List.range S).map (fun (k : ℕ) => (k : Int))
    ∧ (∀ c ∈ facade_grammar_calls tan (S : Int) 2 building_parameters,
        c.width = building_parameters 0)
    ∧ (∀ c ∈ facade_grammar_calls tan (S : Int) 2 building_parameters,
        ∀ d ∈ facade_grammar_calls tan (S : Int) 2 building_parameters, c.coord = d.coord) := by
  rw [facade_grammar_calls_polygon]
  refine ⟨by simp, by simp [List.map_map, Function.comp], ?_, ?_⟩
  · intro c hc
    obtain ⟨k, _, rfl⟩ := List.mem_map.mp hc
    rfl
  · intro c hc d hd
    obtain ⟨k, _, rfl⟩ := List.mem_map.mp hc
    obtain ⟨j, _, rfl⟩ := List.mem_map.mp hd
    rfl

/-- Witness for C12: the pentagon has the side indices 0..4. -/
theorem polygon_facade_calls_witness :
    (facade_grammar_calls (fun _ => 1) ((5 : ℕ) : Int) 2 sampleBuilding).map (fun c => c.side)
      = (List.range 5).map (fun (k : ℕ) => (k : Int)) :=
  (polygon_facade_calls (fun _ => 1) 5 sampleBuilding (by decide)).2.1

/-- C15: for the rectangle with width `w`, length `l` and height `h`,
`facade_grammar` makes exactly four calls of `gen_facade`: two of facade length
`l` with origin `(-w/2, -l/2, -h/2)` and z rotations 0 and 180 (side index 0),
then two of facade length `w` with origin `(-l/2, -w/2, -h/2)` and z rotations 90
and 270 (side index 1). -/
theorem rectangle_facade_calls (tan : ℚ → ℚ) (sides : Int) (building_parameters : DArray) :
    (facade_grammar_calls tan sides 1 building_parameters).map
        (fun c => (c.width, c.coord, c.angle, c.side))
      = [(building_parameters 1,
            (-building_parameters 0 / 2, -building_parameters 1 / 2, -building_parameters 4 / 2),
            (0, 0, 0), 0),
         (building_parameters 1,
            (-building_parameters 0 / 2, -building_parameters 1 / 2, -building_parameters 4 / 2),
            (0, 0, 180), 0),
         (building_parameters 0,
            (-building_parameters 1 / 2, -building_parameters 0 / 2, -building_parameters 4 / 2),
            (0, 0, 90), 1),
         (building_parameters 0,
            (-building_parameters 1 / 2, -building_parameters 0 / 2, -building_parameters 4 / 2),
            (0, 0, 270), 1)] := by
  simp [facade_grammar_calls, List.range_succ]
  norm_num

/-- C16: for the L shape, `facade_grammar` makes exactly six calls of
`gen_facade`, with the side indices 0, 1, 2, 3, 4, 5 in this order and the
rotations `(0, 0, 0)`, `(0, 0, 270)`, `(0, 0, 90)`, `(0, 0, 180)`, `(0, 0, 180)`,
`(0, 0, 270)`, for every choice of the lobe dimensions. -/
theorem l_shape_facade_calls (tan : ℚ → ℚ) (sides : Int) (building_parameters : DArray) :
    (facade_grammar_calls tan sides 3 building_parameters).length = 6
    ∧ (facade_grammar_calls tan sides 3 building_parameters).map (fun c => (c.side, c.angle))
        = [(0, (0, 0, 0)), (1, (0, 0, 270)), (2, (0, 0, 90)), (3, (0, 0, 180)),
           (4, (0, 0, 180)), (5, (0, 0, 270))] := by
  constructor <;> simp [facade_grammar_calls]

/-- C13, the code at the failing input: for a polygon of 7 sides, after
`parameter_management` has copied slot 0 of the grid arrays to the slots 1..5,
the facades with side index 0..5 have 2 columns in every row, but the facade
with side index 6 reads slot 6 of each array: 100 columns (the bottom tile
height) in the bottom row, 2 in the centre row, 3 (the grid height) in the top
row. -/
theorem polygon_seventh_facade_columns :
    (facade_grammar_calls (fun _ => 1) 7 2 sampleBuilding).map (fun c =>
        (c.side, (gen_facade_calls (parameter_management_polygon_grids 2 sampleParams) c).map
          (fun a => a.grid_width)))
      = [(0, [2, 2, 2]), (1, [2, 2, 2]), (2, [2, 2, 2]), (3, [2, 2, 2]), (4, [2, 2, 2]),
         (5, [2, 2, 2]), (6, [100, 2, 3])] := by
  decide

/-- C14, the code at the failing input: for a polygon of 7 sides the facades are
placed at the distance `w / (2 * tan (25 * PI / 180))` and `polygon` uses the
circumradius `w / (2 * sin (25 * PI / 180))`: the angle is `180/7` truncated to
the integer 25, not `180/7` degrees. -/
theorem polygon_heptagon_angle_truncated (sin tan : ℚ → ℚ) (building_parameters : DArray)
    (width : ℚ) :
    (∀ c ∈ facade_grammar_calls tan 7 2 building_parameters,
        c.coord.1 = building_parameters 0 / (2 * tan (25 * PI / 180)))
    ∧ polygon_circumradius sin 0 width 7 = width / (2 * sin (25 * PI / 180)) + 0
    ∧ (25 : ℚ) ≠ 180 / 7 := by
  refine ⟨?_, ?_, by norm_num⟩
  · intro c hc
    have h := facade_grammar_calls_polygon tan 7 building_parameters
    simp only [Nat.cast_ofNat] at h
    rw [h] at hc
    obtain ⟨k, _, rfl⟩ := List.mem_map.mp hc
    have h25 : Int.tdiv 180 7 = 25 := by decide
    simp only [h25]
    norm_num
  · have h25 : Int.tdiv 180 7 = 25 := by decide
    simp only [polygon_circumradius, h25]
    norm_num

/-! ## The rotation of `rotate` -/

/-- C17: for all angles `rx`, `ry`, `rz` (degrees, converted with the source's
`PI`) and every point `p`, `rotate(rx, ry, rz)` maps `p` to
`Rz(rz) (Ry(ry) (Rx(rx) p))` with the standard right-handed rotation matrices:
the x rotation first, then y, then z; and, `cos 0 = 1` and `sin 0 = 0` being
given, it equals `rotate(rx, 0, 0)` followed by `rotate(0, ry, 0)` followed by
`rotate(0, 0, rz)`. -/
theorem rotate_point_x_then_y_then_z (cos sin : ℚ → ℚ) (rx ry rz : ℚ) (p : Vec3)
    (hcos : cos 0 = 1) (hsin : sin 0 = 0) :
    rotate_point cos sin rx ry rz p
      = spec_rotation_z (cos (rz * PI / 180)) (sin (rz * PI / 180))
          (spec_rotation_y (cos (ry * PI / 180)) (sin (ry * PI / 180))
            (spec_rotation_x (cos (rx * PI / 180)) (sin (rx * PI / 180)) p))
    ∧ rotate_point cos sin rx ry rz p
      = rotate_point cos sin 0 0 rz (rotate_point cos sin 0 ry 0 (rotate_point cos sin rx 0 0 p)) := by
  obtain ⟨x, y, z⟩ := p
  constructor
  · simp only [rotate_point, rot_x, rot_y, rot_z, Aff3.transform, spec_rotation_x,
      spec_rotation_y, spec_rotation_z, Prod.mk.injEq]
    refine ⟨?_, ?_, ?_⟩ <;> ring
  · simp only [rotate_point, rot_x, rot_y, rot_z, Aff3.transform, zero_mul, zero_div, hcos, hsin,
      Prod.mk.injEq]
    refine ⟨?_, ?_, ?_⟩ <;> ring

/-- Witness for C17: the rational stand-ins for `cos` and `sin`, the angles
`(30, 45, 60)` and the point `(1, 2, 3)`. -/
theorem rotate_point_x_then_y_then_z_witness :
    rotate_point sampleCos sampleSin 30 45 60 (1, 2, 3)
      = rotate_point sampleCos sampleSin 0 0 60
          (rotate_point sampleCos sampleSin 0 45 0 (rotate_point sampleCos sampleSin 30 0 0 (1, 2, 3))) :=
  (rotate_point_x_then_y_then_z sampleCos sampleSin 30 45 60 (1, 2, 3)
    (by norm_num [sampleCos]) (by norm_num [sampleSin])).2

/-! ## Rounding to the nearest `double` -/

theorem roundEven_abs_sub_le (q : ℚ) : |(roundEven q : ℚ) - q| ≤ 1 / 2 := by
  have h1 := Int.floor_le q
  have h2 := Int.lt_floor_add_one q
  unfold roundEven
  split_ifs with a b c
  · rw [abs_le]; constructor <;> linarith
  · rw [abs_le]; push_cast; constructor <;> linarith
  · rw [abs_le]; constructor <;> linarith
  · rw [abs_le]; push_cast; constructor <;> linarith

theorem roundEven_eq_of_abs_lt (q : ℚ) (m : Int) (h : |q - (m : ℚ)| < 1 / 2) :
    roundEven q = m := by
  rw [abs_lt] at h
  obtain ⟨h1, h2⟩ := h
  have hf1 : Int.floor q ≤ m := by
    have : Int.floor q < m + 1 := by
      rw [Int.floor_lt]; push_cast; linarith
    omega
  have hf2 : m - 1 ≤ Int.floor q := by
    rw [Int.le_floor]; push_cast; linarith
  have hq1 := Int.floor_le q
  have hq2 := Int.lt_floor_add_one q
  rcases (by omega : Int.floor q = m ∨ Int.floor q = m - 1) with hf | hf
  · unfold roundEven
    rw [hf, if_pos (by linarith)]
  · unfold roundEven
    rw [hf] at hq1 hq2 ⊢
    push_cast at hq1 hq2 ⊢
    rw [if_neg (by linarith), if_pos (by linarith)]
    ring

theorem roundEven_intCast (n : Int) : roundEven (n : ℚ) = n :=
  roundEven_eq_of_abs_lt _ n (by simp)

theorem two_zpow_pos (k : ℤ) : (0 : ℚ) < 2 ^ k := zpow_pos (by norm_num) k

theorem ulp_pos (x : ℚ) : 0 < ulp x := two_zpow_pos _

theorem zpow_log_le (x : ℚ) (hx : 0 < x) : (2 : ℚ) ^ Int.log 2 x ≤ x := by
  have h := Int.zpow_log_le_self (b := 2) (by norm_num) hx
  simpa using h

theorem lt_zpow_log_succ (x : ℚ) : x < (2 : ℚ) ^ (Int.log 2 x + 1) := by
  have h := Int.lt_zpow_succ_log_self (b := 2) (by norm_num) x
  simpa using h

theorem log_eq_of_bounds (x : ℚ) (e : ℤ) (h1 : (2 : ℚ) ^ e ≤ x) (h2 : x < (2 : ℚ) ^ (e + 1)) :
    Int.log 2 x = e := by
  have hx : 0 < x := lt_of_lt_of_le (two_zpow_pos e) h1
  have a : e ≤ Int.log 2 x := by
    rw [← Int.zpow_le_iff_le_log (by norm_num) hx]
    simpa using h1
  have b : Int.log 2 x < e + 1 := by
    rw [← Int.lt_zpow_iff_log_lt (by norm_num) hx]
    simpa using h2
  omega

theorem flPos_eq (x : ℚ) (e m : ℤ) (h1 : (2 : ℚ) ^ e ≤ x) (h2 : x < (2 : ℚ) ^ (e + 1))
    (hm : |x / 2 ^ (e - 52) - (m : ℚ)| < 1 / 2) : flPos x = (m : ℚ) * 2 ^ (e - 52) := by
  unfold flPos ulp
  rw [log_eq_of_bounds x e h1 h2, roundEven_eq_of_abs_lt _ m hm]

theorem fl_eq (x : ℚ) (e m : ℤ) (h1 : (2 : ℚ) ^ e ≤ x) (h2 : x < (2 : ℚ) ^ (e + 1))
    (hm : |x / 2 ^ (e - 52) - (m : ℚ)| < 1 / 2) : fl x = (m : ℚ) * 2 ^ (e - 52) := by
  have hx : 0 < x := lt_of_lt_of_le (two_zpow_pos e) h1
  unfold fl
  rw [if_pos hx.le]
  exact flPos_eq x e m h1 h2 hm

theorem flPos_zero : flPos 0 = 0 := by
  unfold flPos
  simp [roundEven]

theorem fl_zero : fl 0 = 0 := by
  unfold fl
  simp [flPos_zero]

theorem fl_neg (x : ℚ) : fl (-x) = -fl x := by
  unfold fl
  rcases lt_trichotomy x 0 with h | h | h
  · rw [if_pos (by linarith), if_neg (by linarith)]
    simp
  · subst h
    simp [flPos_zero]
  · rw [if_neg (by linarith), if_pos (by linarith)]
    simp

theorem div_ulp_bounds (x : ℚ) (hx : 0 < x) :
    (2 : ℚ) ^ (52 : ℕ) ≤ x / ulp x ∧ x / ulp x < (2 : ℚ) ^ (53 : ℕ) := by
  have h1 := zpow_log_le x hx
  have h2 := lt_zpow_log_succ x
  have hu := ulp_pos x
  have e1 : (2 : ℚ) ^ Int.log 2 x = 2 ^ (52 : ℕ) * ulp x := by
    unfold ulp
    rw [← zpow_natCast, ← zpow_add₀ (by norm_num)]
    congr 1; push_cast; ring
  have e2 : (2 : ℚ) ^ (Int.log 2 x + 1) = 2 ^ (53 : ℕ) * ulp x := by
    unfold ulp
    rw [← zpow_natCast, ← zpow_add₀ (by norm_num)]
    congr 1; push_cast; ring
  rw [e1] at h1
  rw [e2] at h2
  constructor
  · rw [le_div_iff₀ hu]; exact h1
  · rw [div_lt_iff₀ hu]; exact h2

theorem flPos_abs_sub_le (x : ℚ) (hx : 0 < x) : |flPos x - x| ≤ x / 2 ^ (53 : ℕ) := by
  have hu := ulp_pos x
  have hb := (div_ulp_bounds x hx).1
  have hr := roundEven_abs_sub_le (x / ulp x)
  have e : flPos x - x = ((roundEven (x / ulp x) : ℚ) - x / ulp x) * ulp x := by
    unfold flPos
    field_simp
  rw [e, abs_mul, abs_of_pos hu]
  have h3 : ulp x * 2 ^ (52 : ℕ) ≤ x := by
    rw [le_div_iff₀ hu] at hb
    linarith
  rw [le_div_iff₀ (by norm_num)]
  calc |(roundEven (x / ulp x) : ℚ) - x / ulp x| * ulp x * 2 ^ (53 : ℕ)
      ≤ 1 / 2 * ulp x * 2 ^ (53 : ℕ) := by
        apply mul_le_mul_of_nonneg_right _ (by norm_num)
        exact mul_le_mul_of_nonneg_right hr hu.le
    _ = ulp x * 2 ^ (52 : ℕ) := by norm_num; ring
    _ ≤ x := h3

theorem fl_abs_sub_le (x : ℚ) : |fl x - x| ≤ |x| / 2 ^ (53 : ℕ) := by
  rcases lt_trichotomy x 0 with h | h | h
  · have h' := flPos_abs_sub_le (-x) (by linarith)
    unfold fl
    rw [if_neg (by linarith), abs_of_neg h]
    have e : -flPos (-x) - x = -(flPos (-x) - -x) := by ring
    rw [e, abs_neg]
    exact h'
  · subst h
    simp [fl_zero]
  · unfold fl
    rw [if_pos h.le, abs_of_pos h]
    exact flPos_abs_sub_le x h

theorem flPos_pos (x : ℚ) (hx : 0 < x) : 0 < flPos x := by
  have hb := (div_ulp_bounds x hx).1
  have hr := roundEven_abs_sub_le (x / ulp x)
  rw [abs_le] at hr
  unfold flPos
  apply mul_pos _ (ulp_pos x)
  have : (2 : ℚ) ^ (52 : ℕ) ≥ 1 := by norm_num
  linarith [hr.1]

theorem fl_pos (x : ℚ) (hx : 0 < x) : 0 < fl x := by
  unfold fl
  rw [if_pos hx.le]
  exact flPos_pos x hx

theorem flPos_zpow_mul (k : ℤ) (x : ℚ) (hx : 0 < x) : flPos (2 ^ k * x) = 2 ^ k * flPos x := by
  have hk := two_zpow_pos k
  have hl : Int.log 2 (2 ^ k * x) = k + Int.log 2 x := by
    apply log_eq_of_bounds
    · rw [zpow_add₀ (by norm_num)]
      exact mul_le_mul_of_nonneg_left (zpow_log_le x hx) hk.le
    · rw [add_assoc, zpow_add₀ (by norm_num)]
      exact mul_lt_mul_of_pos_left (lt_zpow_log_succ x) hk
  have hu : ulp (2 ^ k * x) = 2 ^ k * ulp x := by
    unfold ulp
    rw [hl, ← zpow_add₀ (by norm_num)]
    congr 1; ring
  unfold flPos
  rw [hu, mul_div_mul_left _ _ hk.ne']
  ring

theorem fl_zpow_mul (k : ℤ) (x : ℚ) : fl (2 ^ k * x) = 2 ^ k * fl x := by
  have hk := two_zpow_pos k
  rcases lt_trichotomy x 0 with h | h | h
  · have hn : 2 ^ k * x < 0 := mul_neg_of_pos_of_neg hk h
    unfold fl
    rw [if_neg (by linarith), if_neg (by linarith)]
    have e : -(2 ^ k * x) = 2 ^ k * (-x) := by ring
    rw [e, flPos_zpow_mul k (-x) (by linarith)]
    ring
  · subst h
    simp [fl_zero]
  · have hp : 0 < 2 ^ k * x := mul_pos hk h
    unfold fl
    rw [if_pos hp.le, if_pos h.le]
    exact flPos_zpow_mul k x h

theorem fl_div_two (x : ℚ) : fl (x / 2) = fl x / 2 := by
  have h := fl_zpow_mul (-1) x
  have e : ((2 : ℚ) ^ (-1 : ℤ)) = 1 / 2 := by norm_num
  rw [e] at h
  have e2 : x / 2 = 1 / 2 * x := by ring
  rw [e2, h]; ring

theorem fl_mul_two (x : ℚ) : fl (x * 2) = fl x * 2 := by
  have h := fl_zpow_mul 1 x
  have e : ((2 : ℚ) ^ (1 : ℤ)) = 2 := by norm_num
  rw [e] at h
  rw [mul_comm, h]; ring

theorem flPos_int_mul_zpow (N k : ℤ) (hN : 0 < N) (hN2 : N < 2 ^ (53 : ℕ)) :
    flPos ((N : ℚ) * 2 ^ k) = (N : ℚ) * 2 ^ k := by
  have hk := two_zpow_pos k
  have hNq : (0 : ℚ) < (N : ℚ) := by exact_mod_cast hN
  have hN2q : (N : ℚ) < 2 ^ (53 : ℕ) := by exact_mod_cast hN2
  have hy : (0 : ℚ) < (N : ℚ) * 2 ^ k := mul_pos hNq hk
  have h1 := zpow_log_le _ hy
  have hlt : (2 : ℚ) ^ Int.log 2 ((N : ℚ) * 2 ^ k) < 2 ^ (53 + k) := by
    have e53 : (2 : ℚ) ^ (53 : ℤ) = 2 ^ (53 : ℕ) := by norm_num
    rw [zpow_add₀ (by norm_num), e53]
    calc (2 : ℚ) ^ Int.log 2 ((N : ℚ) * 2 ^ k) ≤ (N : ℚ) * 2 ^ k := h1
      _ < 2 ^ (53 : ℕ) * 2 ^ k := mul_lt_mul_of_pos_right hN2q hk
  have hlog : Int.log 2 ((N : ℚ) * 2 ^ k) < 53 + k := by
    rwa [zpow_lt_zpow_iff_right₀ (by norm_num)] at hlt
  obtain ⟨d, hd⟩ : ∃ d : ℕ, (d : ℤ) = k - (Int.log 2 ((N : ℚ) * 2 ^ k) - 52) :=
    ⟨(k - (Int.log 2 ((N : ℚ) * 2 ^ k) - 52)).toNat, by omega⟩
  have hq : (N : ℚ) * 2 ^ k / ulp ((N : ℚ) * 2 ^ k) = ((N * 2 ^ d : ℤ) : ℚ) := by
    unfold ulp
    rw [mul_div_assoc, ← zpow_sub₀ (by norm_num), ← hd]
    push_cast
    rw [zpow_natCast]
  unfold flPos
  rw [hq, roundEven_intCast]
  unfold ulp
  push_cast
  rw [mul_assoc, ← zpow_natCast, ← zpow_add₀ (by norm_num), hd]
  congr 2; ring

theorem flPos_zpow (j : ℤ) : flPos ((2 : ℚ) ^ j) = 2 ^ j := by
  have h := flPos_int_mul_zpow 1 j (by norm_num) (by norm_num)
  simpa using h

theorem flPos_flPos (x : ℚ) (hx : 0 < x) : flPos (flPos x) = flPos x := by
  obtain ⟨hb1, hb2⟩ := div_ulp_bounds x hx
  have hr := roundEven_abs_sub_le (x / ulp x)
  rw [abs_le] at hr
  have hM1 : (0 : ℤ) < roundEven (x / ulp x) := by
    have : (0 : ℚ) < (roundEven (x / ulp x) : ℚ) := by
      have : (2 : ℚ) ^ (52 : ℕ) ≥ 1 := by norm_num
      linarith [hr.1]
    exact_mod_cast this
  have hM2 : roundEven (x / ulp x) < 2 ^ (53 : ℕ) + 1 := by
    have : (roundEven (x / ulp x) : ℚ) < 2 ^ (53 : ℕ) + 1 := by linarith [hr.2]
    exact_mod_cast this
  rcases (by omega : roundEven (x / ulp x) < 2 ^ (53 : ℕ) ∨ roundEven (x / ulp x) = 2 ^ (53 : ℕ))
    with h | h
  · have e : flPos x = (roundEven (x / ulp x) : ℚ) * 2 ^ (Int.log 2 x - 52) := rfl
    rw [e]
    exact flPos_int_mul_zpow _ _ hM1 h
  · have e : flPos x = (2 : ℚ) ^ (53 + (Int.log 2 x - 52)) := by
      unfold flPos
      rw [h]
      unfold ulp
      push_cast
      rw [zpow_add₀ (by norm_num)]
      norm_num
    rw [e]
    exact flPos_zpow _

theorem fl_fl (x : ℚ) : fl (fl x) = fl x := by
  rcases lt_trichotomy x 0 with h | h | h
  · have hp := flPos_pos (-x) (by linarith)
    have e : fl x = -flPos (-x) := by
      unfold fl
      rw [if_neg (by linarith)]
    rw [e, fl_neg]
    congr 1
    unfold fl
    rw [if_pos hp.le]
    exact flPos_flPos (-x) (by linarith)
  · subst h
    simp [fl_zero]
  · have hp := flPos_pos x h
    have e : fl x = flPos x := by
      unfold fl
      rw [if_pos h.le]
    rw [e]
    unfold fl
    rw [if_pos hp.le]
    exact flPos_flPos x h

theorem fl_nonneg (x : ℚ) (hx : 0 ≤ x) : 0 ≤ fl x := by
  rcases eq_or_lt_of_le hx with h | h
  · rw [← h, fl_zero]
  · exact (fl_pos x h).le

theorem fl_nonpos (x : ℚ) (hx : x ≤ 0) : fl x ≤ 0 := by
  have h := fl_nonneg (-x) (by linarith)
  rw [fl_neg] at h
  linarith

theorem fl_le_of_pos (x : ℚ) (hx : 0 < x) : fl x ≤ x * (1 + 1 / 2 ^ (53 : ℕ)) := by
  have h := fl_abs_sub_le x
  rw [abs_of_pos hx, abs_le] at h
  have e : x * (1 + 1 / 2 ^ (53 : ℕ)) = x + x / 2 ^ (53 : ℕ) := by ring
  rw [e]
  linarith [h.2]

theorem le_fl_of_pos (x : ℚ) (hx : 0 < x) : x * (1 - 1 / 2 ^ (53 : ℕ)) ≤ fl x := by
  have h := fl_abs_sub_le x
  rw [abs_of_pos hx, abs_le] at h
  have e : x * (1 - 1 / 2 ^ (53 : ℕ)) = x - x / 2 ^ (53 : ℕ) := by ring
  rw [e]
  linarith [h.1]

theorem fl_le_of_nonneg (x : ℚ) (hx : 0 ≤ x) : fl x ≤ x * (1 + 1 / 2 ^ (53 : ℕ)) := by
  rcases eq_or_lt_of_le hx with h | h
  · rw [← h, fl_zero]; norm_num
  · exact fl_le_of_pos x h

theorem fl_fl_div_two (x : ℚ) : fl (fl x / 2) = fl x / 2 := by
  rw [fl_div_two, fl_fl]

theorem fl_one : fl 1 = 1 := by
  have h := fl_eq 1 0 (2 ^ (52 : ℕ)) (by norm_num) (by norm_num) (by norm_num)
  rw [h]
  norm_num

theorem fl_five : fl 5 = 5 := by
  have h := fl_eq 5 2 (5 * 2 ^ (50 : ℕ)) (by norm_num) (by norm_num) (by norm_num)
  rw [h]
  norm_num

theorem dmul_two (a : ℚ) (ha : fl a = a) : dmul a 2 = a * 2 := by
  unfold dmul
  rw [fl_mul_two, ha]

theorem ddiv_two (a : ℚ) (ha : fl a = a) : ddiv a 2 = a / 2 := by
  unfold ddiv
  rw [fl_div_two, ha]

theorem ddiv_ddiv_two (w p : ℚ) : ddiv (ddiv w p) 2 = fl (w / p) / 2 := by
  unfold ddiv
  exact fl_fl_div_two _

theorem fl_ddiv (a b : ℚ) : fl (ddiv a b) = ddiv a b := fl_fl _

/-! ## Geometry of the building mass -/

theorem scale_point_eq (a b c : ℚ) (p : Vec3) (ha : fl a = a) (hb : fl b = b) (hc : fl c = c) :
    scale_point a b c p = (a * p.1, b * p.2.1, c * p.2.2) := by
  simp only [scale_point, scale_size, Aff3.transform, dmul_two a ha, dmul_two b hb,
    dmul_two c hc]
  refine Prod.ext ?_ (Prod.ext ?_ ?_) <;> simp only <;> ring

theorem map_scale_box_corners (a b c x0 x1 y0 y1 z0 z1 : ℚ) (ha : fl a = a) (hb : fl b = b)
    (hc : fl c = c) :
    (box_corners x0 x1 y0 y1 z0 z1).map (scale_point a b c)
      = box_corners (a * x0) (a * x1) (b * y0) (b * y1) (c * z0) (c * z1) := by
  simp only [box_corners, List.map_cons, List.map_nil, scale_point_eq _ _ _ _ ha hb hc]

theorem map_translate_box_corners (a b c x0 x1 y0 y1 z0 z1 : ℚ) :
    (box_corners x0 x1 y0 y1 z0 z1).map (translate_point a b c)
      = box_corners (x0 + a) (x1 + a) (y0 + b) (y1 + b) (z0 + c) (z1 + c) := by
  simp only [box_corners, List.map_cons, List.map_nil, translate_point]

theorem box_corners_congr {x0 x1 y0 y1 z0 z1 x0' x1' y0' y1' z0' z1' : ℚ} (h1 : x0 = x0')
    (h2 : x1 = x1') (h3 : y0 = y0') (h4 : y1 = y1') (h5 : z0 = z0') (h6 : z1 = z1') :
    box_corners x0 x1 y0 y1 z0 z1 = box_corners x0' x1' y0' y1' z0' z1' := by
  rw [h1, h2, h3, h4, h5, h6]

theorem polys_translate (cos sin : ℚ → ℚ) (x y z : ℚ) (s : Solid) :
    (Solid.translate x y z s).polys cos sin
      = (s.polys cos sin).map (List.map (translate_point x y z)) := rfl

theorem polys_scale (cos sin : ℚ → ℚ) (x y z : ℚ) (s : Solid) :
    (Solid.scale x y z s).polys cos sin
      = (s.polys cos sin).map (List.map (scale_point x y z)) := rfl

theorem polys_union (cos sin : ℚ → ℚ) (a b : Solid) :
    (Solid.union a b).polys cos sin = a.polys cos sin ++ b.polys cos sin := rfl

theorem polys_poly (cos sin : ℚ → ℚ) (points : List Vec3) :
    (Solid.poly points).polys cos sin = [points] := rfl

theorem main_globals_eq :
    main_globals = ⟨5, Solid.poly (box_corners (-5) 5 (-5) 5 (-5) 5)⟩ := by
  have h : ddiv 10 2 = 5 := by
    unfold ddiv
    have e : (10 : ℚ) / 2 = 5 := by norm_num
    rw [e, fl_five]
  simp only [main_globals, gen_poly, initial_globals, box_corners, h]

theorem cube_main_eq (width : ℚ) :
    cube main_globals width
      = Solid.scale (fl (width / 5) / 2) (fl (width / 5) / 2) (fl (width / 5) / 2)
          (Solid.poly (box_corners (-5) 5 (-5) 5 (-5) 5)) := by
  rw [main_globals_eq]
  simp only [cube, ddiv_ddiv_two]

theorem square_main_eq (width length : ℚ) :
    square main_globals width length
      = Solid.scale (fl (width / 5) / 2) (fl (length / 5) / 2) (fl (1 / 5) / 2)
          (Solid.poly (box_corners (-5) 5 (-5) 5 (-5) 5)) := by
  rw [main_globals_eq]
  simp only [square, ddiv_ddiv_two]

theorem cube_main_polys (cos sin : ℚ → ℚ) (width : ℚ) :
    (cube main_globals width).polys cos sin
      = [box_corners (-(5 * fl (width / 5) / 2)) (5 * fl (width / 5) / 2)
          (-(5 * fl (width / 5) / 2)) (5 * fl (width / 5) / 2)
          (-(5 * fl (width / 5) / 2)) (5 * fl (width / 5) / 2)] := by
  rw [cube_main_eq, polys_scale, polys_poly]
  simp only [List.map_cons, List.map_nil,
    map_scale_box_corners _ _ _ _ _ _ _ _ _ (fl_fl_div_two _) (fl_fl_div_two _) (fl_fl_div_two _)]
  congr 1
  apply box_corners_congr <;> ring

theorem square_main_polys (cos sin : ℚ → ℚ) (width length : ℚ) :
    (square main_globals width length).polys cos sin
      = [box_corners (-(5 * fl (width / 5) / 2)) (5 * fl (width / 5) / 2)
          (-(5 * fl (length / 5) / 2)) (5 * fl (length / 5) / 2)
          (-(5 * fl (1 / 5) / 2)) (5 * fl (1 / 5) / 2)] := by
  rw [square_main_eq, polys_scale, polys_poly]
  simp only [List.map_cons, List.map_nil,
    map_scale_box_corners _ _ _ _ _ _ _ _ _ (fl_fl_div_two _) (fl_fl_div_two _) (fl_fl_div_two _)]
  congr 1
  apply box_corners_congr <;> ring

theorem fl_one_fifth : fl (1 / 5) = 7205759403792794 / 2 ^ (55 : ℕ) := by
  have h := fl_eq (1 / 5) (-3) 7205759403792794 (by norm_num) (by norm_num)
    (by rw [abs_lt]; constructor <;> norm_num)
  rw [h]
  norm_num

theorem five_fl_sub_le (w : ℚ) (hw : 0 < w) : |5 * fl (w / 5) - w| ≤ w / 2 ^ (53 : ℕ) := by
  have h := fl_abs_sub_le (w / 5)
  rw [abs_of_pos (by positivity : 0 < w / 5)] at h
  have e : 5 * fl (w / 5) - w = 5 * (fl (w / 5) - w / 5) := by ring
  rw [e, abs_mul, abs_of_pos (by norm_num : (0 : ℚ) < 5)]
  have e2 : w / 2 ^ (53 : ℕ) = 5 * (w / 5 / 2 ^ (53 : ℕ)) := by ring
  rw [e2]
  exact mul_le_mul_of_nonneg_left h (by norm_num)

theorem fl_natCast (n : ℕ) (hn : n < 2 ^ (53 : ℕ)) : fl (n : ℚ) = n := by
  rcases Nat.eq_zero_or_pos n with h | h
  · subst h
    simp [fl_zero]
  · have h1 := flPos_int_mul_zpow (n : ℤ) 0 (by exact_mod_cast h) (by exact_mod_cast hn)
    simp only [zpow_zero, mul_one, Int.cast_natCast] at h1
    unfold fl
    rw [if_pos (by positivity), h1]

theorem dimension_natCast (n : ℕ) (h0 : 1 ≤ n) (hn : n < 2 ^ (53 : ℕ)) : dimension (n : ℚ) := by
  have h1 : (1 : ℚ) ≤ (n : ℚ) := by exact_mod_cast h0
  have h2 : (n : ℚ) < 2 ^ (53 : ℕ) := by exact_mod_cast hn
  refine ⟨fl_natCast n hn, ?_, ?_⟩
  · have : (1 : ℚ) / 2 ^ 500 ≤ 1 := by norm_num
    linarith
  · have : (2 : ℚ) ^ (53 : ℕ) ≤ 2 ^ 500 := by norm_num
    linarith

theorem dimension_pos (x : ℚ) (h : dimension x) : 0 < x :=
  lt_of_lt_of_le (by positivity) h.2.1

theorem sample_rectangle_tiles_positive :
    facade_grammar_tiles_positive (fun _ => 1) sampleParams 4 1 sampleBuilding := by
  unfold facade_grammar_tiles_positive
  decide!

theorem dimension_200 : dimension 200 := by
  simpa using dimension_natCast 200 (by norm_num) (by norm_num)

theorem dimension_500 : dimension 500 := by
  simpa using dimension_natCast 500 (by norm_num) (by norm_num)

theorem abs_mul_sub_le (a a0 b b0 ua ub : ℚ) (ha0 : 0 ≤ a0) (hb0 : 0 ≤ b0)
    (ha : |a - a0| ≤ a0 * ua) (hb : |b - b0| ≤ b0 * ub) :
    |a * b - a0 * b0| ≤ a0 * b0 * (ua + ub + ua * ub) := by
  have e : a * b - a0 * b0 = (a - a0) * (b - b0) + a0 * (b - b0) + (a - a0) * b0 := by ring
  have hua : 0 ≤ a0 * ua := le_trans (abs_nonneg _) ha
  have h1 : |(a - a0) * (b - b0)| ≤ a0 * ua * (b0 * ub) := by
    rw [abs_mul]
    exact mul_le_mul ha hb (abs_nonneg _) hua
  have h2 : |a0 * (b - b0)| ≤ a0 * (b0 * ub) := by
    rw [abs_mul, abs_of_nonneg ha0]
    exact mul_le_mul_of_nonneg_left hb ha0
  have h3 : |(a - a0) * b0| ≤ a0 * ua * b0 := by
    rw [abs_mul, abs_of_nonneg hb0]
    exact mul_le_mul_of_nonneg_right ha hb0
  rw [e]
  calc |(a - a0) * (b - b0) + a0 * (b - b0) + (a - a0) * b0|
      ≤ |(a - a0) * (b - b0) + a0 * (b - b0)| + |(a - a0) * b0| := abs_add _ _
    _ ≤ |(a - a0) * (b - b0)| + |a0 * (b - b0)| + |(a - a0) * b0| := by
        linarith [abs_add ((a - a0) * (b - b0)) (a0 * (b - b0))]
    _ ≤ a0 * ua * (b0 * ub) + a0 * (b0 * ub) + a0 * ua * b0 := by linarith
    _ = a0 * b0 * (ua + ub + ua * ub) := by ring

theorem half_edge_sub_le (w : ℚ) (hw : 0 < w) :
    |5 * fl (w / 5) / 2 - w / 2| ≤ w / 2 * (1 / 2 ^ (53 : ℕ)) := by
  have h := five_fl_sub_le w hw
  have e : 5 * fl (w / 5) / 2 - w / 2 = (5 * fl (w / 5) - w) / 2 := by ring
  rw [e, abs_div, abs_of_pos (by norm_num : (0 : ℚ) < 2)]
  have e2 : w / 2 * (1 / 2 ^ (53 : ℕ)) = w / 2 ^ (53 : ℕ) / 2 := by ring
  rw [e2]
  exact div_le_div_of_nonneg_right h (by norm_num)

theorem fl_sub_le_mul (x : ℚ) (hx : 0 < x) : |fl x - x| ≤ x * (1 / 2 ^ (53 : ℕ)) := by
  have h := fl_abs_sub_le x
  rw [abs_of_pos hx] at h
  have e : x * (1 / 2 ^ (53 : ℕ)) = x / 2 ^ (53 : ℕ) := by ring
  rw [e]
  exact h

theorem half_height_sub_le (w h : ℚ) (hw : 0 < w) (hh : 0 < h) :
    |5 * fl (w / 5) / 2 * fl (h / w) - h / 2| ≤ 3 * (h / 2) / 2 ^ (53 : ℕ) := by
  have h1 := abs_mul_sub_le (5 * fl (w / 5) / 2) (w / 2) (fl (h / w)) (h / w) (1 / 2 ^ (53 : ℕ))
    (1 / 2 ^ (53 : ℕ)) (by positivity) (by positivity) (half_edge_sub_le w hw)
    (fl_sub_le_mul (h / w) (by positivity))
  have e : w / 2 * (h / w) = h / 2 := by
    field_simp
    ring
  rw [e] at h1
  refine le_trans h1 ?_
  have hh2 : 0 < h / 2 := by positivity
  have e3 : (3 : ℚ) * (h / 2) / 2 ^ (53 : ℕ) = h / 2 * (3 / 2 ^ (53 : ℕ)) := by ring
  rw [e3]
  apply mul_le_mul_of_nonneg_left _ hh2.le
  norm_num

theorem half_height_exact (w h : ℚ) (hw : 0 < w) (h1 : fl (w / 5) = w / 5)
    (h2 : fl (h / w) = h / w) : 5 * fl (w / 5) / 2 * fl (h / w) = h / 2 := by
  rw [h1, h2]
  field_simp
  ring

theorem gen_rectangle_nef_building_polys (cos sin : ℚ → ℚ) (building_parameters : DArray) :
    (gen_rectangle_nef_building main_globals building_parameters).polys cos sin
      = [box_corners (-(5 * fl (building_parameters 0 / 5) / 2))
          (5 * fl (building_parameters 0 / 5) / 2)
          (-(5 * fl (building_parameters 0 / 5) / 2
            * fl (building_parameters 1 / building_parameters 0)))
          (5 * fl (building_parameters 0 / 5) / 2
            * fl (building_parameters 1 / building_parameters 0))
          (-(5 * fl (building_parameters 0 / 5) / 2
            * fl (building_parameters 4 / building_parameters 0)))
          (5 * fl (building_parameters 0 / 5) / 2
            * fl (building_parameters 4 / building_parameters 0))] := by
  simp only [gen_rectangle_nef_building, polys_scale, cube_main_polys, List.map_cons, List.map_nil,
    map_scale_box_corners _ _ _ _ _ _ _ _ _ fl_one (fl_ddiv _ _) (fl_ddiv _ _)]
  congr 1
  apply box_corners_congr <;> (try simp only [ddiv]) <;> ring

theorem gen_L_nef_cube1_polys (cos sin : ℚ → ℚ) (building_parameters : DArray) :
    (gen_L_nef_cube1 main_globals building_parameters).polys cos sin
      = [box_corners
          (-(5 * fl (building_parameters 0 / 5) / 2
            * fl (fl (building_parameters 1 + building_parameters 3) / building_parameters 0)))
          (5 * fl (building_parameters 0 / 5) / 2
            * fl (fl (building_parameters 1 + building_parameters 3) / building_parameters 0))
          (-(5 * fl (building_parameters 0 / 5) / 2)) (5 * fl (building_parameters 0 / 5) / 2)
          (-(5 * fl (building_parameters 0 / 5) / 2
            * fl (building_parameters 4 / building_parameters 0)))
          (5 * fl (building_parameters 0 / 5) / 2
            * fl (building_parameters 4 / building_parameters 0))] := by
  simp only [gen_L_nef_cube1, polys_scale, cube_main_polys, List.map_cons, List.map_nil,
    map_scale_box_corners _ _ _ _ _ _ _ _ _ (fl_ddiv _ _) fl_one (fl_ddiv _ _)]
  congr 1
  apply box_corners_congr <;> (try simp only [ddiv, dadd]) <;> ring

theorem gen_L_nef_cube2_polys (cos sin : ℚ → ℚ) (building_parameters : DArray) :
    (gen_L_nef_cube2 main_globals building_parameters).polys cos sin
      = [box_corners
          (-(5 * fl (building_parameters 2 / 5) / 2
            * fl (building_parameters 3 / building_parameters 2)))
          (5 * fl (building_parameters 2 / 5) / 2
            * fl (building_parameters 3 / building_parameters 2))
          (-(5 * fl (building_parameters 2 / 5) / 2)) (5 * fl (building_parameters 2 / 5) / 2)
          (-(5 * fl (building_parameters 2 / 5) / 2
            * fl (building_parameters 4 / building_parameters 2)))
          (5 * fl (building_parameters 2 / 5) / 2
            * fl (building_parameters 4 / building_parameters 2))] := by
  simp only [gen_L_nef_cube2, polys_scale, cube_main_polys, List.map_cons, List.map_nil,
    map_scale_box_corners _ _ _ _ _ _ _ _ _ (fl_ddiv _ _) fl_one (fl_ddiv _ _)]
  congr 1
  apply box_corners_congr <;> (try simp only [ddiv]) <;> ring

theorem exists_rest_cons_cons {α : Type} (a a' b b' : α) (t : List α) (ha : a = a')
    (hb : b = b') : ∃ rest : List α, a :: b :: t = a' :: b' :: rest := ⟨t, by rw [ha, hb]⟩

theorem gen_L_building_L_polys (cos sin : ℚ → ℚ) (building_parameters overhang_parameters : DArray) :
    ∃ rest : List (List Vec3),
      (gen_L_building_L main_globals building_parameters overhang_parameters).polys cos sin
        = box_corners
            (fl (building_parameters 1 / 2) - 5 * fl (building_parameters 0 / 5) / 2
              * fl (fl (building_parameters 1 + building_parameters 3) / building_parameters 0))
            (fl (building_parameters 1 / 2) + 5 * fl (building_parameters 0 / 5) / 2
              * fl (fl (building_parameters 1 + building_parameters 3) / building_parameters 0))
            (-(5 * fl (building_parameters 0 / 5) / 2)) (5 * fl (building_parameters 0 / 5) / 2)
            (-(5 * fl (building_parameters 0 / 5) / 2
              * fl (building_parameters 4 / building_parameters 0)))
            (5 * fl (building_parameters 0 / 5) / 2
              * fl (building_parameters 4 / building_parameters 0))
          :: box_corners
            (-(5 * fl (building_parameters 2 / 5) / 2
              * fl (building_parameters 3 / building_parameters 2)))
            (5 * fl (building_parameters 2 / 5) / 2
              * fl (building_parameters 3 / building_parameters 2))
            (fl (building_parameters 0 + building_parameters 2) / 2
              - 5 * fl (building_parameters 2 / 5) / 2)
            (fl (building_parameters 0 + building_parameters 2) / 2
              + 5 * fl (building_parameters 2 / 5) / 2)
            (-(5 * fl (building_parameters 2 / 5) / 2
              * fl (building_parameters 4 / building_parameters 2)))
            (5 * fl (building_parameters 2 / 5) / 2
              * fl (building_parameters 4 / building_parameters 2))
          :: rest := by
  have hneg : ddiv (-building_parameters 1) 2 = -fl (building_parameters 1 / 2) := by
    unfold ddiv
    rw [neg_div, fl_neg]
  have hmid : ddiv (dadd (building_parameters 0) (building_parameters 2)) 2
      = fl (building_parameters 0 + building_parameters 2) / 2 := by
    unfold ddiv dadd
    exact fl_fl_div_two _
  have hhalf : ddiv (building_parameters 1) 2 = fl (building_parameters 1 / 2) := rfl
  simp only [gen_L_building_L, polys_translate, polys_union, gen_L_nef_cube1_polys,
    gen_L_nef_cube2_polys, List.map_cons, List.map_nil, List.map_append, List.cons_append,
    List.nil_append, map_translate_box_corners, hneg, hmid, hhalf]
  apply exists_rest_cons_cons
  · apply box_corners_congr <;> ring
  · apply box_corners_congr <;> ring

theorem polys_union_head (cos sin : ℚ → ℚ) (a b : Solid) (hd : List Vec3)
    (h : ∃ rest : List (List Vec3), a.polys cos sin = hd :: rest) :
    ∃ rest : List (List Vec3), (Solid.union a b).polys cos sin = hd :: rest := by
  obtain ⟨rest, hrest⟩ := h
  exact ⟨rest ++ b.polys cos sin, by rw [polys_union, hrest, List.cons_append]⟩

theorem polys_union_head_head (cos sin : ℚ → ℚ) (a b : Solid) (hd hd' : List Vec3)
    (h : ∃ rest : List (List Vec3), a.polys cos sin = hd :: hd' :: rest) :
    ∃ rest : List (List Vec3), (Solid.union a b).polys cos sin = hd :: hd' :: rest := by
  obtain ⟨rest, hrest⟩ := h
  exact ⟨rest ++ b.polys cos sin, by rw [polys_union, hrest, List.cons_append, List.cons_append]⟩

theorem polys_translate_head (cos sin : ℚ → ℚ) (x y z : ℚ) (s : Solid) (hd : List Vec3)
    (h : ∃ rest : List (List Vec3), s.polys cos sin = hd :: rest) :
    ∃ rest : List (List Vec3),
      (Solid.translate x y z s).polys cos sin = hd.map (translate_point x y z) :: rest := by
  obtain ⟨rest, hrest⟩ := h
  exact ⟨rest.map (List.map (translate_point x y z)), by rw [polys_translate, hrest, List.map_cons]⟩

theorem polys_translate_head_head (cos sin : ℚ → ℚ) (x y z : ℚ) (s : Solid) (hd hd' : List Vec3)
    (h : ∃ rest : List (List Vec3), s.polys cos sin = hd :: hd' :: rest) :
    ∃ rest : List (List Vec3),
      (Solid.translate x y z s).polys cos sin
        = hd.map (translate_point x y z) :: hd'.map (translate_point x y z) :: rest := by
  obtain ⟨rest, hrest⟩ := h
  exact ⟨rest.map (List.map (translate_point x y z)),
    by rw [polys_translate, hrest, List.map_cons, List.map_cons]⟩

theorem gen_rectangle_polys (cos sin : ℚ → ℚ) (building_parameters overhang_parameters : DArray) :
    ∃ rest : List (List Vec3),
      (gen_rectangle main_globals building_parameters overhang_parameters).polys cos sin
        = box_corners (-(5 * fl (building_parameters 0 / 5) / 2))
            (5 * fl (building_parameters 0 / 5) / 2)
            (-(5 * fl (building_parameters 0 / 5) / 2
              * fl (building_parameters 1 / building_parameters 0)))
            (5 * fl (building_parameters 0 / 5) / 2
              * fl (building_parameters 1 / building_parameters 0))
            (-(5 * fl (building_parameters 0 / 5) / 2
              * fl (building_parameters 4 / building_parameters 0)))
            (5 * fl (building_parameters 0 / 5) / 2
              * fl (building_parameters 4 / building_parameters 0)) :: rest := by
  simp only [gen_rectangle]
  apply polys_union_head
  apply polys_union_head
  exact ⟨[], gen_rectangle_nef_building_polys cos sin building_parameters⟩

theorem gen_L_polys (cos sin : ℚ → ℚ) (building_parameters overhang_parameters : DArray) :
    ∃ rest : List (List Vec3),
      (gen_L main_globals building_parameters overhang_parameters).polys cos sin
        = box_corners
            (fl (building_parameters 1 / 2) - 5 * fl (building_parameters 0 / 5) / 2
              * fl (fl (building_parameters 1 + building_parameters 3) / building_parameters 0))
            (fl (building_parameters 1 / 2) + 5 * fl (building_parameters 0 / 5) / 2
              * fl (fl (building_parameters 1 + building_parameters 3) / building_parameters 0))
            (-(5 * fl (building_parameters 0 / 5) / 2)) (5 * fl (building_parameters 0 / 5) / 2)
            (-(5 * fl (building_parameters 0 / 5) / 2
              * fl (building_parameters 4 / building_parameters 0)))
            (5 * fl (building_parameters 0 / 5) / 2
              * fl (building_parameters 4 / building_parameters 0))
          :: box_corners
            (-(5 * fl (building_parameters 2 / 5) / 2
              * fl (building_parameters 3 / building_parameters 2)))
            (5 * fl (building_parameters 2 / 5) / 2
              * fl (building_parameters 3 / building_parameters 2))
            (fl (building_parameters 0 + building_parameters 2) / 2
              - 5 * fl (building_parameters 2 / 5) / 2)
            (fl (building_parameters 0 + building_parameters 2) / 2
              + 5 * fl (building_parameters 2 / 5) / 2)
            (-(5 * fl (building_parameters 2 / 5) / 2
              * fl (building_parameters 4 / building_parameters 2)))
            (5 * fl (building_parameters 2 / 5) / 2
              * fl (building_parameters 4 / building_parameters 2))
          :: rest := by
  simp only [gen_L]
  apply polys_union_head_head
  apply polys_union_head_head
  apply polys_union_head_head
  exact gen_L_building_L_polys cos sin building_parameters overhang_parameters

theorem zero_mem_intRange (n : Int) (hn : 1 ≤ n) : (0 : Int) ∈ intRange 0 (n - 1) := by
  unfold intRange
  refine List.mem_map.mpr ⟨0, List.mem_range.mpr ?_, by simp⟩
  omega

theorem polygon_coord_translated_z (cos sin : ℚ → ℚ) (circumradius_addition width height : ℚ)
    (sides : Int) (p : Vec3)
    (hp : p ∈ (polygon_coord cos sin circumradius_addition width height sides).map
      (translate_point 0 0 (height / 2))) : p.2.2 = 0 ∨ p.2.2 = height := by
  obtain ⟨q, hq, rfl⟩ := List.mem_map.mp hp
  simp only [polygon_coord, List.mem_flatMap, List.mem_cons, List.mem_singleton,
    List.not_mem_nil, or_false] at hq
  obtain ⟨i, _, hi | hi⟩ := hq
  · right
    rw [hi]
    simp only [translate_point]
    ring
  · left
    rw [hi]
    simp only [translate_point]
    ring


theorem length_flatMap_pair {α β : Type} (l : List α) (f : α → List β)
    (h : ∀ x, (f x).length = 2) : (l.flatMap f).length = 2 * l.length := by
  induction l with
  | nil => simp
  | cons x xs ih =>
    rw [List.flatMap_cons, List.length_append, h, ih, List.length_cons]
    ring

theorem polygon_coord_length (cos sin : ℚ → ℚ) (circumradius_addition width height : ℚ)
    (sides : Int) :
    (polygon_coord cos sin circumradius_addition width height sides).length
      = 2 * sides.toNat := by
  unfold polygon_coord
  simp only []
  rw [length_flatMap_pair]
  swap
  · intro x
    rfl
  have h : (intRange 0 (sides - 1)).length = sides.toNat := by
    simp only [intRange, List.length_map, List.length_range]
    congr 1
    omega
  rw [h]


theorem grammar_rectangle_eq (cos sin tan : ℚ → ℚ) (g : Globals) (P : ParameterSet) (sides : Int)
    (building_parameters overhang_parameters : DArray) :
    grammar cos sin tan g P sides 1 building_parameters overhang_parameters
      = some (Solid.translate 0 0 (ddiv (building_parameters 4) 2)
          (Solid.union (gen_rectangle g building_parameters overhang_parameters)
            (facade_grammar tan P sides 1 building_parameters))) := by
  simp [grammar]

theorem grammar_L_eq (cos sin tan : ℚ → ℚ) (g : Globals) (P : ParameterSet) (sides : Int)
    (building_parameters overhang_parameters : DArray) :
    grammar cos sin tan g P sides 3 building_parameters overhang_parameters
      = some (Solid.translate 0 0 (ddiv (building_parameters 4) 2)
          (Solid.union (gen_L g building_parameters overhang_parameters)
            (facade_grammar tan P sides 3 building_parameters))) := by
  simp [grammar]

theorem gen_polygon_eq (cos sin : ℚ → ℚ) (building_parameters overhang_parameters : DArray)
    (sides : Int) (hS : 1 ≤ sides) :
    ∃ nef_roof nef_band : Solid,
      gen_polygon cos sin building_parameters overhang_parameters sides
        = some (Solid.union
            (Solid.union
              (Solid.poly (polygon_coord cos sin 0 (building_parameters 0)
                (building_parameters 4) sides))
              nef_roof)
            nef_band) := by
  have hn : ¬ sides ≤ 0 := by omega
  simp only [gen_polygon, polygon, hn, if_false, Option.some_bind]
  exact ⟨_, _, rfl⟩

theorem gen_polygon_zero (cos sin : ℚ → ℚ) (building_parameters overhang_parameters : DArray) :
    gen_polygon cos sin building_parameters overhang_parameters 0 = none := by
  simp [gen_polygon, polygon]

theorem grammar_polygon_eq (cos sin tan : ℚ → ℚ) (g : Globals) (P : ParameterSet) (sides : Int)
    (building_parameters overhang_parameters : DArray) (mass : Solid)
    (hm : gen_polygon cos sin building_parameters overhang_parameters sides = some mass) :
    grammar cos sin tan g P sides 2 building_parameters overhang_parameters
      = some (Solid.translate 0 0 (ddiv (building_parameters 4) 2)
          (Solid.union mass (facade_grammar tan P sides 2 building_parameters))) := by
  simp [grammar, hm]

theorem lobe_length_sub_le (w l1 l2 : ℚ) (hw : 0 < w) (hl1 : 0 < l1) (hl2 : 0 < l2) :
    |5 * fl (w / 5) / 2 * fl (fl (l1 + l2) / w) - (l1 + l2) / 2|
      ≤ 5 * ((l1 + l2) / 2) / 2 ^ (53 : ℕ) := by
  have hL : 0 < l1 + l2 := by linarith
  have hs : 0 < fl (l1 + l2) := fl_pos _ hL
  have h1 := fl_sub_le_mul (l1 + l2) hL
  have h2 := fl_sub_le_mul (fl (l1 + l2) / w) (by positivity)
  have hsle := fl_le_of_pos (l1 + l2) hL
  have hb : |fl (fl (l1 + l2) / w) - (l1 + l2) / w|
      ≤ (l1 + l2) / w * (3 / 2 ^ (53 : ℕ)) := by
    have e : fl (fl (l1 + l2) / w) - (l1 + l2) / w
        = (fl (fl (l1 + l2) / w) - fl (l1 + l2) / w) + (fl (l1 + l2) - (l1 + l2)) / w := by ring
    have h3 : |(fl (l1 + l2) - (l1 + l2)) / w| ≤ (l1 + l2) * (1 / 2 ^ (53 : ℕ)) / w := by
      rw [abs_div, abs_of_pos hw]
      exact div_le_div_of_nonneg_right h1 hw.le
    have h4 : fl (l1 + l2) / w * (1 / 2 ^ (53 : ℕ))
        ≤ (l1 + l2) * (1 + 1 / 2 ^ (53 : ℕ)) / w * (1 / 2 ^ (53 : ℕ)) := by
      apply mul_le_mul_of_nonneg_right _ (by norm_num)
      exact div_le_div_of_nonneg_right hsle hw.le
    rw [e]
    refine le_trans (abs_add _ _) ?_
    have h5 : (l1 + l2) * (1 + 1 / 2 ^ (53 : ℕ)) / w * (1 / 2 ^ (53 : ℕ))
        + (l1 + l2) * (1 / 2 ^ (53 : ℕ)) / w
        = (l1 + l2) / w * ((1 + 1 / 2 ^ (53 : ℕ)) * (1 / 2 ^ (53 : ℕ)) + 1 / 2 ^ (53 : ℕ)) := by
      ring
    have h6 : (l1 + l2) / w * ((1 + 1 / 2 ^ (53 : ℕ)) * (1 / 2 ^ (53 : ℕ)) + 1 / 2 ^ (53 : ℕ))
        ≤ (l1 + l2) / w * (3 / 2 ^ (53 : ℕ)) := by
      apply mul_le_mul_of_nonneg_left _ (by positivity)
      norm_num
    linarith
  have h7 := abs_mul_sub_le (5 * fl (w / 5) / 2) (w / 2) (fl (fl (l1 + l2) / w)) ((l1 + l2) / w)
    (1 / 2 ^ (53 : ℕ)) (3 / 2 ^ (53 : ℕ)) (by positivity) (by positivity)
    (half_edge_sub_le w hw) hb
  have e : w / 2 * ((l1 + l2) / w) = (l1 + l2) / 2 := by
    field_simp
    ring
  rw [e] at h7
  refine le_trans h7 ?_
  have e3 : (5 : ℚ) * ((l1 + l2) / 2) / 2 ^ (53 : ℕ) = (l1 + l2) / 2 * (5 / 2 ^ (53 : ℕ)) := by
    ring
  rw [e3]
  apply mul_le_mul_of_nonneg_left _ (by positivity)
  norm_num

theorem lobe_gap_le (w1 w2 : ℚ) (hw1 : 0 < w1) (hw2 : 0 < w2) :
    |(fl (w1 + w2) / 2 - 5 * fl (w2 / 5) / 2) - 5 * fl (w1 / 5) / 2|
      ≤ (w1 + w2) / 2 ^ (53 : ℕ) := by
  have h1 := half_edge_sub_le w1 hw1
  have h2 := half_edge_sub_le w2 hw2
  have h3 := fl_sub_le_mul (w1 + w2) (by linarith)
  rw [abs_le] at h1 h2 h3 ⊢
  constructor
  · have e : (w1 + w2) / 2 ^ (53 : ℕ)
        = (w1 + w2) * (1 / 2 ^ (53 : ℕ)) / 2 + w1 / 2 * (1 / 2 ^ (53 : ℕ))
          + w2 / 2 * (1 / 2 ^ (53 : ℕ)) := by ring
    rw [e]
    linarith [h1.1, h1.2, h2.1, h2.2, h3.1, h3.2]
  · have e : (w1 + w2) / 2 ^ (53 : ℕ)
        = (w1 + w2) * (1 / 2 ^ (53 : ℕ)) / 2 + w1 / 2 * (1 / 2 ^ (53 : ℕ))
          + w2 / 2 * (1 / 2 ^ (53 : ℕ)) := by ring
    rw [e]
    linarith [h1.1, h1.2, h2.1, h2.2, h3.1, h3.2]

/-- C19, counterexample: in `gen_L` with `w1 = 201` and every other dimension 500,
lobe 1 has `y` in `[-(201/2 + 2^-47), 201/2 + 2^-47]` (the quotient `201/5` is not
a `double`) and lobe 2 has `y` in `[201/2, 1201/2]`: the face of lobe 2 lies
inside lobe 1, and both lobes contain the box `[-249, 249] x [201/2, 201/2 +
2^-47] x [-249, 249]`, an overlap of positive volume. -/
theorem gen_L_lobes_overlap :
    ∃ x0 x1 z0 z1 x2 x3 z2 z3 : ℚ, ∃ rest : List (List Vec3),
      (gen_L main_globals sampleBuildingOdd sampleOverhang).polys sampleCos sampleSin
        = box_corners x0 x1 (-(201 / 2 + 1 / 2 ^ 47)) (201 / 2 + 1 / 2 ^ 47) z0 z1
          :: box_corners x2 x3 (201 / 2) (1201 / 2) z2 z3 :: rest
      ∧ (201 / 2 : ℚ) < 201 / 2 + 1 / 2 ^ 47
      ∧ x0 ≤ -249 ∧ 249 ≤ x1 ∧ z0 ≤ -249 ∧ 249 ≤ z1
      ∧ x2 ≤ -249 ∧ 249 ≤ x3 ∧ z2 ≤ -249 ∧ 249 ≤ z3 := by
  have h201 : fl (201 / 5) = 5657647031884186 / 2 ^ (47 : ℕ) := by
    have h := fl_eq (201 / 5) 5 5657647031884186 (by norm_num) (by norm_num)
      (by rw [abs_lt]; constructor <;> norm_num)
    rw [h]
    norm_num
  have h500 : fl (500 / 5) = 100 := by
    have h := fl_eq (500 / 5) 6 (100 * 2 ^ (46 : ℕ)) (by norm_num) (by norm_num) (by norm_num)
    rw [h]
    norm_num
  have h701 : fl (201 + 500) = 701 := by
    have h := fl_natCast 701 (by norm_num)
    have e : ((701 : ℕ) : ℚ) = 201 + 500 := by norm_num
    rw [e] at h
    rw [h]
    norm_num
  have h1000 : fl (500 + 500) = 1000 := by
    have h := fl_natCast 1000 (by norm_num)
    have e : ((1000 : ℕ) : ℚ) = 500 + 500 := by norm_num
    rw [e] at h
    rw [h]
    norm_num
  have h250 : fl (500 / 2) = 250 := by
    have h := fl_natCast 250 (by norm_num)
    have e : ((250 : ℕ) : ℚ) = 500 / 2 := by norm_num
    rw [e] at h
    exact h.trans (by norm_num)
  have h1 : fl (500 / 500) = 1 := by
    have e : (500 : ℚ) / 500 = 1 := by norm_num
    rw [e, fl_one]
  have hr1 := le_fl_of_pos (1000 / 201) (by norm_num)
  have hz1 := le_fl_of_pos (500 / 201) (by norm_num)
  obtain ⟨rest, hrest⟩ := gen_L_polys sampleCos sampleSin sampleBuildingOdd sampleOverhang
  have e0 : sampleBuildingOdd 0 = 201 := rfl
  have e1 : sampleBuildingOdd 1 = 500 := rfl
  have e2 : sampleBuildingOdd 2 = 500 := rfl
  have e3 : sampleBuildingOdd 3 = 500 := rfl
  have e4 : sampleBuildingOdd 4 = 500 := rfl
  rw [e0, e1, e2, e3, e4, h201, h500, h701, h1000, h250, h1] at hrest
  refine ⟨250 - 5 * (5657647031884186 / 2 ^ 47) / 2 * fl (1000 / 201),
    250 + 5 * (5657647031884186 / 2 ^ 47) / 2 * fl (1000 / 201),
    -(5 * (5657647031884186 / 2 ^ 47) / 2 * fl (500 / 201)),
    5 * (5657647031884186 / 2 ^ 47) / 2 * fl (500 / 201),
    -250, 250, -250, 250, rest, ?_, by norm_num, ?_, ?_, ?_, ?_, by norm_num, by norm_num,
    by norm_num, by norm_num⟩
  · rw [hrest]
    congr 1
    · apply box_corners_congr <;> norm_num
    · congr 1
      apply box_corners_congr <;> norm_num
  all_goals norm_num
  all_goals nlinarith [hr1, hz1]


/-- C19, amended: in `gen_L`, for lobe dimensions `(w1, l1, w2, l2)` and height
`h` that are doubles in the normal range, after all scales and translations
lobe 1 is the box `x` in `[l1/2 - a1*r1, l1/2 + a1*r1]`, `y` in `[-a1, a1]`, `z`
in `[-a1*z1, a1*z1]` and lobe 2 the box `x` in `[-a2*r2, a2*r2]`, `y` in
`[m - a2, m + a2]`, `z` in `[-a2*z2, a2*z2]`, with the half edges
`a1 = 5*fl(w1/5)/2`, `a2 = 5*fl(w2/5)/2` of the two cubes, the rounded scale
factors `r1 = fl(fl(l1+l2)/w1)`, `r2 = fl(l2/w2)`, `z1 = fl(h/w1)`,
`z2 = fl(h/w2)` and the rounded offset `m = fl(w1+w2)/2`.  These are the boxes
`[-l2/2, l1 + l2/2] x [-w1/2, w1/2]` and `[-l2/2, l2/2] x [w1/2, w1/2 + w2]` with
`z` in `[-h/2, h/2]` up to rounding: `a1`, `a2`, `m` are within the relative
error `2^-53` of `w1/2`, `w2/2`, `(w1+w2)/2`, the products `a1*r1`, `a2*r2` within
`5/2^53` and `3/2^53` of `(l1+l2)/2`, `l2/2`, and `a1*z1`, `a2*z2` within `3/2^53`
of `h/2`.  The face `y = m - a2` of lobe 2 lies within `(w1 + w2)/2^53` of the
face `y = a1` of lobe 1, and the two faces coincide at `y = w1/2` when `w1/5`,
`w2/5` and `w1 + w2` are doubles. -/
theorem gen_L_lobes_near_abut (cos sin : ℚ → ℚ) (building_parameters overhang_parameters : DArray)
    (hw1 : dimension (building_parameters 0)) (hl1 : dimension (building_parameters 1))
    (hw2 : dimension (building_parameters 2)) (hl2 : dimension (building_parameters 3))
    (hh : dimension (building_parameters 4)) :
    (∃ rest : List (List Vec3),
      (gen_L main_globals building_parameters overhang_parameters).polys cos sin
        = box_corners
            (building_parameters 1 / 2 - 5 * fl (building_parameters 0 / 5) / 2
              * fl (fl (building_parameters 1 + building_parameters 3) / building_parameters 0))
            (building_parameters 1 / 2 + 5 * fl (building_parameters 0 / 5) / 2
              * fl (fl (building_parameters 1 + building_parameters 3) / building_parameters 0))
            (-(5 * fl (building_parameters 0 / 5) / 2)) (5 * fl (building_parameters 0 / 5) / 2)
            (-(5 * fl (building_parameters 0 / 5) / 2
              * fl (building_parameters 4 / building_parameters 0)))
            (5 * fl (building_parameters 0 / 5) / 2
              * fl (building_parameters 4 / building_parameters 0))
          :: box_corners
            (-(5 * fl (building_parameters 2 / 5) / 2
              * fl (building_parameters 3 / building_parameters 2)))
            (5 * fl (building_parameters 2 / 5) / 2
              * fl (building_parameters 3 / building_parameters 2))
            (fl (building_parameters 0 + building_parameters 2) / 2
              - 5 * fl (building_parameters 2 / 5) / 2)
            (fl (building_parameters 0 + building_parameters 2) / 2
              + 5 * fl (building_parameters 2 / 5) / 2)
            (-(5 * fl (building_parameters 2 / 5) / 2
              * fl (building_parameters 4 / building_parameters 2)))
            (5 * fl (building_parameters 2 / 5) / 2
              * fl (building_parameters 4 / building_parameters 2))
          :: rest)
    ∧ |(fl (building_parameters 0 + building_parameters 2) / 2
          - 5 * fl (building_parameters 2 / 5) / 2) - 5 * fl (building_parameters 0 / 5) / 2|
        ≤ (building_parameters 0 + building_parameters 2) / 2 ^ 53
    ∧ |5 * fl (building_parameters 0 / 5) / 2 - building_parameters 0 / 2|
        ≤ building_parameters 0 / 2 / 2 ^ 53
    ∧ |5 * fl (building_parameters 2 / 5) / 2 - building_parameters 2 / 2|
        ≤ building_parameters 2 / 2 / 2 ^ 53
    ∧ |fl (building_parameters 0 + building_parameters 2) / 2
          - (building_parameters 0 + building_parameters 2) / 2|
        ≤ (building_parameters 0 + building_parameters 2) / 2 / 2 ^ 53
    ∧ |5 * fl (building_parameters 0 / 5) / 2
          * fl (fl (building_parameters 1 + building_parameters 3) / building_parameters 0)
          - (building_parameters 1 + building_parameters 3) / 2|
        ≤ 5 * ((building_parameters 1 + building_parameters 3) / 2) / 2 ^ 53
    ∧ |5 * fl (building_parameters 2 / 5) / 2
          * fl (building_parameters 3 / building_parameters 2) - building_parameters 3 / 2|
        ≤ 3 * (building_parameters 3 / 2) / 2 ^ 53
    ∧ |5 * fl (building_parameters 0 / 5) / 2
          * fl (building_parameters 4 / building_parameters 0) - building_parameters 4 / 2|
        ≤ 3 * (building_parameters 4 / 2) / 2 ^ 53
    ∧ |5 * fl (building_parameters 2 / 5) / 2
          * fl (building_parameters 4 / building_parameters 2) - building_parameters 4 / 2|
        ≤ 3 * (building_parameters 4 / 2) / 2 ^ 53
    ∧ (fl (building_parameters 0 / 5) = building_parameters 0 / 5 →
        fl (building_parameters 2 / 5) = building_parameters 2 / 5 →
        fl (building_parameters 0 + building_parameters 2)
          = building_parameters 0 + building_parameters 2 →
        5 * fl (building_parameters 0 / 5) / 2 = building_parameters 0 / 2
        ∧ fl (building_parameters 0 + building_parameters 2) / 2
            - 5 * fl (building_parameters 2 / 5) / 2 = building_parameters 0 / 2
        ∧ fl (building_parameters 0 + building_parameters 2) / 2
            + 5 * fl (building_parameters 2 / 5) / 2
            = building_parameters 0 / 2 + building_parameters 2) := by
  have p0 := dimension_pos _ hw1
  have p1 := dimension_pos _ hl1
  have p2 := dimension_pos _ hw2
  have p3 := dimension_pos _ hl2
  have p4 := dimension_pos _ hh
  have hl1half : fl (building_parameters 1 / 2) = building_parameters 1 / 2 := by
    rw [fl_div_two, hl1.1]
  refine ⟨?_, lobe_gap_le _ _ p0 p2, ?_, ?_, ?_, lobe_length_sub_le _ _ _ p0 p1 p3,
    half_height_sub_le _ _ p2 p3, half_height_sub_le _ _ p0 p4, half_height_sub_le _ _ p2 p4, ?_⟩
  · obtain ⟨rest, hrest⟩ := gen_L_polys cos sin building_parameters overhang_parameters
    rw [hl1half] at hrest
    exact ⟨rest, hrest⟩
  · have h := half_edge_sub_le _ p0
    have e : building_parameters 0 / 2 / 2 ^ 53
        = building_parameters 0 / 2 * (1 / 2 ^ (53 : ℕ)) := by ring
    rw [e]
    exact h
  · have h := half_edge_sub_le _ p2
    have e : building_parameters 2 / 2 / 2 ^ 53
        = building_parameters 2 / 2 * (1 / 2 ^ (53 : ℕ)) := by ring
    rw [e]
    exact h
  · have h := fl_abs_sub_le (building_parameters 0 + building_parameters 2)
    rw [abs_of_pos (by linarith : 0 < building_parameters 0 + building_parameters 2)] at h
    have e : fl (building_parameters 0 + building_parameters 2) / 2
          - (building_parameters 0 + building_parameters 2) / 2
        = (fl (building_parameters 0 + building_parameters 2)
          - (building_parameters 0 + building_parameters 2)) / 2 := by ring
    rw [e, abs_div, abs_of_pos (by norm_num : (0 : ℚ) < 2)]
    have e2 : (building_parameters 0 + building_parameters 2) / 2 / 2 ^ 53
        = (building_parameters 0 + building_parameters 2) / 2 ^ (53 : ℕ) / 2 := by ring
    rw [e2]
    exact div_le_div_of_nonneg_right h (by norm_num)
  · intro h1 h2 h3
    rw [h1, h2, h3]
    refine ⟨by ring, by ring, by ring⟩

/-- Witness for C19: the L shape on the sample building (`w1 = 200`, the other
dimensions 500), for which `200/5`, `500/5` and `200 + 500` are doubles: the two
faces coincide at `y = 100`. -/
theorem gen_L_lobes_near_abut_witness :
    5 * fl (sampleBuilding 0 / 5) / 2 = sampleBuilding 0 / 2
    ∧ fl (sampleBuilding 0 + sampleBuilding 2) / 2 - 5 * fl (sampleBuilding 2 / 5) / 2
        = sampleBuilding 0 / 2
    ∧ fl (sampleBuilding 0 + sampleBuilding 2) / 2 + 5 * fl (sampleBuilding 2 / 5) / 2
        = sampleBuilding 0 / 2 + sampleBuilding 2 :=
  (gen_L_lobes_near_abut sampleCos sampleSin sampleBuilding sampleOverhang dimension_200
    dimension_500 dimension_500 dimension_500 dimension_500).2.2.2.2.2.2.2.2.2
    (by
      have h := fl_natCast 40 (by norm_num)
      have e : ((40 : ℕ) : ℚ) = sampleBuilding 0 / 5 := by norm_num [sampleBuilding]
      rw [e] at h
      exact h)
    (by
      have h := fl_natCast 100 (by norm_num)
      have e : ((100 : ℕ) : ℚ) = sampleBuilding 2 / 5 := by norm_num [sampleBuilding]
      rw [e] at h
      exact h)
    (by
      have h := fl_natCast 700 (by norm_num)
      have e : ((700 : ℕ) : ℚ) = sampleBuilding 0 + sampleBuilding 2 := by
        norm_num [sampleBuilding]
      rw [e] at h
      exact h)

/-! ## Overhang bands of the L shape -/

/-- C21, counterexample: handed the style id 6, `gen_windows` returns the
default-constructed (empty) solid, and the facade built with design 6 in every
slot is still composed: it has no opening but holds its door. -/
theorem gen_windows_style_six_empty :
    gen_windows 50 6 100 100 200 = Solid.empty
    ∧ (gen_facade sampleParamsBadStyle sampleFacade).countWindows = 0
    ∧ (gen_facade sampleParamsBadStyle sampleFacade).countDoors = 1 := by
  refine ⟨by decide, by decide, by decide⟩

/-- C21, amended: for every style id outside `1..5` handed to `gen_windows`, the
selector returns empty geometry (a default-constructed polyhedron) and the build
continues: the opening `window_grammar` adds for the row is empty, whatever the
shape type. -/
theorem gen_windows_unknown_style_empty (window_width : ℚ) (window_op : Int)
    (tile_width window_height tile_height : ℚ) (hop : window_op < 1 ∨ 5 < window_op) :
    gen_windows window_width window_op tile_width window_height tile_height = Solid.empty
    ∧ ∀ shape_type : Int,
        (window_grammar_place shape_type
          (gen_windows window_width window_op tile_width window_height tile_height)).isEmpty
          = true := by
  have h : gen_windows window_width window_op tile_width window_height tile_height
      = Solid.empty := by
    unfold gen_windows
    have h1 : window_op ≠ 1 := by omega
    have h2 : window_op ≠ 2 := by omega
    have h3 : window_op ≠ 3 := by omega
    have h4 : window_op ≠ 4 := by omega
    have h5 : window_op ≠ 5 := by omega
    simp only [h1, h2, h3, h4, h5, if_false]
  refine ⟨h, ?_⟩
  intro shape_type
  rw [h]
  unfold window_grammar_place
  split_ifs <;> rfl

/-- Witness for C21: the style id 0. -/
theorem gen_windows_unknown_style_empty_witness :
    gen_windows 50 0 100 100 200 = Solid.empty :=
  (gen_windows_unknown_style_empty 50 0 100 100 200 (Or.inl (by decide))).1

/-! ## Template primitives -/

/-- C24, counterexample: on the template of `main`, `cube(201)` is the cube of
half edge `201/2 + 2^-47` (the quotient `201/5` is not a `double`), so its edge
is not 201, and `square(200, 500)` is the box of half thickness `1/2 + 2^-55`
(the quotient `1/5` is not a `double`), so its third extent is not 1. -/
theorem cube_square_edge_not_exact :
    (cube main_globals 201).polys sampleCos sampleSin
        = [box_corners (-(201 / 2 + 1 / 2 ^ 47)) (201 / 2 + 1 / 2 ^ 47)
            (-(201 / 2 + 1 / 2 ^ 47)) (201 / 2 + 1 / 2 ^ 47)
            (-(201 / 2 + 1 / 2 ^ 47)) (201 / 2 + 1 / 2 ^ 47)]
    ∧ (201 / 2 + 1 / 2 ^ 47 : ℚ) ≠ 201 / 2
    ∧ (square main_globals 200 500).polys sampleCos sampleSin
        = [box_corners (-100) 100 (-250) 250 (-(1 / 2 + 1 / 2 ^ 55)) (1 / 2 + 1 / 2 ^ 55)]
    ∧ (1 / 2 + 1 / 2 ^ 55 : ℚ) ≠ 1 / 2 := by
  have h201 : fl (201 / 5) = 5657647031884186 / 2 ^ (47 : ℕ) := by
    have h := fl_eq (201 / 5) 5 5657647031884186 (by norm_num) (by norm_num)
      (by rw [abs_lt]; constructor <;> norm_num)
    rw [h]
    norm_num
  have h200 : fl (200 / 5) = 40 := by
    have h := fl_eq (200 / 5) 5 (40 * 2 ^ (47 : ℕ)) (by norm_num) (by norm_num) (by norm_num)
    rw [h]
    norm_num
  have h500 : fl (500 / 5) = 100 := by
    have h := fl_eq (500 / 5) 6 (100 * 2 ^ (46 : ℕ)) (by norm_num) (by norm_num) (by norm_num)
    rw [h]
    norm_num
  refine ⟨?_, by norm_num, ?_, by norm_num⟩
  · rw [cube_main_polys, h201]
    congr 1
    apply box_corners_congr <;> norm_num
  · rw [square_main_polys, h200, h500, fl_one_fifth]
    congr 1
    apply box_corners_congr <;> norm_num

/-- C24, amended: on the template that `gen_poly` builds in `main`, for every
`w, l > 0` (doubles in the normal range) `cube(w)` is the template under one
scale transform, whose factor
`w/5/2` is computed from the reference width of the template and rounded to a
`double`: it is the origin-centred axis-aligned cube of edge `5 * fl(w/5)`, which
differs from `w` by at most `w / 2^53` and equals `w` when `w/5` is a `double`;
`square(w, l)` is the template under one scale transform and is the
origin-centred box of extents `5 * fl(w/5)` by `5 * fl(l/5)` by `1 + 2^-54`.  Both
are functions of the template and of their arguments only. -/
theorem cube_square_single_scale (cos sin : ℚ → ℚ) (w l : ℚ) (hw : dimension w)
    (hl : dimension l) :
    cube main_globals w
        = Solid.scale (fl (w / 5) / 2) (fl (w / 5) / 2) (fl (w / 5) / 2) main_globals.nef_org
    ∧ (cube main_globals w).polys cos sin
        = [box_corners (-(5 * fl (w / 5) / 2)) (5 * fl (w / 5) / 2)
            (-(5 * fl (w / 5) / 2)) (5 * fl (w / 5) / 2)
            (-(5 * fl (w / 5) / 2)) (5 * fl (w / 5) / 2)]
    ∧ |5 * fl (w / 5) - w| ≤ w / 2 ^ 53
    ∧ |5 * fl (l / 5) - l| ≤ l / 2 ^ 53
    ∧ (fl (w / 5) = w / 5 →
        (cube main_globals w).polys cos sin
          = [box_corners (-(w / 2)) (w / 2) (-(w / 2)) (w / 2) (-(w / 2)) (w / 2)])
    ∧ square main_globals w l
        = Solid.scale (fl (w / 5) / 2) (fl (l / 5) / 2) (fl (1 / 5) / 2) main_globals.nef_org
    ∧ (square main_globals w l).polys cos sin
        = [box_corners (-(5 * fl (w / 5) / 2)) (5 * fl (w / 5) / 2)
            (-(5 * fl (l / 5) / 2)) (5 * fl (l / 5) / 2)
            (-((1 + 1 / 2 ^ 54) / 2)) ((1 + 1 / 2 ^ 54) / 2)]
    ∧ (fl (w / 5) = w / 5 → fl (l / 5) = l / 5 →
        (square main_globals w l).polys cos sin
          = [box_corners (-(w / 2)) (w / 2) (-(l / 2)) (l / 2)
              (-((1 + 1 / 2 ^ 54) / 2)) ((1 + 1 / 2 ^ 54) / 2)]) := by
  have hn : main_globals.nef_org = Solid.poly (box_corners (-5) 5 (-5) 5 (-5) 5) := by
    rw [main_globals_eq]
  refine ⟨?_, cube_main_polys cos sin w, five_fl_sub_le w (dimension_pos w hw),
    five_fl_sub_le l (dimension_pos l hl), ?_, ?_, ?_, ?_⟩
  · rw [hn]
    exact cube_main_eq w
  · intro h
    rw [cube_main_polys, h]
    congr 1
    apply box_corners_congr <;> ring
  · rw [hn]
    exact square_main_eq w l
  · rw [square_main_polys, fl_one_fifth]
    congr 1
    apply box_corners_congr <;> norm_num
  · intro h1 h2
    rw [square_main_polys, fl_one_fifth, h1, h2]
    congr 1
    apply box_corners_congr <;> norm_num <;> ring

/-- Witness for C24: the cube of edge 200, for which `200/5 = 40` is a `double`:
it is the cube of edge 200 exactly. -/
theorem cube_square_single_scale_witness :
    (cube main_globals 200).polys sampleCos sampleSin
        = [box_corners (-(200 / 2)) (200 / 2) (-(200 / 2)) (200 / 2) (-(200 / 2)) (200 / 2)] :=
  (cube_square_single_scale sampleCos sampleSin 200 500 dimension_200 dimension_500).2.2.2.2.1
    (by
      have h := fl_eq (200 / 5) 5 (40 * 2 ^ (47 : ℕ)) (by norm_num) (by norm_num) (by norm_num)
      rw [h]
      norm_num)

/-! ## Cell placement and tiling in `gen_level` -/

theorem gen_level_tile_pos (a : LevelCall) (hwidth : 0 < a.width) (hW : 1 ≤ a.grid_width)
    (hH : 1 ≤ a.grid_height) (hheight : 2 * a.bottom_height < a.height) :
    0 < gen_level_tile_width a ∧ 0 < gen_level_tile_height a := by
  have hWq : (0 : ℚ) < (a.grid_width : ℚ) := by exact_mod_cast (by omega : (0 : Int) < a.grid_width)
  have hHq : (0 : ℚ) < (a.grid_height : ℚ) := by
    exact_mod_cast (by omega : (0 : Int) < a.grid_height)
  constructor
  · exact div_pos hwidth hWq
  · exact div_pos (by linarith) hHq

theorem cell_centre_lt (q W x tw p c U : ℚ) (hq : 0 < q) (hU1 : 1 ≤ U)
    (hU : U * U * U * (W - 1 / 2) < W) (hx : x + 1 ≤ W) (hW : 1 ≤ W) (htw0 : 0 < tw)
    (htw : tw ≤ q * U) (hp : p ≤ x * tw * U) (hc : c ≤ (tw / 2 + p) * U) : c < q * W := by
  have hU0 : 0 ≤ U := by linarith
  have s1 : (tw / 2 + p) * U ≤ (tw / 2 + x * tw * U) * U :=
    mul_le_mul_of_nonneg_right (by linarith) hU0
  have s2 : tw / 2 + x * tw * U ≤ tw * U * (x + 1 / 2) := by
    have : tw / 2 ≤ tw * U / 2 := by
      have := mul_le_mul_of_nonneg_left hU1 htw0.le
      linarith
    have e : tw * U * (x + 1 / 2) = tw * U / 2 + x * tw * U := by ring
    rw [e]
    linarith
  have s3 : tw * U * (x + 1 / 2) ≤ tw * U * (W - 1 / 2) :=
    mul_le_mul_of_nonneg_left (by linarith) (mul_nonneg htw0.le hU0)
  have s4 : tw * U * (W - 1 / 2) ≤ q * U * U * (W - 1 / 2) := by
    apply mul_le_mul_of_nonneg_right _ (by linarith)
    exact mul_le_mul_of_nonneg_right htw hU0
  have s5 : c ≤ q * U * U * (W - 1 / 2) * U := by
    calc c ≤ (tw / 2 + p) * U := hc
      _ ≤ (tw / 2 + x * tw * U) * U := s1
      _ ≤ q * U * U * (W - 1 / 2) * U :=
        mul_le_mul_of_nonneg_right (by linarith) hU0
  have s6 : q * U * U * (W - 1 / 2) * U = q * (U * U * U * (W - 1 / 2)) := by ring
  rw [s6] at s5
  exact lt_of_le_of_lt s5 (mul_lt_mul_of_pos_left hU hq)

theorem cube_rounding_lt (W : ℚ) (hW : W < 2 ^ (31 : ℕ)) :
    (1 + 1 / 2 ^ (53 : ℕ)) * (1 + 1 / 2 ^ (53 : ℕ)) * (1 + 1 / 2 ^ (53 : ℕ)) * (W - 1 / 2)
      < (W : ℚ) := by
  have h3 : (1 + 1 / 2 ^ (53 : ℕ) : ℚ) * (1 + 1 / 2 ^ (53 : ℕ)) * (1 + 1 / 2 ^ (53 : ℕ))
      ≤ 1 + 4 / 2 ^ (53 : ℕ) := by norm_num
  rcases le_or_lt W (1 / 2) with h | h
  · have : (1 + 1 / 2 ^ (53 : ℕ) : ℚ) * (1 + 1 / 2 ^ (53 : ℕ)) * (1 + 1 / 2 ^ (53 : ℕ))
        * (W - 1 / 2) ≤ (W - 1 / 2) := by
      have hpos : (1 : ℚ) ≤ (1 + 1 / 2 ^ (53 : ℕ)) * (1 + 1 / 2 ^ (53 : ℕ))
          * (1 + 1 / 2 ^ (53 : ℕ)) := by norm_num
      nlinarith
    linarith
  · have h4 : (1 + 1 / 2 ^ (53 : ℕ) : ℚ) * (1 + 1 / 2 ^ (53 : ℕ)) * (1 + 1 / 2 ^ (53 : ℕ))
        * (W - 1 / 2) ≤ (1 + 4 / 2 ^ (53 : ℕ)) * (W - 1 / 2) :=
      mul_le_mul_of_nonneg_right h3 (by linarith)
    have h5 : (1 + 4 / 2 ^ (53 : ℕ) : ℚ) * (W - 1 / 2) < W := by
      have e : (1 + 4 / 2 ^ (53 : ℕ) : ℚ) * (W - 1 / 2)
          = W - 1 / 2 + 4 / 2 ^ (53 : ℕ) * W - 2 / 2 ^ (53 : ℕ) := by ring
      rw [e]
      have h6 : (4 : ℚ) / 2 ^ (53 : ℕ) * W < 4 / 2 ^ (53 : ℕ) * 2 ^ (31 : ℕ) :=
        mul_lt_mul_of_pos_left hW (by norm_num)
      have h7 : (4 : ℚ) / 2 ^ (53 : ℕ) * 2 ^ (31 : ℕ) < 1 / 2 := by norm_num
      have h8 : (0 : ℚ) < 2 / 2 ^ (53 : ℕ) := by norm_num
      linarith
    linarith

theorem tile_width_facts (a : LevelCall) (hW : 1 ≤ a.grid_width) (hwidth : 0 < a.width) :
    Machine.gen_level_tile_width a = fl (a.width / (a.grid_width : ℚ))
    ∧ 0 < Machine.gen_level_tile_width a
    ∧ |(a.grid_width : ℚ) * Machine.gen_level_tile_width a - a.width| ≤ a.width / 2 ^ (53 : ℕ)
    ∧ Machine.gen_level_tile_width a
        ≤ a.width / (a.grid_width : ℚ) * (1 + 1 / 2 ^ (53 : ℕ)) := by
  have hWq : (0 : ℚ) < (a.grid_width : ℚ) := by exact_mod_cast (by omega : (0 : Int) < a.grid_width)
  have hq : 0 < a.width / (a.grid_width : ℚ) := div_pos hwidth hWq
  refine ⟨rfl, fl_pos _ hq, ?_, fl_le_of_pos _ hq⟩
  have h := fl_sub_le_mul _ hq
  have e : (a.grid_width : ℚ) * Machine.gen_level_tile_width a - a.width
      = (a.grid_width : ℚ) * (fl (a.width / (a.grid_width : ℚ)) - a.width / (a.grid_width : ℚ)) := by
    unfold Machine.gen_level_tile_width ddiv
    field_simp
    ring
  rw [e, abs_mul, abs_of_pos hWq]
  calc (a.grid_width : ℚ) * |fl (a.width / (a.grid_width : ℚ)) - a.width / (a.grid_width : ℚ)|
      ≤ (a.grid_width : ℚ) * (a.width / (a.grid_width : ℚ) * (1 / 2 ^ (53 : ℕ))) :=
        mul_le_mul_of_nonneg_left h hWq.le
    _ = a.width / 2 ^ (53 : ℕ) := by
        field_simp
        ring


theorem tile_height_facts (a : LevelCall) (hH : 1 ≤ a.grid_height)
    (hb : fl a.bottom_height = a.bottom_height) (hgap : 2 * a.bottom_height < a.height) :
    Machine.gen_level_tile_height a
        = fl (fl (a.height - 2 * a.bottom_height) / (a.grid_height : ℚ))
    ∧ 0 < Machine.gen_level_tile_height a
    ∧ |2 * a.bottom_height + (a.grid_height : ℚ) * Machine.gen_level_tile_height a - a.height|
        ≤ 3 * (a.height - 2 * a.bottom_height) / 2 ^ (53 : ℕ)
    ∧ Machine.gen_level_tile_height a
        ≤ (a.height - 2 * a.bottom_height) / (a.grid_height : ℚ)
          * ((1 + 1 / 2 ^ (53 : ℕ)) * (1 + 1 / 2 ^ (53 : ℕ))) := by
  have hHq : (0 : ℚ) < (a.grid_height : ℚ) := by
    exact_mod_cast (by omega : (0 : Int) < a.grid_height)
  have hD : 0 < a.height - 2 * a.bottom_height := by linarith
  have hd : 0 < fl (a.height - 2 * a.bottom_height) := fl_pos _ hD
  have hq : 0 < fl (a.height - 2 * a.bottom_height) / (a.grid_height : ℚ) := div_pos hd hHq
  have e0 : Machine.gen_level_tile_height a
      = fl (fl (a.height - 2 * a.bottom_height) / (a.grid_height : ℚ)) := by
    unfold Machine.gen_level_tile_height ddiv dsub
    rw [dmul_two _ hb, mul_comm a.bottom_height 2]
  have h1 := fl_sub_le_mul _ hD
  have h2 := fl_sub_le_mul _ hq
  have h3 := fl_le_of_pos _ hD
  have h4 := fl_le_of_pos _ hq
  refine ⟨e0, ?_, ?_, ?_⟩
  · rw [e0]
    exact fl_pos _ hq
  · rw [e0]
    have e : 2 * a.bottom_height
          + (a.grid_height : ℚ) * fl (fl (a.height - 2 * a.bottom_height) / (a.grid_height : ℚ))
          - a.height
        = (a.grid_height : ℚ)
            * (fl (fl (a.height - 2 * a.bottom_height) / (a.grid_height : ℚ))
              - fl (a.height - 2 * a.bottom_height) / (a.grid_height : ℚ))
          + (fl (a.height - 2 * a.bottom_height) - (a.height - 2 * a.bottom_height)) := by
      field_simp
      ring
    rw [e]
    refine le_trans (abs_add _ _) ?_
    rw [abs_mul, abs_of_pos hHq]
    have h5 : (a.grid_height : ℚ)
          * |fl (fl (a.height - 2 * a.bottom_height) / (a.grid_height : ℚ))
            - fl (a.height - 2 * a.bottom_height) / (a.grid_height : ℚ)|
        ≤ (a.grid_height : ℚ)
          * (fl (a.height - 2 * a.bottom_height) / (a.grid_height : ℚ) * (1 / 2 ^ (53 : ℕ))) :=
      mul_le_mul_of_nonneg_left h2 hHq.le
    have e5 : (a.grid_height : ℚ)
          * (fl (a.height - 2 * a.bottom_height) / (a.grid_height : ℚ) * (1 / 2 ^ (53 : ℕ)))
        = fl (a.height - 2 * a.bottom_height) * (1 / 2 ^ (53 : ℕ)) := by
      field_simp
      ring
    rw [e5] at h5
    have h6 : fl (a.height - 2 * a.bottom_height) * (1 / 2 ^ (53 : ℕ))
        ≤ (a.height - 2 * a.bottom_height) * (1 + 1 / 2 ^ (53 : ℕ)) * (1 / 2 ^ (53 : ℕ)) :=
      mul_le_mul_of_nonneg_right h3 (by norm_num)
    have h7 : (a.height - 2 * a.bottom_height) * (1 + 1 / 2 ^ (53 : ℕ)) * (1 / 2 ^ (53 : ℕ))
          + (a.height - 2 * a.bottom_height) * (1 / 2 ^ (53 : ℕ))
        ≤ 3 * (a.height - 2 * a.bottom_height) / 2 ^ (53 : ℕ) := by
      have e7 : (a.height - 2 * a.bottom_height) * (1 + 1 / 2 ^ (53 : ℕ)) * (1 / 2 ^ (53 : ℕ))
            + (a.height - 2 * a.bottom_height) * (1 / 2 ^ (53 : ℕ))
          = (a.height - 2 * a.bottom_height)
            * ((1 + 1 / 2 ^ (53 : ℕ)) * (1 / 2 ^ (53 : ℕ)) + 1 / 2 ^ (53 : ℕ)) := by ring
      have e8 : 3 * (a.height - 2 * a.bottom_height) / 2 ^ (53 : ℕ)
          = (a.height - 2 * a.bottom_height) * (3 / 2 ^ (53 : ℕ)) := by ring
      rw [e7, e8]
      apply mul_le_mul_of_nonneg_left _ hD.le
      norm_num
    linarith
  · rw [e0]
    refine le_trans h4 ?_
    have h8 : fl (a.height - 2 * a.bottom_height) / (a.grid_height : ℚ)
        ≤ (a.height - 2 * a.bottom_height) * (1 + 1 / 2 ^ (53 : ℕ)) / (a.grid_height : ℚ) :=
      div_le_div_of_nonneg_right h3 hHq.le
    have h9 := mul_le_mul_of_nonneg_right h8 (by norm_num : (0 : ℚ) ≤ 1 + 1 / 2 ^ (53 : ℕ))
    refine le_trans h9 (le_of_eq ?_)
    ring

theorem cell_centre_z_lt (D H y th b2 t1 p c U : ℚ) (hU1 : 1 ≤ U)
    (hy : y + 1 ≤ H) (hH : 1 ≤ H) (hth0 : 0 < th) (hth : th ≤ D / H * (U * U))
    (ht1 : t1 ≤ (th / 2 + b2) * U) (hp : p ≤ y * th * U) (hc : c ≤ (t1 + p) * U)
    (hnum : U * U * b2 + U * U * U * U * (H - 1 / 2) * (D / H) < b2 + D) : c < b2 + D := by
  have hU0 : 0 ≤ U := by linarith
  have hUU : 0 ≤ U * U := mul_nonneg hU0 hU0
  have s1 : (t1 + p) * U ≤ ((th / 2 + b2) * U + y * th * U) * U :=
    mul_le_mul_of_nonneg_right (by linarith) hU0
  have s2 : ((th / 2 + b2) * U + y * th * U) * U = U * U * (b2 + th * (y + 1 / 2)) := by ring
  have s3 : th * (y + 1 / 2) ≤ th * (H - 1 / 2) :=
    mul_le_mul_of_nonneg_left (by linarith) hth0.le
  have s4 : th * (H - 1 / 2) ≤ D / H * (U * U) * (H - 1 / 2) :=
    mul_le_mul_of_nonneg_right hth (by linarith)
  have s5 : U * U * (b2 + th * (y + 1 / 2)) ≤ U * U * (b2 + D / H * (U * U) * (H - 1 / 2)) :=
    mul_le_mul_of_nonneg_left (by linarith) hUU
  have s6 : U * U * (b2 + D / H * (U * U) * (H - 1 / 2))
      = U * U * b2 + U * U * U * U * (H - 1 / 2) * (D / H) := by ring
  calc c ≤ (t1 + p) * U := hc
    _ ≤ U * U * (b2 + th * (y + 1 / 2)) := by rw [← s2]; exact s1
    _ ≤ U * U * b2 + U * U * U * U * (H - 1 / 2) * (D / H) := by rw [← s6]; exact s5
    _ < b2 + D := hnum

theorem z_rounding_lt (D H b2 : ℚ) (hD : 0 < D) (hH1 : 1 ≤ H) (hH : H < 2 ^ (31 : ℕ))
    (hb0 : 0 ≤ b2) (hb : b2 + D ≤ 2 ^ (10 : ℕ) * D) :
    (1 + 1 / 2 ^ (53 : ℕ)) * (1 + 1 / 2 ^ (53 : ℕ)) * b2
      + (1 + 1 / 2 ^ (53 : ℕ)) * (1 + 1 / 2 ^ (53 : ℕ)) * (1 + 1 / 2 ^ (53 : ℕ))
        * (1 + 1 / 2 ^ (53 : ℕ)) * (H - 1 / 2) * (D / H) < b2 + D := by
  have hHpos : 0 < H := by linarith
  have h2 : (1 + 1 / 2 ^ (53 : ℕ) : ℚ) * (1 + 1 / 2 ^ (53 : ℕ)) ≤ 1 + 3 / 2 ^ (53 : ℕ) := by
    norm_num
  have h4 : (1 + 1 / 2 ^ (53 : ℕ) : ℚ) * (1 + 1 / 2 ^ (53 : ℕ)) * (1 + 1 / 2 ^ (53 : ℕ))
      * (1 + 1 / 2 ^ (53 : ℕ)) ≤ 1 + 5 / 2 ^ (53 : ℕ) := by norm_num
  have e1 : (H - 1 / 2) * (D / H) = D - D / (2 * H) := by
    field_simp
    ring
  have hDH : 0 < D / (2 * H) := by positivity
  have hDH2 : D / (2 * H) ≤ D := by
    rw [div_le_iff₀ (by positivity)]
    nlinarith
  have hDH3 : D / 2 ^ (32 : ℕ) < D / (2 * H) := by
    apply div_lt_div_of_pos_left hD (by positivity)
    have : (2 : ℚ) * H < 2 * 2 ^ (31 : ℕ) := by linarith
    have e : (2 : ℚ) * 2 ^ (31 : ℕ) = 2 ^ (32 : ℕ) := by norm_num
    linarith
  have t1 : (1 + 1 / 2 ^ (53 : ℕ) : ℚ) * (1 + 1 / 2 ^ (53 : ℕ)) * b2
      ≤ (1 + 3 / 2 ^ (53 : ℕ)) * b2 := mul_le_mul_of_nonneg_right h2 hb0
  have t2 : (1 + 1 / 2 ^ (53 : ℕ) : ℚ) * (1 + 1 / 2 ^ (53 : ℕ)) * (1 + 1 / 2 ^ (53 : ℕ))
        * (1 + 1 / 2 ^ (53 : ℕ)) * (H - 1 / 2) * (D / H)
      ≤ (1 + 5 / 2 ^ (53 : ℕ)) * (D - D / (2 * H)) := by
    rw [mul_assoc _ (H - 1 / 2) (D / H), e1]
    exact mul_le_mul_of_nonneg_right h4 (by linarith)
  have t3 : (1 + 5 / 2 ^ (53 : ℕ) : ℚ) * (D - D / (2 * H))
      ≤ D + 5 / 2 ^ (53 : ℕ) * D - D / (2 * H) := by
    have e : (1 + 5 / 2 ^ (53 : ℕ) : ℚ) * (D - D / (2 * H))
        = D + 5 / 2 ^ (53 : ℕ) * D - D / (2 * H) - 5 / 2 ^ (53 : ℕ) * (D / (2 * H)) := by ring
    rw [e]
    have : (0 : ℚ) ≤ 5 / 2 ^ (53 : ℕ) * (D / (2 * H)) := by positivity
    linarith
  have t4 : (3 : ℚ) / 2 ^ (53 : ℕ) * b2 ≤ 3 / 2 ^ (53 : ℕ) * (2 ^ (10 : ℕ) * D) :=
    mul_le_mul_of_nonneg_left (by linarith) (by norm_num)
  have t5 : (3 : ℚ) / 2 ^ (53 : ℕ) * (2 ^ (10 : ℕ) * D) + 5 / 2 ^ (53 : ℕ) * D
      < D / 2 ^ (32 : ℕ) := by
    have e : (3 : ℚ) / 2 ^ (53 : ℕ) * (2 ^ (10 : ℕ) * D) + 5 / 2 ^ (53 : ℕ) * D
        = D * (3077 / 2 ^ (53 : ℕ)) := by ring
    have e' : D / 2 ^ (32 : ℕ) = D * (1 / 2 ^ (32 : ℕ)) := by ring
    rw [e, e']
    exact mul_lt_mul_of_pos_left (by norm_num) hD
  have e2 : (1 + 3 / 2 ^ (53 : ℕ) : ℚ) * b2 = b2 + 3 / 2 ^ (53 : ℕ) * b2 := by ring
  linarith


/-- C30, counterexample: two facades within the stated bounds.  With 7 columns
on a width of 225 (3 rows, height 500, no bottom allowance) the tile width is the
`double` nearest to `225/7`, and 7 tile widths make `225 + 3/2^47` (and
`225 + 2^-45` when the product is formed by the machine), not 225: the cells do
not partition `[0, width]`.  With 2 columns, 3 rows, width 200, height 500 and
bottom allowance -100 (so `height > 2*bottom_allowance`) the cell of column 0,
row 0 is translated to `z = -5864062014805333/2^46`, about -83.3, below the base
`z = 0` of the facade. -/
theorem gen_level_grid_not_exact :
    (1 ≤ sampleLevelSeven.grid_width ∧ 1 ≤ sampleLevelSeven.grid_height
      ∧ 0 < sampleLevelSeven.width
      ∧ 2 * sampleLevelSeven.bottom_height < sampleLevelSeven.height)
    ∧ Machine.gen_level_tile_width sampleLevelSeven = 4523704982849829 / 2 ^ 47
    ∧ (sampleLevelSeven.grid_width : ℚ) * Machine.gen_level_tile_width sampleLevelSeven
        = 225 + 3 / 2 ^ 47
    ∧ dmul (sampleLevelSeven.grid_width : ℚ) (Machine.gen_level_tile_width sampleLevelSeven)
        = 225 + 1 / 2 ^ 45
    ∧ (1 ≤ (sampleLevel 1 0 (-100) 1).grid_width ∧ 1 ≤ (sampleLevel 1 0 (-100) 1).grid_height
      ∧ 0 < (sampleLevel 1 0 (-100) 1).width
      ∧ 2 * (sampleLevel 1 0 (-100) 1).bottom_height < (sampleLevel 1 0 (-100) 1).height)
    ∧ Machine.gen_level_cell_coord (sampleLevel 1 0 (-100) 1) 0
        = (0, 50, -5864062014805333 / 2 ^ 46)
    ∧ (-5864062014805333 / 2 ^ 46 : ℚ) < 0 := by
  have htw : Machine.gen_level_tile_width sampleLevelSeven = 4523704982849829 / 2 ^ 47 := by
    have h := fl_eq (225 / 7) 5 4523704982849829 (by norm_num) (by norm_num)
      (by rw [abs_lt]; constructor <;> norm_num)
    have e : Machine.gen_level_tile_width sampleLevelSeven = fl (225 / 7) := by
      simp only [Machine.gen_level_tile_width, ddiv, sampleLevelSeven, Int.cast_ofNat]
    rw [e, h]
    norm_num
  have hW7 : ((sampleLevelSeven.grid_width : Int) : ℚ) = 7 := by
    simp only [sampleLevelSeven, Int.cast_ofNat]
  have h100 : ddiv 200 2 = 100 := by
    have h := fl_natCast 100 (by norm_num)
    unfold ddiv
    have e : ((100 : ℕ) : ℚ) = 200 / 2 := by norm_num
    rw [e] at h
    exact h.trans (by norm_num)
  have h50 : ddiv 100 2 = 50 := by
    have h := fl_natCast 50 (by norm_num)
    unfold ddiv
    have e : ((50 : ℕ) : ℚ) = 100 / 2 := by norm_num
    rw [e] at h
    exact h.trans (by norm_num)
  have hmul0 : ∀ t : ℚ, dmul 0 t = 0 := by
    intro t
    unfold dmul
    rw [zero_mul, fl_zero]
  have h50' : dadd 50 0 = 50 := by
    have h := fl_natCast 50 (by norm_num)
    unfold dadd
    have e : ((50 : ℕ) : ℚ) = 50 + 0 := by norm_num
    rw [e] at h
    exact h.trans (by norm_num)
  have hm200 : dmul (-100) 2 = -200 := by
    have h := fl_natCast 200 (by norm_num)
    unfold dmul
    have e : (-100 : ℚ) * 2 = -((200 : ℕ) : ℚ) := by norm_num
    rw [e, fl_neg, h]
    norm_num
  have h700 : dsub 500 (-200) = 700 := by
    have h := fl_natCast 700 (by norm_num)
    unfold dsub
    have e : (500 : ℚ) - -200 = ((700 : ℕ) : ℚ) := by norm_num
    rw [e, h]
    norm_num
  have hth : ddiv 700 3 = 8209686820727467 / 2 ^ 45 := by
    have h := fl_eq (700 / 3) 7 8209686820727467 (by norm_num) (by norm_num)
      (by rw [abs_lt]; constructor <;> norm_num)
    unfold ddiv
    rw [h]
    norm_num
  have hth2 : ddiv (8209686820727467 / 2 ^ 45) 2 = 8209686820727467 / 2 ^ 46 := by
    have h := fl_eq (8209686820727467 / 2 ^ 45 / 2) 6 8209686820727467 (by norm_num)
      (by norm_num) (by norm_num)
    unfold ddiv
    rw [h]
    norm_num
  have hz : dadd (8209686820727467 / 2 ^ 46) (-200) = -5864062014805333 / 2 ^ 46 := by
    have h := fl_eq (5864062014805333 / 2 ^ 46) 6 5864062014805333 (by norm_num)
      (by norm_num) (by norm_num)
    unfold dadd
    have e : (8209686820727467 / 2 ^ 46 + -200 : ℚ) = -(5864062014805333 / 2 ^ 46) := by
      norm_num
    rw [e, fl_neg, h]
    norm_num
  have hz0 : dadd (-5864062014805333 / 2 ^ 46) 0 = -5864062014805333 / 2 ^ 46 := by
    have h := fl_eq (5864062014805333 / 2 ^ 46) 6 5864062014805333 (by norm_num)
      (by norm_num) (by norm_num)
    unfold dadd
    have e : (-5864062014805333 / 2 ^ 46 + 0 : ℚ) = -(5864062014805333 / 2 ^ 46) := by
      norm_num
    rw [e, fl_neg, h]
    norm_num
  refine ⟨⟨by decide, by decide, by norm_num [sampleLevelSeven], by norm_num [sampleLevelSeven]⟩,
    htw, ?_, ?_,
    ⟨by decide, by decide, by norm_num [sampleLevel], by norm_num [sampleLevel]⟩, ?_,
    by norm_num⟩
  · rw [htw, hW7]
    norm_num
  · rw [htw, hW7]
    have h := fl_eq (7 * (4523704982849829 / 2 ^ 47)) 7 7916483719987201 (by norm_num)
      (by norm_num) (by rw [abs_lt]; constructor <;> norm_num)
    unfold dmul
    rw [h]
    norm_num
  · simp only [Machine.gen_level_cell_coord, Machine.gen_level_tile_width,
      Machine.gen_level_tile_height, sampleLevel, Int.cast_ofNat, Int.cast_zero]
    rw [h100, h50, hmul0, h50', hm200, h700, hth, hth2, hz, hmul0, hz0]

/-- C30, amended: for every facade with `1 <= W, H < 2^31`, width and height
doubles in the normal range, the bottom allowance a `double` and
`height > 2*bottom_allowance`, `gen_level` tiles the facade up to rounding.  The
tile width is the `double` nearest to `width/W`, it is positive and `W` tile
widths differ from `width` by at most `width/2^53` (they make `width` when
`width/W` is a `double`); the tile height is the `double` nearest to
`fl(height - 2*bottom_allowance)/H`, it is positive and `2*bottom_allowance +
H*tile_height` differs from `height` by at most `3*(height -
2*bottom_allowance)/2^53` (it is `height` when no quotient is rounded).  The
centre `(cy, cz)` to which the cell of column `x`, row `y` is translated has
`0 < cy < width`; when `bottom_allowance >= 0` it has `0 < cz`, and `cz < height`
when moreover the tiled band `height - 2*bottom_allowance` is at least
`height/1024`. -/
theorem gen_level_grid_tiles (a : LevelCall) (x : Int)
    (hW : 1 ≤ a.grid_width ∧ a.grid_width < 2 ^ 31)
    (hH : 1 ≤ a.grid_height ∧ a.grid_height < 2 ^ 31)
    (hwidth : dimension a.width) (_hheight : dimension a.height)
    (hb : fl a.bottom_height = a.bottom_height) (_hbr : -(2 ^ 500) ≤ a.bottom_height)
    (hgap : 2 * a.bottom_height < a.height) (hx : 0 ≤ x ∧ x < a.grid_width)
    (hy : 0 ≤ a.y ∧ a.y < a.grid_height) :
    Machine.gen_level_tile_width a = fl (a.width / (a.grid_width : ℚ))
    ∧ 0 < Machine.gen_level_tile_width a
    ∧ |(a.grid_width : ℚ) * Machine.gen_level_tile_width a - a.width| ≤ a.width / 2 ^ 53
    ∧ (fl (a.width / (a.grid_width : ℚ)) = a.width / (a.grid_width : ℚ) →
        (a.grid_width : ℚ) * Machine.gen_level_tile_width a = a.width)
    ∧ Machine.gen_level_tile_height a
        = fl (fl (a.height - 2 * a.bottom_height) / (a.grid_height : ℚ))
    ∧ 0 < Machine.gen_level_tile_height a
    ∧ |2 * a.bottom_height + (a.grid_height : ℚ) * Machine.gen_level_tile_height a - a.height|
        ≤ 3 * (a.height - 2 * a.bottom_height) / 2 ^ 53
    ∧ (fl (a.height - 2 * a.bottom_height) = a.height - 2 * a.bottom_height →
        fl ((a.height - 2 * a.bottom_height) / (a.grid_height : ℚ))
          = (a.height - 2 * a.bottom_height) / (a.grid_height : ℚ) →
        2 * a.bottom_height + (a.grid_height : ℚ) * Machine.gen_level_tile_height a = a.height)
    ∧ ∃ cy cz : ℚ,
        Machine.gen_level_cell_coord a x = (0, cy, cz)
        ∧ 0 < cy ∧ cy < a.width
        ∧ (0 ≤ a.bottom_height → 0 < cz)
        ∧ (0 ≤ a.bottom_height → a.height ≤ 2 ^ 10 * (a.height - 2 * a.bottom_height) →
            cz < a.height) := by
  have hwpos := dimension_pos _ hwidth
  obtain ⟨tw1, tw2, tw3, tw4⟩ := tile_width_facts a hW.1 hwpos
  obtain ⟨th1, th2, th3, th4⟩ := tile_height_facts a hH.1 hb hgap
  have hWq : (0 : ℚ) < (a.grid_width : ℚ) := by
    exact_mod_cast (by omega : (0 : Int) < a.grid_width)
  have hHq : (0 : ℚ) < (a.grid_height : ℚ) := by
    exact_mod_cast (by omega : (0 : Int) < a.grid_height)
  have hW1 : (1 : ℚ) ≤ (a.grid_width : ℚ) := by exact_mod_cast hW.1
  have hH1 : (1 : ℚ) ≤ (a.grid_height : ℚ) := by exact_mod_cast hH.1
  have hW31 : (a.grid_width : ℚ) < 2 ^ (31 : ℕ) := by exact_mod_cast hW.2
  have hH31 : (a.grid_height : ℚ) < 2 ^ (31 : ℕ) := by exact_mod_cast hH.2
  have hx0 : (0 : ℚ) ≤ (x : ℚ) := by exact_mod_cast hx.1
  have hx1 : (x : ℚ) + 1 ≤ (a.grid_width : ℚ) := by exact_mod_cast (by omega : x + 1 ≤ a.grid_width)
  have hy0 : (0 : ℚ) ≤ (a.y : ℚ) := by exact_mod_cast hy.1
  have hy1 : (a.y : ℚ) + 1 ≤ (a.grid_height : ℚ) := by
    exact_mod_cast (by omega : a.y + 1 ≤ a.grid_height)
  have hU1 : (1 : ℚ) ≤ 1 + 1 / 2 ^ (53 : ℕ) := by norm_num
  have htwhalf : ddiv (Machine.gen_level_tile_width a) 2 = Machine.gen_level_tile_width a / 2 :=
    ddiv_two _ (by rw [tw1, fl_fl])
  have hthhalf : ddiv (Machine.gen_level_tile_height a) 2
      = Machine.gen_level_tile_height a / 2 := ddiv_two _ (by rw [th1, fl_fl])
  have hxt : 0 ≤ (x : ℚ) * Machine.gen_level_tile_width a := mul_nonneg hx0 tw2.le
  have hyt : 0 ≤ (a.y : ℚ) * Machine.gen_level_tile_height a := mul_nonneg hy0 th2.le
  have hp0 : 0 ≤ fl ((x : ℚ) * Machine.gen_level_tile_width a) := fl_nonneg _ hxt
  have hq0 : 0 ≤ fl ((a.y : ℚ) * Machine.gen_level_tile_height a) := fl_nonneg _ hyt
  have hs : 0 < Machine.gen_level_tile_width a / 2
      + fl ((x : ℚ) * Machine.gen_level_tile_width a) := by linarith
  refine ⟨tw1, tw2, tw3, ?_, th1, th2, th3, ?_,
    fl (Machine.gen_level_tile_width a / 2 + fl ((x : ℚ) * Machine.gen_level_tile_width a)),
    fl (fl (Machine.gen_level_tile_height a / 2 + a.bottom_height * 2)
      + fl ((a.y : ℚ) * Machine.gen_level_tile_height a)), ?_, fl_pos _ hs, ?_, ?_, ?_⟩
  · intro h
    rw [tw1, h]
    field_simp
  · intro h1 h2
    rw [th1, h1, h2]
    field_simp
  · simp only [Machine.gen_level_cell_coord, htwhalf, hthhalf, dmul_two _ hb]
    rfl
  · have h := cell_centre_lt (a.width / (a.grid_width : ℚ)) (a.grid_width : ℚ) (x : ℚ)
      (Machine.gen_level_tile_width a) (fl ((x : ℚ) * Machine.gen_level_tile_width a))
      (fl (Machine.gen_level_tile_width a / 2 + fl ((x : ℚ) * Machine.gen_level_tile_width a)))
      (1 + 1 / 2 ^ (53 : ℕ)) (div_pos hwpos hWq) hU1 (cube_rounding_lt _ hW31) hx1 hW1 tw2 tw4
      (fl_le_of_nonneg _ hxt) (fl_le_of_pos _ hs)
    have e : a.width / (a.grid_width : ℚ) * (a.grid_width : ℚ) = a.width := by
      field_simp
    rw [e] at h
    exact h
  · intro hb0
    have h1 : 0 < Machine.gen_level_tile_height a / 2 + a.bottom_height * 2 := by linarith
    have h2 := fl_pos _ h1
    exact fl_pos _ (by linarith)
  · intro hb0 hband
    have h1 : 0 < Machine.gen_level_tile_height a / 2 + a.bottom_height * 2 := by linarith
    have h2 := fl_pos _ h1
    have h3 : 0 < fl (Machine.gen_level_tile_height a / 2 + a.bottom_height * 2)
        + fl ((a.y : ℚ) * Machine.gen_level_tile_height a) := by linarith
    have hD : 0 < a.height - 2 * a.bottom_height := by linarith
    have h := cell_centre_z_lt (a.height - 2 * a.bottom_height) (a.grid_height : ℚ) (a.y : ℚ)
      (Machine.gen_level_tile_height a) (a.bottom_height * 2)
      (fl (Machine.gen_level_tile_height a / 2 + a.bottom_height * 2))
      (fl ((a.y : ℚ) * Machine.gen_level_tile_height a))
      (fl (fl (Machine.gen_level_tile_height a / 2 + a.bottom_height * 2)
        + fl ((a.y : ℚ) * Machine.gen_level_tile_height a)))
      (1 + 1 / 2 ^ (53 : ℕ)) hU1 hy1 hH1 th2 th4 (fl_le_of_pos _ h1) (fl_le_of_nonneg _ hyt)
      (fl_le_of_pos _ h3)
      (z_rounding_lt _ _ _ hD hH1 hH31 (by linarith) (by linarith))
    linarith

/-- Witness for C30: column 1, row 2 of the sample grid (2 columns, 3 rows, width
200, height 500, bottom allowance 100): two tile widths make 200 exactly, as
`200/2` is a `double`. -/
theorem gen_level_grid_tiles_witness :
    ((sampleLevel 1 2 100 1).grid_width : ℚ) * Machine.gen_level_tile_width (sampleLevel 1 2 100 1)
      = (sampleLevel 1 2 100 1).width :=
  (gen_level_grid_tiles (sampleLevel 1 2 100 1) 1 (by decide) (by decide) dimension_200
    dimension_500
    (by
      have h := fl_natCast 100 (by norm_num)
      exact h.trans (by norm_num [sampleLevel]))
    (by norm_num [sampleLevel]) (by norm_num [sampleLevel]) (by decide) (by decide)).2.2.2.1
    (by
      have h := fl_natCast 100 (by norm_num)
      have e : ((100 : ℕ) : ℚ)
          = (sampleLevel 1 2 100 1).width / ((sampleLevel 1 2 100 1).grid_width : ℚ) := by
        norm_num [sampleLevel]
      rw [e] at h
      exact h)

/-! ## Bottom row without allowance -/

/-- C28: when the bottom-row allowance is `<= 0`, `gen_level` builds no default
opening for row 0: every cell of row 0 that is not the door cell is emitted as
empty geometry, whatever the removal list and the configured style; a row
`y > 0` still gets its opening from `window_grammar`, which holds one window
when the design ids are in `1..5`. -/
theorem gen_level_bottom_row_without_allowance (P : ParameterSet) (a : LevelCall) (x : Int)
    (hb : a.bottom_height ≤ 0) :
    (a.y = 0 → ¬ (a.door = 0 ∧ a.y = 0 ∧ (x : ℚ) = P.door_parameters 0) →
      gen_level_nef_windows P a = Solid.empty ∧ (gen_level_cell P a x).isEmpty = true)
    ∧ (0 < a.y →
        gen_level_nef_windows P a
          = Solid.translate 0 0 P.vertical_offset
              (window_grammar a.shape_type P.window_scale_parameters P.window_design_parameters
                (gen_level_tile_width a / a.width_scale) (gen_level_tile_height a / a.height_scale)
                (gen_level_tile_width a) (gen_level_tile_height a) a.y a.grid_height)
        ∧ ((∀ k : Int, 0 ≤ k → k ≤ 2 →
              1 ≤ P.window_design_parameters k ∧ P.window_design_parameters k ≤ 5) →
            (gen_level_nef_windows P a).countWindows = 1)) := by
  have hnb : ¬ (a.bottom_height > 0) := by
    intro h
    exact absurd h (not_lt.mpr hb)
  constructor
  · intro hy hdoor
    have hw : gen_level_nef_windows P a = Solid.empty := by
      simp only [gen_level_nef_windows, hy, hnb, and_false, if_false, gt_iff_lt, lt_self_iff_false]
    refine ⟨hw, ?_⟩
    simp only [gen_level_cell, gen_level_nef_x, hdoor, if_false, hw, Solid.isEmpty]
    split_ifs <;> rfl
  · intro hy
    have hy0 : a.y ≠ 0 := by omega
    have hw : gen_level_nef_windows P a
        = Solid.translate 0 0 P.vertical_offset
            (window_grammar a.shape_type P.window_scale_parameters P.window_design_parameters
              (gen_level_tile_width a / a.width_scale) (gen_level_tile_height a / a.height_scale)
              (gen_level_tile_width a) (gen_level_tile_height a) a.y a.grid_height) := by
      simp only [gen_level_nef_windows, hy0, false_and, if_false, gt_iff_lt, hy, if_true]
    refine ⟨hw, ?_⟩
    intro hd
    rw [hw]
    simp only [Solid.countWindows]
    exact window_grammar_countWindows _ _ _ _ _ _ _ _ _ hd

/-- Witness for C28: row 0 of the sample grid with bottom allowance 0, column 0,
door flag off. -/
theorem gen_level_bottom_row_without_allowance_witness :
    (gen_level_cell sampleParams (sampleLevel 1 0 0 1) 0).isEmpty = true :=
  ((gen_level_bottom_row_without_allowance sampleParams (sampleLevel 1 0 0 1) 0
    (by norm_num [sampleLevel])).1 rfl (by simp [sampleLevel])).2

/-! ## Rotation of the openings -/

theorem gen_windows_countRotates (w : ℚ) (op : Int) (tw h th : ℚ) :
    (gen_windows w op tw h th).countRotates = 0 := by
  unfold gen_windows; split_ifs <;> rfl

theorem facade_grammar_calls_shape_type (tan : ℚ → ℚ) (sides shape_type : Int)
    (building_parameters : DArray) (c : FacadeCall)
    (hc : c ∈ facade_grammar_calls tan sides shape_type building_parameters) :
    c.shape_type = shape_type := by
  unfold facade_grammar_calls at hc
  simp only [List.mem_append] at hc
  rcases hc with hc | hc
  · split_ifs at hc with h1
    · simp only [List.mem_append, List.mem_map] at hc
      rcases hc with ⟨i, _, rfl⟩ | ⟨i, _, rfl⟩ <;> rfl
    · exact absurd hc (List.not_mem_nil _)
  · split_ifs at hc with h2 h3
    · obtain ⟨k, _, rfl⟩ := List.mem_map.mp hc
      rfl
    · simp only [List.mem_cons, List.mem_singleton, List.not_mem_nil, or_false] at hc
      rcases hc with rfl | rfl | rfl | rfl | rfl | rfl <;> rfl
    · exact absurd hc (List.not_mem_nil _)

theorem gen_facade_calls_shape_type (P : ParameterSet) (c : FacadeCall) (a : LevelCall)
    (ha : a ∈ gen_facade_calls P c) : a.shape_type = c.shape_type := by
  unfold gen_facade_calls at ha
  simp only [List.mem_append, List.mem_singleton, List.mem_map] at ha
  rcases ha with (h | ⟨y, _, h⟩) | h <;> subst h <;> rfl

/-- C29: `window_grammar` applies the additional rotation `(0, 0, 180)` to the
generated opening if and only if the shape type is 2 (the regular polygon), in
every branch (forced style 1, bottom, centre, top row): its result is the empty
solid plus the opening of some style, wrapped in that one rotation for shape
type 2 and unrotated otherwise.  Every level of every facade enumerated by
`facade_grammar` is built with the shape type of the building, so the openings
of the rectangle and of the L shape, the second facade of each rectangle pair
included, are never rotated. -/
theorem window_grammar_rotation_iff_polygon (shape_type : Int)
    (window_scale_parameters window_design_parameters : DArray)
    (window_width window_height tile_width tile_height : ℚ) (grid_y grid_height : Int) :
    (∃ style : Int,
      window_grammar shape_type window_scale_parameters window_design_parameters window_width
          window_height tile_width tile_height grid_y grid_height
        = Solid.union Solid.empty
            (if shape_type = 2 then
              Solid.rotate 0 0 180
                (gen_windows window_width style tile_width window_height tile_height)
            else gen_windows window_width style tile_width window_height tile_height))
    ∧ (window_grammar shape_type window_scale_parameters window_design_parameters window_width
          window_height tile_width tile_height grid_y grid_height).countRotates
        = (if shape_type = 2 then 1 else 0)
    ∧ (∀ (tan : ℚ → ℚ) (P : ParameterSet) (sides : Int) (building_parameters : DArray),
        ∀ c ∈ facade_grammar_calls tan sides shape_type building_parameters,
          ∀ a ∈ gen_facade_calls P c, a.shape_type = shape_type) := by
  have h1 : ∃ style : Int,
      window_grammar shape_type window_scale_parameters window_design_parameters window_width
          window_height tile_width tile_height grid_y grid_height
        = Solid.union Solid.empty
            (if shape_type = 2 then
              Solid.rotate 0 0 180
                (gen_windows window_width style tile_width window_height tile_height)
            else gen_windows window_width style tile_width window_height tile_height) := by
    unfold window_grammar window_grammar_place
    split_ifs <;> exact ⟨_, rfl⟩
  refine ⟨h1, ?_, ?_⟩
  · obtain ⟨style, hs⟩ := h1
    rw [hs]
    split_ifs <;> simp [Solid.countRotates, gen_windows_countRotates]
  · intro tan P sides building_parameters c hc a ha
    rw [gen_facade_calls_shape_type P c a ha,
      facade_grammar_calls_shape_type tan sides shape_type building_parameters c hc]

/-- Witness for C29: the bottom level of the rectangle's second facade has the
shape type 1. -/
theorem window_grammar_rotation_iff_polygon_witness :
    (facade_row_spec sampleParams sampleFacadeBack 3 0).shape_type = 1 :=
  (window_grammar_rotation_iff_polygon 1 (fun _ => 2) sampleDesigns 50 100 100 200 0 3).2.2
    (fun _ => 1) sampleParams 4 sampleBuilding sampleFacadeBack
    (by
      simp [facade_grammar_calls, sampleFacadeBack, sampleBuilding, List.range_succ]
      norm_num)
    (facade_row_spec sampleParams sampleFacadeBack 3 0) (by decide)

/-! ## The door facade -/

theorem gen_level_cell_countDoors_of_door_ne (P : ParameterSet) (a : LevelCall) (x : Int)
    (hd : a.door ≠ 0) : (gen_level_cell P a x).countDoors = 0 := by
  simp only [gen_level_cell, gen_level_nef_x, hd, false_and, if_false, Solid.countDoors]
  split_ifs <;> simp [Solid.countDoors, gen_level_nef_windows_countDoors]

theorem gen_level_nef_railing_countDoors (P : ParameterSet) (a : LevelCall) :
    (gen_level_nef_railing P a).countDoors = 0 := by
  unfold gen_level_nef_railing
  rw [gen_level_railing_spec]
  cases P.railing_parameters.find? (fun r => decide (railing_matches a.side a.y r)) <;>
    simp [Solid.countDoors, gen_railing]

theorem gen_level_countDoors_of_door_ne (P : ParameterSet) (a : LevelCall) (hd : a.door ≠ 0) :
    (gen_level P a).countDoors = 0 := by
  unfold gen_level
  rw [countDoors_foldl_union, gen_level_nef_railing_countDoors]
  simp [gen_level_cell_countDoors_of_door_ne P a _ hd]

theorem gen_facade_countDoors_of_door_ne (P : ParameterSet) (c : FacadeCall) (hd : c.door ≠ 0) :
    (gen_facade P c).countDoors = 0 := by
  simp only [gen_facade, gen_facade_rows, Solid.countDoors]
  rw [countDoors_foldl_union]
  have h : ∀ a ∈ gen_facade_calls P c, (gen_level P a).countDoors = 0 := by
    intro a ha
    apply gen_level_countDoors_of_door_ne
    rw [(gen_facade_calls_door_side P c a ha).1]
    exact hd
  rw [list_sum_map_const _ _ 0 h]
  simp [Solid.countDoors]

/-- C27: for every topology (rectangle, polygon with `S >= 3`, L shape), the
first facade that `facade_grammar` enumerates has side index 0 and is the only
one built with the door flag enabled (`door == 0`); every other facade has a
nonzero door flag and none of its cells receives the door solid, even at row 0
and the configured door column. -/
theorem facade_grammar_single_door_facade (tan : ℚ → ℚ) (P : ParameterSet)
    (sides shape_type : Int) (building_parameters : DArray)
    (hshape : shape_type = 1 ∨ (shape_type = 2 ∧ 3 ≤ sides) ∨ shape_type = 3) :
    ∃ first : FacadeCall, ∃ rest : List FacadeCall,
      facade_grammar_calls tan sides shape_type building_parameters = first :: rest
      ∧ first.door = 0 ∧ first.side = 0
      ∧ ∀ c ∈ rest, c.door ≠ 0
          ∧ (gen_facade P c).countDoors = 0
          ∧ ∀ a ∈ gen_facade_calls P c, ∀ x : Int, (gen_level_cell P a x).countDoors = 0 := by
  have hrest : ∀ c : FacadeCall, c.door ≠ 0 →
      c.door ≠ 0 ∧ (gen_facade P c).countDoors = 0
        ∧ ∀ a ∈ gen_facade_calls P c, ∀ x : Int, (gen_level_cell P a x).countDoors = 0 := by
    intro c hd
    refine ⟨hd, gen_facade_countDoors_of_door_ne P c hd, ?_⟩
    intro a ha x
    apply gen_level_cell_countDoors_of_door_ne
    rw [(gen_facade_calls_door_side P c a ha).1]
    exact hd
  rcases hshape with h | ⟨h, hS⟩ | h
  · subst h
    refine ⟨_, _, by simp [facade_grammar_calls, List.range_succ]; exact ⟨rfl, rfl⟩, ?_, ?_, ?_⟩
    · norm_num
    · rfl
    · intro c hc
      apply hrest
      simp only [List.mem_cons, List.mem_singleton, List.not_mem_nil, or_false] at hc
      rcases hc with rfl | rfl | rfl <;> simp
  · subst h
    obtain ⟨n, rfl⟩ : ∃ n : ℕ, sides = ((n + 1 : ℕ) : Int) := ⟨(sides - 1).toNat, by omega⟩
    rw [facade_grammar_calls_polygon, List.range_succ_eq_map, List.map_cons, List.map_map]
    refine ⟨_, _, rfl, ?_, ?_, ?_⟩
    · simp
    · simp
    · intro c hc
      apply hrest
      obtain ⟨k, _, rfl⟩ := List.mem_map.mp hc
      simp only [Function.comp]
      push_cast
      omega
  · subst h
    refine ⟨_, _, by simp [facade_grammar_calls]; exact ⟨rfl, rfl⟩, ?_, ?_, ?_⟩
    · rfl
    · rfl
    · intro c hc
      apply hrest
      simp only [List.mem_cons, List.mem_singleton, List.not_mem_nil, or_false] at hc
      rcases hc with rfl | rfl | rfl | rfl | rfl <;> simp

/-- Witness for C27: the rectangle on the sample building. -/
theorem facade_grammar_single_door_facade_witness :
    ∃ first : FacadeCall, ∃ rest : List FacadeCall,
      facade_grammar_calls (fun _ => 1) 4 1 sampleBuilding = first :: rest
      ∧ first.door = 0 ∧ first.side = 0
      ∧ ∀ c ∈ rest, c.door ≠ 0
          ∧ (gen_facade sampleParams c).countDoors = 0
          ∧ ∀ a ∈ gen_facade_calls sampleParams c, ∀ x : Int,
              (gen_level_cell sampleParams a x).countDoors = 0 :=
  facade_grammar_single_door_facade (fun _ => 1) sampleParams 4 1 sampleBuilding (Or.inl rfl)

/-! ## Footprint of the L shape and its facades -/

/-- C23, the code at the failing input: five of the lines `output_paramaters_txt`
writes are not stored into the slot they were written from.  The three height
scales are written under the width-scale names, `Grid Bottom Tile Height` and
`Window Center Design` are names the parser does not know.  Reading back the
file written for `sampleStore`, slot 0 of the window scales holds the bottom
height scale 3 instead of 2, and the bottom height scale, the bottom tile height
and the centre design keep the values generated before the read. -/
theorem parameter_file_lines_not_read_back :
    output_paramaters_txt_lines.filter
        (fun l => decide (parameter_management_slot l.1 ≠ some l.2))
      = [("Window Bottom Width Scale", Slot.window_scale 1),
         ("Window Centre Width Scale", Slot.window_scale 3),
         ("Window Top Width Scale", Slot.window_scale 5),
         ("Grid Bottom Tile Height", Slot.grid_bottom 6),
         ("Window Center Design", Slot.window_design 1)]
    ∧ (sampleStore (Slot.window_scale 0) = 2
      ∧ parameter_management_read (output_paramaters_txt sampleStore) sampleDefaults
          (Slot.window_scale 0) = 3)
    ∧ (sampleStore (Slot.window_scale 1) = 3
      ∧ parameter_management_read (output_paramaters_txt sampleStore) sampleDefaults
          (Slot.window_scale 1) = 0)
    ∧ (sampleStore (Slot.grid_bottom 6) = 100
      ∧ parameter_management_read (output_paramaters_txt sampleStore) sampleDefaults
          (Slot.grid_bottom 6) = 0)
    ∧ (sampleStore (Slot.window_design 1) = 2
      ∧ parameter_management_read (output_paramaters_txt sampleStore) sampleDefaults
          (Slot.window_design 1) = 0) := by
  refine ⟨by decide, ⟨by decide, by decide⟩, ⟨by decide, by decide⟩, ⟨by decide, by decide⟩,
    ⟨by decide, by decide⟩⟩

theorem intRange_eq_nil (lo hi : Int) (h : hi < lo) : intRange lo hi = [] := by
  unfold intRange
  have h0 : (hi + 1 - lo).toNat = 0 := by omega
  rw [h0]
  rfl

/-- C22, counterexample: the sample parameters with a grid row count of 1, in
which every tile has a positive size, are not rejected: `grammar` composes the rectangle,
whose result holds 14 openings and 2 doors (each facade stacks its bottom level
and its top level, both at row 0). -/
theorem grammar_composes_single_row_grid :
    toInt (sampleParamsOneRow.grid_top_parameters 6) = 1
    ∧ facade_grammar_tiles_positive (fun _ => 1) sampleParamsOneRow 4 1 sampleBuilding
    ∧ (gen_facade_calls sampleParamsOneRow sampleFacade).map (fun a => a.y) = [0, 0]
    ∧ ∃ G : Solid,
        grammar sampleCos sampleSin (fun _ => 1) main_globals sampleParamsOneRow 4 1
          sampleBuilding sampleOverhang = some G
        ∧ G.countWindows = 14 ∧ G.countDoors = 2 := by
  refine ⟨by decide, ?_, by decide, _, grammar_rectangle_eq _ _ _ _ _ _ _ _, by decide, by decide⟩
  unfold facade_grammar_tiles_positive
  decide!

/-- C22, amended: no parameter is validated, and nothing is rejected before
composition.  A parameter set with a grid row count of 1 or with a window scale
below 1 (an opening wider than its tile) is accepted: whenever the dimensions
of the building are doubles in the normal range and the tiles of the facades
have a positive size (row and column counts at least 1, positive scales,
`height > 2*bottom_allowance`), `grammar` returns the composed solid, for the
shape types 1, 2 (`sides >= 3`) and 3 the mass plus the facades, translated.
With a row count of 1 or 2 `gen_facade` composes exactly two levels, for the
rows 0 and `H-1`; with a width scale below 1 the opening is built wider than its
tile; with `height <= 2*bottom_allowance` the tile height is computed as a value
`<= 0`, unclamped.  With `sides = 0` the polygon has no result: the run is ended
by the division by zero of `polygon`, not by a validation. -/
theorem grammar_no_validation (cos sin tan : ℚ → ℚ) (P : ParameterSet)
    (sides : Int) (building_parameters overhang_parameters : DArray) (c : FacadeCall)
    (a : LevelCall) :
    (facade_grammar_tiles_positive tan P sides 1 building_parameters →
      dimension (building_parameters 0) → dimension (building_parameters 1) →
      dimension (building_parameters 4) →
      grammar cos sin tan main_globals P sides 1 building_parameters overhang_parameters
        = some (Solid.translate 0 0 (building_parameters 4 / 2)
            (Solid.union (gen_rectangle main_globals building_parameters overhang_parameters)
              (facade_grammar tan P sides 1 building_parameters))))
    ∧ (facade_grammar_tiles_positive tan P sides 2 building_parameters → 3 ≤ sides →
      0 < sin (((Int.tdiv 180 sides : Int) : ℚ) * PI / 180) →
      dimension (building_parameters 0) → dimension (building_parameters 4) →
      ∃ mass : Solid,
        gen_polygon cos sin building_parameters overhang_parameters sides = some mass
        ∧ grammar cos sin tan main_globals P sides 2 building_parameters overhang_parameters
          = some (Solid.translate 0 0 (building_parameters 4 / 2)
              (Solid.union mass (facade_grammar tan P sides 2 building_parameters))))
    ∧ (facade_grammar_tiles_positive tan P sides 3 building_parameters →
      dimension (building_parameters 0) → dimension (building_parameters 1) →
      dimension (building_parameters 2) → dimension (building_parameters 3) →
      dimension (building_parameters 4) →
      grammar cos sin tan main_globals P sides 3 building_parameters overhang_parameters
        = some (Solid.translate 0 0 (building_parameters 4 / 2)
            (Solid.union (gen_L main_globals building_parameters overhang_parameters)
              (facade_grammar tan P sides 3 building_parameters))))
    ∧ grammar cos sin tan main_globals P 0 2 building_parameters overhang_parameters = none
    ∧ (1 ≤ toInt (P.grid_top_parameters 6) → toInt (P.grid_top_parameters 6) ≤ 2 →
        (gen_facade_calls P c).map (fun b => b.y) = [0, toInt (P.grid_top_parameters 6) - 1])
    ∧ (1 ≤ a.grid_width → a.grid_width < 2 ^ 31 → dimension a.width →
        1 / 2 ^ 500 ≤ a.width_scale → a.width_scale < 1 - 1 / 2 ^ 53 →
        Machine.gen_level_tile_width a < Machine.gen_level_window_width a)
    ∧ (1 ≤ a.grid_height → a.grid_height < 2 ^ 31 → dimension a.height →
        fl a.bottom_height = a.bottom_height → a.bottom_height ≤ 2 ^ 500 →
        a.height ≤ 2 * a.bottom_height → Machine.gen_level_tile_height a ≤ 0) := by
  refine ⟨?_, ?_, ?_, ?_, ?_, ?_, ?_⟩
  · intro _ _ _ hh
    rw [grammar_rectangle_eq, ddiv_two _ hh.1]
  · intro _ hS _ _ hh
    obtain ⟨nef_roof, nef_band, hm⟩ :=
      gen_polygon_eq cos sin building_parameters overhang_parameters sides (by omega)
    refine ⟨_, hm, ?_⟩
    rw [grammar_polygon_eq _ _ _ _ _ _ _ _ _ hm, ddiv_two _ hh.1]
  · intro _ _ _ _ _ hh
    rw [grammar_L_eq, ddiv_two _ hh.1]
  · simp [grammar, gen_polygon_zero]
  · intro _ hH
    have hnil : intRange 1 (toInt (P.grid_top_parameters 6) - 2) = [] :=
      intRange_eq_nil 1 _ (by omega)
    simp only [gen_facade_calls, hnil, List.map_nil, List.append_nil, List.map_append,
      List.map_cons, List.singleton_append]
  · intro hW _ hwidth hs0 hs1
    obtain ⟨_, tw2, _, _⟩ := tile_width_facts a hW (dimension_pos _ hwidth)
    have hs : 0 < a.width_scale := lt_of_lt_of_le (by positivity) hs0
    have hq : 0 < Machine.gen_level_tile_width a / a.width_scale := div_pos tw2 hs
    have h := le_fl_of_pos _ hq
    unfold Machine.gen_level_window_width ddiv
    refine lt_of_lt_of_le ?_ h
    rw [div_mul_eq_mul_div, lt_div_iff₀ hs]
    exact mul_lt_mul_of_pos_left hs1 tw2
  · intro hH _ _ hb _ hheight
    have hHq : (0 : ℚ) < (a.grid_height : ℚ) := by
      exact_mod_cast (by omega : (0 : Int) < a.grid_height)
    unfold Machine.gen_level_tile_height ddiv dsub
    rw [dmul_two _ hb]
    apply fl_nonpos
    apply div_nonpos_of_nonpos_of_nonneg _ hHq.le
    apply fl_nonpos
    linarith

/-- Witness for C22: the sample parameters with a single row, on the sample
rectangle: every tile has a positive size and `grammar` returns the composed
building. -/
theorem grammar_no_validation_witness :
    grammar sampleCos sampleSin (fun _ => 1) main_globals sampleParamsOneRow 4 1 sampleBuilding
        sampleOverhang
      = some (Solid.translate 0 0 (sampleBuilding 4 / 2)
          (Solid.union (gen_rectangle main_globals sampleBuilding sampleOverhang)
            (facade_grammar (fun _ => 1) sampleParamsOneRow 4 1 sampleBuilding))) :=
  (grammar_no_validation sampleCos sampleSin (fun _ => 1) sampleParamsOneRow 4
    sampleBuilding sampleOverhang sampleFacade (sampleLevel 1 0 100 1)).1
    (by unfold facade_grammar_tiles_positive; decide!) dimension_200 dimension_500 dimension_500

end BuildingGen
